import Mathlib

/-!
# OpenVV viewability measurement (`OVVAsset.js`)

A shallow embedding of the viewability check of `src/org/openvv/js/OVVAsset.js`:
the geometry technique (`checkGeometry`), the beacon technique (`checkBeacons`)
and the orchestration in `OVVAsset.checkViewability`.

Numbers: every finite JavaScript number is represented by an exact rational, so
`Math.floor`, `Math.ceil`, `Math.min`, `Math.max` and the comparisons are the exact
ones.  `Infinity`, `-Infinity` and `NaN` are kept as separate values where the code
can produce them (the `Infinity` sentinel of the viewport and a division by a zero
area).  A DOM measurement that is `undefined` or `NaN` is `none`.  A `TypeError`
raised by reading a property of `undefined`/`null`, and an exception raised by a
probe, is `Except.error`.
-/

namespace OVV

/-! ## Data model -/

/-- A JavaScript number: a finite value, one of the infinities, or NaN. -/
inductive JSNum where
  | num (q : ℚ)
  | posInf
  | negInf
  | nan
  deriving DecidableEq

/-- The first entry of `getClientRects()`: distances from the viewport origin. -/
structure ClientRect where
  top : ℚ
  left : ℚ
  bottom : ℚ
  right : ℚ
  deriving DecidableEq

/-- An element with a `clientWidth` and a `clientHeight` (`document.body`,
`document.documentElement`); `none` is `undefined`/`NaN`. -/
structure Box where
  clientWidth : Option ℚ
  clientHeight : Option ℚ
  deriving DecidableEq

/-- The part of `document` that the check reads. -/
structure Document where
  body : Box
  documentElement : Option Box
  deriving DecidableEq

/-- The part of `window` that the check reads. -/
structure Window where
  innerWidth : Option ℚ
  innerHeight : Option ℚ
  deriving DecidableEq

/-- An element whose rectangle is queried (the player, a beacon container):
`getClientRects0` is `getClientRects()[0]`, `none` when the list is empty. -/
structure Element where
  getClientRects0 : Option ClientRect
  deriving DecidableEq

/-- A beacon: `isViewable` is the answer of `beacon.isViewable()`, `none` when
the call throws; `debug` is the outcome of `beacon.debug()`, `none` when the call
throws (also when the beacon has no such function). -/
structure Beacon where
  isViewable : Option Bool
  debug : Option Unit := some ()
  deriving DecidableEq

/-- The values collected by one check (`function OVVCheck()`), with the initial
values of the constructor.  A hole of the `beacons` array is `none`; the two
per-technique states are compared with `null` by the code, which is `none`. -/
structure OVVCheck where
  clientHeight : JSNum := .num (-1)
  clientWidth : JSNum := .num (-1)
  error : String := ""
  focus : Option Bool := none
  fps : ℚ := -1
  id : String := ""
  beaconsSupported : Option Bool := none
  geometrySupported : Option Bool := none
  geometryViewabilityState : Option String := some ""
  beaconViewabilityState : Option String := some ""
  technique : String := ""
  beacons : List (Option Bool) := []
  inIframe : Option Bool := none
  objBottom : ℚ := -1
  objLeft : ℚ := -1
  objRight : ℚ := -1
  objTop : ℚ := -1
  percentViewable : JSNum := .num (-1)
  viewabilityState : String := ""
  deriving DecidableEq

/-- The constant `OVVCheck.UNMEASURABLE`. -/
def OVVCheck.UNMEASURABLE : String := "unmeasurable"
/-- The constant `OVVCheck.VIEWABLE`. -/
def OVVCheck.VIEWABLE : String := "viewable"
/-- The constant `OVVCheck.UNVIEWABLE`. -/
def OVVCheck.UNVIEWABLE : String := "unviewable"
/-- The constant `OVVCheck.NOT_READY`. -/
def OVVCheck.NOT_READY : String := "not_ready"
/-- The constant `OVVCheck.BEACON`. -/
def OVVCheck.BEACON : String := "beacon"
/-- The constant `OVVCheck.GEOMETRY`. -/
def OVVCheck.GEOMETRY : String := "geometry"

/-! ## JavaScript primitives used by the check -/

/-- The global `isNaN` on a measurement. -/
def isNaN : Option ℚ → Bool
  | none => true
  | some _ => false

/-- Truthiness `!!x` of a measurement: `undefined`, `NaN` and `0` are falsy. -/
def truthy : Option ℚ → Bool
  | none => false
  | some q => decide (q ≠ 0)

/-- The comparison `x > 0` on a measurement (false for `undefined`/`NaN`). -/
def gtZero : Option ℚ → Bool
  | none => false
  | some q => decide (q > 0)

/-- A measurement as a number value. -/
def toNum : Option ℚ → JSNum
  | none => .nan
  | some q => .num q

/-- The function `Math.min` on two numbers. -/
def jsMin : JSNum → JSNum → JSNum
  | .nan, _ => .nan
  | _, .nan => .nan
  | .negInf, _ => .negInf
  | _, .negInf => .negInf
  | .posInf, b => b
  | a, .posInf => a
  | .num a, .num b => .num (min a b)

/-- The comparison `x >= 50` on a number. -/
def geFifty : JSNum → Bool
  | .num q => decide (q ≥ 50)
  | .posInf => true
  | .negInf => false
  | .nan => false

/-- The expression `Math.floor(visibleObjectArea / totalObjectArea * 100)` where
`totalObjectArea = width * height`.  A non-zero area gives the exact floor.  A zero
area gives `NaN` for `0 / 0` and otherwise an infinity whose sign is the sign of
`visibleObjectArea` times the sign of the zero (`width * height` is `-0` exactly when
one factor is zero and the other negative). -/
def percentOf (visibleObjectArea : ℤ) (width height : ℚ) : JSNum :=
  if width * height ≠ 0 then
    .num (⌊(visibleObjectArea : ℚ) / (width * height) * 100⌋ : ℤ)
  else if visibleObjectArea = 0 then .nan
  else if (0 < visibleObjectArea) = (0 ≤ width ∧ 0 ≤ height) then .posInf
  else .negInf

/-! ## The geometry technique -/

/-- The first part of `checkGeometry` (up to the test for `Infinity`): the viewport
width and height are resolved into `check.clientWidth` and `check.clientHeight`
from the body, the root element and the inner size of the window. -/
def resolveViewport (document : Document) (window : Window) (check : OVVCheck) : OVVCheck :=
  let check := { check with clientWidth := .posInf }
  let check := { check with clientHeight := .posInf }
  let check :=
    if !isNaN document.body.clientWidth && gtZero document.body.clientWidth then
      { check with clientWidth := toNum document.body.clientWidth }
    else check
  let check :=
    if !isNaN document.body.clientHeight && gtZero document.body.clientHeight then
      { check with clientHeight := toNum document.body.clientHeight }
    else check
  let check :=
    match document.documentElement with
    | some de =>
      if truthy de.clientWidth && !isNaN de.clientWidth then
        { check with clientWidth := toNum de.clientWidth }
      else check
    | none => check
  let check :=
    match document.documentElement with
    | some de =>
      if truthy de.clientHeight && !isNaN de.clientHeight then
        { check with clientHeight := toNum de.clientHeight }
      else check
    | none => check
  let check :=
    if truthy window.innerWidth && !isNaN window.innerWidth then
      { check with clientWidth := jsMin check.clientWidth (toNum window.innerWidth) }
    else check
  let check :=
    if truthy window.innerHeight && !isNaN window.innerHeight then
      { check with clientHeight := jsMin check.clientHeight (toNum window.innerHeight) }
    else check
  check

/-- The second part of `checkGeometry`, run when the viewport is determined as
`clientWidth` by `clientHeight`: the rectangle of the player is recorded and
`percentViewable` is computed.  Reading `top` of a missing rectangle throws. -/
def measurePlayer (clientWidth clientHeight : ℚ) (player : Element) (check : OVVCheck) :
    Except String OVVCheck :=
  match player.getClientRects0 with
  | none => .error "TypeError: objRect is undefined"
  | some objRect =>
    let check := { check with objTop := objRect.top }
    let check := { check with objBottom := objRect.bottom }
    let check := { check with objLeft := objRect.left }
    let check := { check with objRight := objRect.right }
    if objRect.bottom < 0 ∨ objRect.right < 0 ∨
        objRect.top > clientHeight ∨ objRect.left > clientWidth then
      .ok { check with percentViewable := .num 0 }
    else
      let xMin : ℤ := ⌈max 0 objRect.left⌉
      let xMax : ℤ := ⌊min clientWidth objRect.right⌋
      let yMin : ℤ := ⌈max 0 objRect.top⌉
      let yMax : ℤ := ⌊min clientHeight objRect.bottom⌋
      let visibleObjectArea : ℤ := (xMax - xMin + 1) * (yMax - yMin + 1)
      .ok { check with
        percentViewable :=
          percentOf visibleObjectArea (objRect.right - objRect.left)
            (objRect.bottom - objRect.top) }

/-- The function `checkGeometry(check, player)`.  The result is the state of the
caller's `check` object after the call.  When the viewport is not determined
(`clientHeight == Infinity || clientWidth == Infinity`; a resolved extent is
`Infinity` or finite) the code assigns a new object `{"error": ...}` to its local
name `check`, which leaves the caller's object as it is at that point. -/
def checkGeometry (document : Document) (window : Window) (player : Element)
    (check : OVVCheck) : Except String OVVCheck :=
  let check := resolveViewport document window check
  match check.clientWidth, check.clientHeight with
  | .num clientWidth, .num clientHeight => measurePlayer clientWidth clientHeight player check
  | _, _ => .ok check

/-! ## The asset and the beacon technique -/

/-- The fields of the page-wide `$ovv` object that the asset reads; `browserID` is
`$ovv.browser.ID`. -/
structure OVVGlobals where
  DEBUG : Bool
  IN_IFRAME : Bool
  browserID : ℕ

/-- The entry `MSIE` of `browserIDEnum`. -/
def browserIDEnum.MSIE : ℕ := 1
/-- The entry `Firefox` of `browserIDEnum`. -/
def browserIDEnum.Firefox : ℕ := 2
/-- The entry `Chrome` of `browserIDEnum`. -/
def browserIDEnum.Chrome : ℕ := 3
/-- The entry `Opera` of `browserIDEnum`. -/
def browserIDEnum.Opera : ℕ := 4
/-- The entry `safari` of `browserIDEnum`. -/
def browserIDEnum.safari : ℕ := 5

/-- The state of one `OVVAsset` together with what it observes on the page at the
time of a call.  `BEACON_SWF_URL` is the string literal that ActionScript
substitutes; `isIE11WIN81` and `uaHasMacOSX` are the two tests made on the user
agent at construction; `getBeacon` and `getBeaconContainer` are the results of
the memoized lookups; `inFocus` is the result of `isInFocus()`. -/
structure OVVAsset where
  ovv : OVVGlobals
  id : String
  beaconsStarted : ℕ
  player : Option Element
  isIE11WIN81 : Bool
  uaHasMacOSX : Bool
  BEACON_SWF_URL : String
  getBeacon : ℕ → Option Beacon
  getBeaconContainer : ℕ → Option Element
  document : Document
  window : Window
  inFocus : Bool

/-- The constant `TOTAL_BEACONS`. -/
def TOTAL_BEACONS : ℕ := 13
/-- The index `CONTROL`. -/
def CONTROL : ℕ := 0
/-- The index `CENTER`. -/
def CENTER : ℕ := 1
/-- The index `OUTER_TOP_LEFT`. -/
def OUTER_TOP_LEFT : ℕ := 2
/-- The index `OUTER_TOP_RIGHT`. -/
def OUTER_TOP_RIGHT : ℕ := 3
/-- The index `OUTER_BOTTOM_LEFT`. -/
def OUTER_BOTTOM_LEFT : ℕ := 4
/-- The index `OUTER_BOTTOM_RIGHT`. -/
def OUTER_BOTTOM_RIGHT : ℕ := 5
/-- The index `MIDDLE_TOP_LEFT`. -/
def MIDDLE_TOP_LEFT : ℕ := 6
/-- The index `MIDDLE_TOP_RIGHT`. -/
def MIDDLE_TOP_RIGHT : ℕ := 7
/-- The index `MIDDLE_BOTTOM_LEFT`. -/
def MIDDLE_BOTTOM_LEFT : ℕ := 8
/-- The index `MIDDLE_BOTTOM_RIGHT`. -/
def MIDDLE_BOTTOM_RIGHT : ℕ := 9
/-- The index `INNER_TOP_LEFT`. -/
def INNER_TOP_LEFT : ℕ := 10
/-- The index `INNER_TOP_RIGHT`. -/
def INNER_TOP_RIGHT : ℕ := 11
/-- The index `INNER_BOTTOM_LEFT`. -/
def INNER_BOTTOM_LEFT : ℕ := 12
/-- The index `INNER_BOTTOM_RIGHT`. -/
def INNER_BOTTOM_RIGHT : ℕ := 13

/-- The value `isChromeOnMac` computed when the asset is constructed. -/
def isChromeOnMac (a : OVVAsset) : Bool :=
  let isChrome := a.ovv.browserID == browserIDEnum.Chrome
  let isMac := a.uaHasMacOSX
  isChrome && isMac

/-- The function `isGeometryTechniqueApplicable`. -/
def isGeometryTechniqueApplicable (a : OVVAsset) : Bool :=
  !a.ovv.IN_IFRAME

/-- The function `isBeaconsTechniqueApplicable`. -/
def isBeaconsTechniqueApplicable (a : OVVAsset) : Bool :=
  if a.BEACON_SWF_URL = "" ∨ a.BEACON_SWF_URL = "BEACON" ++ "_SWF_" ++ "URL" then false
  else if !a.ovv.IN_IFRAME then false
  else if a.isIE11WIN81 = true then true
  else if a.ovv.browserID = browserIDEnum.MSIE then false
  else true

/-- The function `beaconsReady`. -/
def beaconsReady (a : OVVAsset) : Bool :=
  a.player.isSome && a.beaconsStarted == TOTAL_BEACONS

/-- The function `Math.max` on two measurements (`NaN` when one is not a number). -/
def jsMax : Option ℚ → Option ℚ → Option ℚ
  | some x, some y => some (max x y)
  | _, _ => none

/-- The comparison `x < m` against a measurement (false for `NaN`). -/
def ltMeasure (x : ℚ) : Option ℚ → Bool
  | some m => decide (x < m)
  | none => false

/-- The function `isOnScreen(element)`. -/
def isOnScreen (a : OVVAsset) (element : Option Element) : Bool :=
  match element with
  | none => false
  | some element =>
    match element.getClientRects0 with
    | none => false
    | some rect =>
      let sw := jsMax a.document.body.clientWidth a.window.innerWidth
      let sh := jsMax a.document.body.clientHeight a.window.innerHeight
      ltMeasure rect.top sh && decide (rect.bottom > 0) &&
        ltMeasure rect.left sw && decide (rect.right > 0)

/-- The assignment `array[index] = value` on an array that may be too short. -/
def arraySet (array : List (Option Bool)) (index : ℕ) (value : Bool) : List (Option Bool) :=
  if index < array.length then array.set index (some value)
  else array ++ List.replicate (index - array.length) none ++ [some value]

/-- The read `array[index]`; a hole or an index past the end is `undefined`. -/
def arrayGet (array : List (Option Bool)) (index : ℕ) : Option Bool :=
  (array.get? index).join

/-- The four counters of `checkBeacons`. -/
structure Counters where
  beaconsVisible : ℕ := 0
  outerCornersVisible : ℕ := 0
  middleCornersVisible : ℕ := 0
  innerCornersVisible : ℕ := 0
  deriving DecidableEq

/-- The `switch (index)` of the loop of `checkBeacons`. -/
def countCorner (index : ℕ) (n : Counters) : Counters :=
  if index = OUTER_TOP_LEFT ∨ index = OUTER_TOP_RIGHT ∨
      index = OUTER_BOTTOM_LEFT ∨ index = OUTER_BOTTOM_RIGHT then
    { n with outerCornersVisible := n.outerCornersVisible + 1 }
  else if index = MIDDLE_TOP_LEFT ∨ index = MIDDLE_TOP_RIGHT ∨
      index = MIDDLE_BOTTOM_LEFT ∨ index = MIDDLE_BOTTOM_RIGHT then
    { n with middleCornersVisible := n.middleCornersVisible + 1 }
  else if index = INNER_TOP_LEFT ∨ index = INNER_TOP_RIGHT ∨
      index = INNER_BOTTOM_LEFT ∨ index = INNER_BOTTOM_RIGHT then
    { n with innerCornersVisible := n.innerCornersVisible + 1 }
  else n

/-- One iteration of the loop of `checkBeacons`.  Calling `isViewable` on a
missing beacon throws, and so does a failing `isViewable`. -/
def beaconLoopBody (a : OVVAsset) (st : OVVCheck × Counters) (index : ℕ) :
    Except String (OVVCheck × Counters) :=
  let check := st.1
  let n := st.2
  if index = 0 then
    .ok ({ check with beacons := arraySet check.beacons 0 false }, n)
  else
    let beacon := a.getBeacon index
    let beaconContainer := a.getBeaconContainer index
    match beacon with
    | none => .error "TypeError: beacon is null"
    | some beacon =>
      match beacon.isViewable with
      | none => .error "isViewable failed"
      | some isViewable =>
        let onScreen := isOnScreen a beaconContainer
        let check := { check with beacons := arraySet check.beacons index (isViewable && onScreen) }
        if isViewable then
          .ok (check, countCorner index { n with beaconsVisible := n.beaconsVisible + 1 })
        else
          .ok (check, n)

/-- The verdict of `checkBeacons` after its loop, from the recorded `beacons`
array and the counters.  `some true`, `some false` and `none` are the return
values `true`, `false` and `null`. -/
def beaconVerdict (beacons : List (Option Bool)) (n : Counters) : Option Bool :=
  if n.beaconsVisible = TOTAL_BEACONS then some true
  else if arrayGet beacons CENTER = some false then
    if n.innerCornersVisible ≥ 3 ∨ n.middleCornersVisible ≥ 3 ∨ n.outerCornersVisible ≥ 3 then
      none
    else some false
  else if (arrayGet beacons OUTER_TOP_LEFT = some true ∧
        arrayGet beacons OUTER_TOP_RIGHT = some true) ∨
      (arrayGet beacons OUTER_TOP_LEFT = some true ∧
        arrayGet beacons OUTER_BOTTOM_LEFT = some true) ∨
      (arrayGet beacons OUTER_TOP_RIGHT = some true ∧
        arrayGet beacons OUTER_BOTTOM_RIGHT = some true) ∨
      (arrayGet beacons OUTER_BOTTOM_LEFT = some true ∧
        arrayGet beacons OUTER_BOTTOM_RIGHT = some true) then
    some true
  else if n.middleCornersVisible = 4 then some true
  else if (arrayGet beacons OUTER_TOP_LEFT = some true ∧
        arrayGet beacons OUTER_BOTTOM_RIGHT = some true) ∧
      (¬ arrayGet beacons MIDDLE_TOP_LEFT = some true ∨
        -- `![INNER_TOP_LEFT]`: an array literal is truthy
        False ∨
        ¬ arrayGet beacons CENTER = some true ∨
        ¬ arrayGet beacons INNER_BOTTOM_RIGHT = some true ∨
        ¬ arrayGet beacons MIDDLE_BOTTOM_RIGHT = some true) then
    none
  else if (arrayGet beacons OUTER_BOTTOM_LEFT = some true ∧
        arrayGet beacons OUTER_TOP_RIGHT = some true) ∧
      (¬ arrayGet beacons MIDDLE_BOTTOM_LEFT = some true ∨
        ¬ arrayGet beacons INNER_BOTTOM_LEFT = some true ∨
        ¬ arrayGet beacons CENTER = some true ∨
        ¬ arrayGet beacons INNER_TOP_RIGHT = some true ∨
        ¬ arrayGet beacons MIDDLE_TOP_RIGHT = some true) then
    none
  else some false

/-- The function `checkBeacons(check)`: the state of `check` after the call and
the returned value. -/
def checkBeacons (a : OVVAsset) (check : OVVCheck) : Except String (OVVCheck × Option Bool) :=
  if !beaconsReady a then .ok (check, none)
  else
    let check := { check with beacons := List.replicate TOTAL_BEACONS none }
    match a.player.bind Element.getClientRects0 with
    | none => .error "TypeError: objRect is undefined"
    | some objRect =>
      let check := { check with objTop := objRect.top }
      let check := { check with objBottom := objRect.bottom }
      let check := { check with objLeft := objRect.left }
      let check := { check with objRight := objRect.right }
      match (List.range (TOTAL_BEACONS + 1)).foldlM (beaconLoopBody a) (check, {}) with
      | .error e => .error e
      | .ok (check, n) => .ok (check, beaconVerdict check.beacons n)

/-! ## The orchestration -/

/-- The part of `checkViewability` from the lookup of the control beacon to the
end (the beacon technique and the reconciliation of debug mode). -/
def checkViewabilityBeacons (a : OVVAsset) (check : OVVCheck) : Except String OVVCheck :=
  let controlBeacon := a.getBeacon 0
  let controlBeaconContainer := a.getBeaconContainer 0
  let check :=
    match controlBeacon, controlBeaconContainer with
    | some beacon, some container =>
      -- `try { _cbVisible = controlBeacon.isViewable(); } catch (e) {}`
      let _cbVisible := beacon.isViewable.getD false
      let _cbOnScreen := isOnScreen a (some container)
      { check with beaconsSupported := some (!(_cbOnScreen && _cbVisible)) }
    | _, _ => { check with beaconsSupported := some false }
  let afterBeacons : Except String OVVCheck :=
    if !beaconsReady a then
      let check := { check with technique := OVVCheck.BEACON }
      .ok { check with viewabilityState := OVVCheck.NOT_READY }
    else if check.beaconsSupported = some true then
      let check := { check with technique := OVVCheck.BEACON }
      match checkBeacons a check with
      | .error e => .error e
      | .ok (check, viewable) =>
        match viewable with
        | none =>
          let check := { check with viewabilityState := OVVCheck.UNMEASURABLE }
          if a.ovv.DEBUG then
            .ok { check with beaconViewabilityState := some OVVCheck.UNMEASURABLE }
          else .ok check
        | some viewable =>
          let state := if viewable then OVVCheck.VIEWABLE else OVVCheck.UNVIEWABLE
          let check := { check with viewabilityState := state }
          if a.ovv.DEBUG then
            .ok { check with beaconViewabilityState := some state }
          else .ok check
    else
      .ok { check with viewabilityState := OVVCheck.UNMEASURABLE }
  match afterBeacons with
  | .error e => .error e
  | .ok check =>
    if a.ovv.DEBUG then
      let check := { check with technique := "" }
      if check.geometryViewabilityState = none ∧ check.beaconViewabilityState = none then
        .ok { check with viewabilityState := OVVCheck.UNMEASURABLE }
      else
        let beaconViewable := check.beaconViewabilityState == some OVVCheck.VIEWABLE
        let geometryViewable := check.geometryViewabilityState == some OVVCheck.VIEWABLE
        .ok { check with
          viewabilityState :=
            if beaconViewable || geometryViewable then OVVCheck.VIEWABLE
            else OVVCheck.UNVIEWABLE }
    else .ok check

/-- The method `OVVAsset.checkViewability`. -/
def checkViewability (a : OVVAsset) : Except String OVVCheck :=
  let check : OVVCheck := {}
  let check := { check with id := a.id }
  let check := { check with inIframe := some a.ovv.IN_IFRAME }
  let check := { check with geometrySupported := some (isGeometryTechniqueApplicable a) }
  let check := { check with focus := some a.inFocus }
  match a.player with
  | none => .ok { check with error := "Player not found!" }
  | some player =>
    let unmeasurable : Bool :=
      (!isGeometryTechniqueApplicable a && !isBeaconsTechniqueApplicable a) ||
        (isChromeOnMac a && a.ovv.IN_IFRAME)
    let check :=
      if unmeasurable then { check with viewabilityState := OVVCheck.UNMEASURABLE } else check
    if unmeasurable && !a.ovv.DEBUG then .ok check
    else if check.geometrySupported = some true then
      let check := { check with technique := OVVCheck.GEOMETRY }
      match checkGeometry a.document a.window player check with
      | .error e => .error e
      | .ok check =>
        let check := { check with
          viewabilityState :=
            if geFifty check.percentViewable then OVVCheck.VIEWABLE else OVVCheck.UNVIEWABLE }
        if a.ovv.DEBUG then
          checkViewabilityBeacons a
            { check with geometryViewabilityState := some check.viewabilityState }
        else .ok check
    else checkViewabilityBeacons a check

/-! ## Readiness of the probes -/

/-- The outcome of one call of `beaconStarted`: the asset after the call, how many
times the call invoked `player.startImpressionTimer()`, and whether the call
threw. -/
structure Started where
  asset : OVVAsset
  timerCalls : ℕ
  threw : Bool

/-- The method `OVVAsset.beaconStarted(index)`.  In debug mode the call starts with
`getBeacon(index).debug()`, which throws when the beacon is missing or has no
working `debug`; nothing has been changed at that point. -/
def beaconStarted (a : OVVAsset) (index : ℕ) : Started :=
  if a.ovv.DEBUG = true ∧ (a.getBeacon index).bind Beacon.debug = none then
    { asset := a, timerCalls := 0, threw := true }
  else if index = 0 then
    { asset := a, timerCalls := 0, threw := false }
  else
    let a := { a with beaconsStarted := a.beaconsStarted + 1 }
    if beaconsReady a then
      { asset := a, timerCalls := 1, threw := false }
    else
      { asset := a, timerCalls := 0, threw := false }

/-- A sequence of `beaconStarted` calls, one per index of the list, each made
whether or not an earlier one threw: the asset after the calls and the total
number of invocations of `player.startImpressionTimer()`. -/
def beaconStartedAll (a : OVVAsset) (indices : List ℕ) : OVVAsset × ℕ :=
  indices.foldl
    (fun s index => ((beaconStarted s.1 index).asset, s.2 + (beaconStarted s.1 index).timerCalls))
    (a, 0)

/-! ## Auxiliary definitions for the statements -/

/-- The width that `resolveViewport` stores in `clientWidth`. -/
def resolvedWidth (d : Document) (w : Window) : JSNum :=
  let cw := JSNum.posInf
  let cw := if !isNaN d.body.clientWidth && gtZero d.body.clientWidth then
    toNum d.body.clientWidth else cw
  let cw := match d.documentElement with
    | some de => if truthy de.clientWidth && !isNaN de.clientWidth then toNum de.clientWidth else cw
    | none => cw
  if truthy w.innerWidth && !isNaN w.innerWidth then jsMin cw (toNum w.innerWidth) else cw

/-- The height that `resolveViewport` stores in `clientHeight`. -/
def resolvedHeight (d : Document) (w : Window) : JSNum :=
  let ch := JSNum.posInf
  let ch := if !isNaN d.body.clientHeight && gtZero d.body.clientHeight then
    toNum d.body.clientHeight else ch
  let ch := match d.documentElement with
    | some de =>
      if truthy de.clientHeight && !isNaN de.clientHeight then toNum de.clientHeight else ch
    | none => ch
  if truthy w.innerHeight && !isNaN w.innerHeight then jsMin ch (toNum w.innerHeight) else ch

/-- A top-level page (not in an iframe, debug off) whose body, root element and
window all measure `W` by `H`, with a player at rectangle `r`; no beacons. -/
def pageAsset (W H : ℚ) (r : ClientRect) : OVVAsset :=
  { ovv := { DEBUG := false, IN_IFRAME := false, browserID := browserIDEnum.Chrome },
    id := "OVVID", beaconsStarted := 0, player := some { getClientRects0 := some r },
    isIE11WIN81 := false, uaHasMacOSX := false, BEACON_SWF_URL := "BEACON_SWF_URL",
    getBeacon := fun _ => none, getBeaconContainer := fun _ => none,
    document := { body := { clientWidth := some W, clientHeight := some H },
                  documentElement := some { clientWidth := some W, clientHeight := some H } },
    window := { innerWidth := some W, innerHeight := some H }, inFocus := true }

/-- The exact area of the intersection of the rectangle `r` with the viewport
`[0,W] x [0,H]`: the quantity the documentation of `percentViewable` refers to.
It is not computed by the code. -/
def intersectionArea (W H : ℚ) (r : ClientRect) : ℚ :=
  max 0 (min W r.right - max 0 r.left) * max 0 (min H r.bottom - max 0 r.top)

/-- The area of a rectangle (`totalObjectArea` in `checkGeometry`). -/
def ClientRect.area (r : ClientRect) : ℚ :=
  (r.right - r.left) * (r.bottom - r.top)


/-- A top-level page (not in an iframe, debug off) on which no candidate gives a
viewport size: the body, the root element and the window all measure 0 by 0; the
player is at rectangle `r`. -/
def blankPageAsset (r : ClientRect) : OVVAsset :=
  { ovv := { DEBUG := false, IN_IFRAME := false, browserID := browserIDEnum.Chrome },
    id := "OVVID", beaconsStarted := 0, player := some { getClientRects0 := some r },
    isIE11WIN81 := false, uaHasMacOSX := false, BEACON_SWF_URL := "BEACON_SWF_URL",
    getBeacon := fun _ => none, getBeaconContainer := fun _ => none,
    document := { body := { clientWidth := some 0, clientHeight := some 0 },
                  documentElement := some { clientWidth := some 0, clientHeight := some 0 } },
    window := { innerWidth := some 0, innerHeight := some 0 }, inFocus := true }

/-- A beacon container of one pixel, inside an 800 by 600 viewport when
`onScreen` and far off screen otherwise. -/
def containerAt (onScreen : Bool) : Element :=
  if onScreen then { getClientRects0 := some ⟨10, 10, 11, 11⟩ }
  else { getClientRects0 := some ⟨-100000, -100000, -99999, -99999⟩ }

/-- An asset inside an iframe (debug off, Chrome, a substituted beacon URL) on an
800 by 600 page, with all 13 probes started and the player at (0,0)-(300,400).
Probe `i` answers `isViewable i`; its container is inside the viewport when
`onScreen i` and far off screen otherwise. -/
def frameAsset (isViewable onScreen : ℕ → Bool) : OVVAsset :=
  { ovv := { DEBUG := false, IN_IFRAME := true, browserID := browserIDEnum.Chrome },
    id := "OVVID", beaconsStarted := 13,
    player := some { getClientRects0 := some ⟨0, 0, 300, 400⟩ },
    isIE11WIN81 := false, uaHasMacOSX := false,
    BEACON_SWF_URL := "http://example.com/OVVBeacon.swf",
    getBeacon := fun i => some { isViewable := some (isViewable i) },
    getBeaconContainer := fun i => some (containerAt (onScreen i)),
    document := { body := { clientWidth := some 800, clientHeight := some 600 },
                  documentElement := some { clientWidth := some 800, clientHeight := some 600 } },
    window := { innerWidth := some 800, innerHeight := some 600 }, inFocus := true }

/-- What `getBeacon(index).isViewable()` evaluates to: `none` when the beacon is
missing or the call throws. -/
def answer (a : OVVAsset) (index : ℕ) : Option Bool :=
  (a.getBeacon index).bind Beacon.isViewable

/-- The effect of one loop iteration of `checkBeacons` on the counters, for a
probe that answered `isViewable`. -/
def tally (index : ℕ) (isViewable : Bool) (n : Counters) : Counters :=
  if isViewable then countCorner index { n with beaconsVisible := n.beaconsVisible + 1 } else n

/-- The value recorded in `check.beacons[index]` for a probe that answered
`isViewable`: `isViewable && onScreen`. -/
def recorded (a : OVVAsset) (isViewable : ℕ → Bool) (index : ℕ) : Bool :=
  isViewable index && isOnScreen a (a.getBeaconContainer index)

/-- The `beacons` array after the loop of `checkBeacons`, for probes that
answered `isViewable`. -/
def recordedBeacons (a : OVVAsset) (isViewable : ℕ → Bool) : List (Option Bool) :=
  [some false, some (recorded a isViewable 1), some (recorded a isViewable 2),
   some (recorded a isViewable 3), some (recorded a isViewable 4),
   some (recorded a isViewable 5), some (recorded a isViewable 6),
   some (recorded a isViewable 7), some (recorded a isViewable 8),
   some (recorded a isViewable 9), some (recorded a isViewable 10),
   some (recorded a isViewable 11), some (recorded a isViewable 12),
   some (recorded a isViewable 13)]

/-- The counters after the loop of `checkBeacons`, for probes that answered
`isViewable`. -/
def counted (isViewable : ℕ → Bool) : Counters :=
  tally 13 (isViewable 13)
    (tally 12 (isViewable 12)
    (tally 11 (isViewable 11)
    (tally 10 (isViewable 10)
    (tally 9 (isViewable 9)
    (tally 8 (isViewable 8)
    (tally 7 (isViewable 7)
    (tally 6 (isViewable 6)
    (tally 5 (isViewable 5)
    (tally 4 (isViewable 4)
    (tally 3 (isViewable 3)
    (tally 2 (isViewable 2)
    (tally 1 (isViewable 1)
    {}))))))))))))

/-- The four Outer corner probes (the first group of the `switch` in
`checkBeacons`). -/
def OUTER_CORNERS : List ℕ :=
  [OUTER_TOP_LEFT, OUTER_TOP_RIGHT, OUTER_BOTTOM_LEFT, OUTER_BOTTOM_RIGHT]

/-- The four Middle corner probes (the second group of the `switch`). -/
def MIDDLE_CORNERS : List ℕ :=
  [MIDDLE_TOP_LEFT, MIDDLE_TOP_RIGHT, MIDDLE_BOTTOM_LEFT, MIDDLE_BOTTOM_RIGHT]

/-- The four Inner corner probes (the third group of the `switch`). -/
def INNER_CORNERS : List ℕ :=
  [INNER_TOP_LEFT, INNER_TOP_RIGHT, INNER_BOTTOM_LEFT, INNER_BOTTOM_RIGHT]

/-- How many probes of `ring` answer `isViewable() = true`, on screen or not. -/
def viewableAnswers (a : OVVAsset) (ring : List ℕ) : ℕ :=
  ring.countP (fun i => answer a i == some true)

/-- How many recorded readings `beacons[i]`, `i` in `ring`, are `true`. -/
def visibleReadings (beacons : List (Option Bool)) (ring : List ℕ) : ℕ :=
  ring.countP (fun i => arrayGet beacons i == some true)

/-- The test of `checkBeacons` for two adjacent Outer corners: both top corners,
both left corners, both right corners or both bottom corners read `true`. -/
def adjacentOuterPair (beacons : List (Option Bool)) : Prop :=
  (arrayGet beacons OUTER_TOP_LEFT = some true ∧
      arrayGet beacons OUTER_TOP_RIGHT = some true) ∨
    (arrayGet beacons OUTER_TOP_LEFT = some true ∧
      arrayGet beacons OUTER_BOTTOM_LEFT = some true) ∨
    (arrayGet beacons OUTER_TOP_RIGHT = some true ∧
      arrayGet beacons OUTER_BOTTOM_RIGHT = some true) ∨
    (arrayGet beacons OUTER_BOTTOM_LEFT = some true ∧
      arrayGet beacons OUTER_BOTTOM_RIGHT = some true)

/-- A top-level 800 by 600 page on which the player was not found. -/
def noPlayerAsset : OVVAsset :=
  { pageAsset 800 600 ⟨0, 0, 10, 10⟩ with player := none }

/-- The iframe asset of `frameAsset` with only 5 probes started. -/
def startingFrameAsset (isViewable onScreen : ℕ → Bool) : OVVAsset :=
  { frameAsset isViewable onScreen with beaconsStarted := 5 }

/-- The first step of `checkViewabilityBeacons`: the control beacon is read and
`beaconsSupported` is set. -/
def controlStage (a : OVVAsset) (check : OVVCheck) : OVVCheck :=
  match a.getBeacon 0, a.getBeaconContainer 0 with
  | some beacon, some container =>
    let _cbVisible := beacon.isViewable.getD false
    let _cbOnScreen := isOnScreen a (some container)
    { check with beaconsSupported := some (!(_cbOnScreen && _cbVisible)) }
  | _, _ => { check with beaconsSupported := some false }

/-- The second step of `checkViewabilityBeacons`: `not_ready`, the beacon
technique, or `unmeasurable`. -/
def techniqueStage (a : OVVAsset) (check : OVVCheck) : Except String OVVCheck :=
  if !beaconsReady a then
    let check := { check with technique := OVVCheck.BEACON }
    .ok { check with viewabilityState := OVVCheck.NOT_READY }
  else if check.beaconsSupported = some true then
    let check := { check with technique := OVVCheck.BEACON }
    match checkBeacons a check with
    | .error e => .error e
    | .ok (check, viewable) =>
      match viewable with
      | none =>
        let check := { check with viewabilityState := OVVCheck.UNMEASURABLE }
        if a.ovv.DEBUG then
          .ok { check with beaconViewabilityState := some OVVCheck.UNMEASURABLE }
        else .ok check
      | some viewable =>
        let state := if viewable then OVVCheck.VIEWABLE else OVVCheck.UNVIEWABLE
        let check := { check with viewabilityState := state }
        if a.ovv.DEBUG then
          .ok { check with beaconViewabilityState := some state }
        else .ok check
  else
    .ok { check with viewabilityState := OVVCheck.UNMEASURABLE }

/-- The last step of `checkViewabilityBeacons`: the reconciliation of debug mode. -/
def reconcileStage (a : OVVAsset) (check : OVVCheck) : Except String OVVCheck :=
  if a.ovv.DEBUG then
    let check := { check with technique := "" }
    if check.geometryViewabilityState = none ∧ check.beaconViewabilityState = none then
      .ok { check with viewabilityState := OVVCheck.UNMEASURABLE }
    else
      let beaconViewable := check.beaconViewabilityState == some OVVCheck.VIEWABLE
      let geometryViewable := check.geometryViewabilityState == some OVVCheck.VIEWABLE
      .ok { check with
        viewabilityState :=
          if beaconViewable || geometryViewable then OVVCheck.VIEWABLE
          else OVVCheck.UNVIEWABLE }
  else .ok check

/-- The geometry branch of `checkViewability` (the body of
`if (check.geometrySupported)`), continued in debug mode by the beacon steps. -/
def geometryStage (a : OVVAsset) (player : Element) (check : OVVCheck) :
    Except String OVVCheck :=
  let check := { check with technique := OVVCheck.GEOMETRY }
  match checkGeometry a.document a.window player check with
  | .error e => .error e
  | .ok check =>
    let check := { check with
      viewabilityState :=
        if geFifty check.percentViewable then OVVCheck.VIEWABLE else OVVCheck.UNVIEWABLE }
    if a.ovv.DEBUG then
      checkViewabilityBeacons a
        { check with geometryViewabilityState := some check.viewabilityState }
    else .ok check

/-- The part of `checkViewability` that follows the test for a missing player. -/
def foundStage (a : OVVAsset) (player : Element) (check : OVVCheck) : Except String OVVCheck :=
  let unmeasurable : Bool :=
    (!isGeometryTechniqueApplicable a && !isBeaconsTechniqueApplicable a) ||
      (isChromeOnMac a && a.ovv.IN_IFRAME)
  let check :=
    if unmeasurable then { check with viewabilityState := OVVCheck.UNMEASURABLE } else check
  if unmeasurable && !a.ovv.DEBUG then .ok check
  else if check.geometrySupported = some true then geometryStage a player check
  else checkViewabilityBeacons a check

/-- The iframe asset of `frameAsset` right after construction: no probe has
started yet. -/
def freshFrameAsset : OVVAsset :=
  { frameAsset (fun _ => false) (fun _ => false) with beaconsStarted := 0 }

/-- A freshly constructed asset in debug mode on Firefox, where a beacon is the
window of a frame and has no `debug` function. -/
def debugFirefoxAsset : OVVAsset :=
  { frameAsset (fun _ => false) (fun _ => false) with
    ovv := { DEBUG := true, IN_IFRAME := true, browserID := browserIDEnum.Firefox },
    beaconsStarted := 0,
    getBeacon := fun _ => some { isViewable := some false, debug := none } }

/-- The iframe asset of `frameAsset` with `started` probes started, where probe
`i` answers `isViewable i`; `none` is a call of `isViewable()` that throws. -/
def faultyFrameAsset (isViewable : ℕ → Option Bool) (onScreen : ℕ → Bool) (started : ℕ) :
    OVVAsset :=
  { frameAsset (fun _ => false) onScreen with
    beaconsStarted := started,
    getBeacon := fun i => some { isViewable := isViewable i } }

/-- The iframe asset of `frameAsset` on Chrome on a Mac. -/
def chromeMacFrameAsset : OVVAsset :=
  { frameAsset (fun _ => true) (fun _ => true) with uaHasMacOSX := true }

/-- The iframe asset with 5 probes started, in debug mode. -/
def debugStartingAsset : OVVAsset :=
  { startingFrameAsset (fun _ => false) (fun _ => false) with
    ovv := { DEBUG := true, IN_IFRAME := true, browserID := browserIDEnum.Chrome } }

/-- The integer that `measurePlayer` stores in `percentViewable` for a rectangle
of non-zero area on a viewport of `W` by `H`. -/
def visiblePercent (W H : ℚ) (r : ClientRect) : ℤ :=
  if r.bottom < 0 ∨ r.right < 0 ∨ r.top > H ∨ r.left > W then 0
  else
    ⌊(((⌊min W r.right⌋ - ⌈max 0 r.left⌉ + 1) * (⌊min H r.bottom⌋ - ⌈max 0 r.top⌉ + 1) : ℤ) : ℚ) /
      ((r.right - r.left) * (r.bottom - r.top)) * 100⌋

/-- Whether the call `beaconStarted(index)` returns normally on the asset `a`: it
throws only in debug mode, when `getBeacon(index).debug()` throws. -/
def returnsNormally (a : OVVAsset) (index : ℕ) : Bool :=
  !(a.ovv.DEBUG && ((a.getBeacon index).bind Beacon.debug).isNone)

/-- The number of calls in a sequence of `beaconStarted` calls that have a
non-control index and return normally. -/
def countedCalls (a : OVVAsset) (indices : List ℕ) : ℕ :=
  indices.countP (fun index => decide (index ≠ 0) && returnsNormally a index)

/-- The iframe asset of `freshFrameAsset` whose player was not found. -/
def lostPlayerFrameAsset : OVVAsset :=
  { freshFrameAsset with player := none }

/-! ## The event bus of `OVV`

The asset identifiers and event names are strings that do not name a member of
an empty JavaScript array (`length`, `push`, ...), so that `previousEvents[uid]` and
`subscribers[eventName + uid]` are `undefined` until the code assigns them.  The
callbacks are observers: they do not call back into the bus while they run. -/

/-- The object `eventArgs` built by `publish`; `eventTime` is what
`getCurrentTime()` returned. -/
structure OVVEvent where
  eventName : String
  eventTime : ℕ
  ovvArgs : String
deriving DecidableEq

/-- The value passed as `func` to `subscribe`: a function, named by a number, or
a value that is not a function. -/
inductive Callback where
  | function (id : ℕ)
  | notCallable
deriving DecidableEq

/-- An entry `{Func: func}` of a list of subscribers. -/
structure Subscriber where
  Func : Callback
deriving DecidableEq

/-- What the functions do when they are called with `(uid, eventArgs)`: return,
or throw. -/
abbrev Behaviour := ℕ → String → OVVEvent → Except String Unit

/-- One invocation of a function by the bus, with what `runSafely` returned for
it (`false` when the function threw). -/
structure Call where
  func : ℕ
  uid : String
  event : OVVEvent
  returned : Bool
deriving DecidableEq

/-- The private state of `OVV` used by the bus: `previousEvents` and
`subscribers`, two arrays used as maps from strings; `none` is `undefined`. -/
structure Bus where
  previousEvents : String → Option (List OVVEvent)
  subscribers : String → Option (List Subscriber)

/-- The state of the bus when `OVV` is constructed. -/
def Bus.init : Bus :=
  { previousEvents := fun _ => none, subscribers := fun _ => none }

/-- The constant `PREVIOUS_EVENTS_CAPACITY`. -/
def PREVIOUS_EVENTS_CAPACITY : ℕ := 1000

/-- The function `contains(item, list)`. -/
def contains (item : String) : List String → Bool
  | [] => false
  | x :: list => if x = item then true else contains item list

/-- The function `runSafely(action)`, for an action that returns `undefined` or
throws. -/
def runSafely (action : Except String Unit) : Bool :=
  match action with
  | .ok _ => true
  | .error _ => false

/-- The call `func(uid, eventArgs)` made inside `runSafely`.  When `func` is not a
function no function runs: `publish` skips the entry and in `subscribe` the
`TypeError` is caught by `runSafely`. -/
def invoke (run : Behaviour) (func : Callback) (uid : String) (eventArgs : OVVEvent) :
    List Call :=
  match func with
  | .function id =>
    [{ func := id, uid := uid, event := eventArgs, returned := runSafely (run id uid eventArgs) }]
  | .notCallable => []

/-- The loop `for (key in events)` of `subscribe`. -/
def register (uid : String) (func : Callback) (subscribers : String → Option (List Subscriber))
    (events : List String) : String → Option (List Subscriber) :=
  events.foldl
    (fun subscribers eventName =>
      let subscribers :=
        if subscribers (eventName ++ uid) = none then
          Function.update subscribers (eventName ++ uid) (some [])
        else subscribers
      Function.update subscribers (eventName ++ uid)
        ((subscribers (eventName ++ uid)).map (fun list => list ++ [{ Func := func }])))
    subscribers

/-- The method `OVV.subscribe(events, uid, func, getPreviousEvents)`: the state
after the call and the invocations made by it, in order. -/
def subscribe (run : Behaviour) (s : Bus) (events : List String) (uid : String)
    (func : Callback) (getPreviousEvents : Bool) : Bus × List Call :=
  let calls :=
    if getPreviousEvents then
      match s.previousEvents uid with
      | none => []
      | some buffer =>
        buffer.foldl
          (fun calls eventArgs =>
            if contains eventArgs.eventName events then calls ++ invoke run func uid eventArgs
            else calls)
          []
    else []
  ({ s with subscribers := register uid func s.subscribers events }, calls)

/-- The method `OVV.publish(eventName, uid, args)`, where `now` is the value of
`getCurrentTime()`: the state after the call and the invocations made by it, in
order. -/
def publish (run : Behaviour) (s : Bus) (eventName uid args : String) (now : ℕ) :
    Bus × List Call :=
  let eventArgs : OVVEvent := { eventName := eventName, eventTime := now, ovvArgs := args }
  let s :=
    if s.previousEvents uid = none then
      { s with previousEvents := Function.update s.previousEvents uid (some []) }
    else s
  let s :=
    match s.previousEvents uid with
    | some buffer =>
      if buffer.length < PREVIOUS_EVENTS_CAPACITY then
        { s with previousEvents := Function.update s.previousEvents uid (some (buffer ++ [eventArgs])) }
      else s
    | none => s
  let calls :=
    if eventName ≠ "" ∧ uid ≠ "" then
      match s.subscribers (eventName ++ uid) with
      | some list =>
        list.foldl (fun calls funcObject => calls ++ invoke run funcObject.Func uid eventArgs) []
      | none => []
    else []
  (s, calls)

/-- A call of one of the two methods of the bus. -/
inductive Op where
  | publish (eventName uid args : String) (now : ℕ)
  | subscribe (events : List String) (uid : String) (func : Callback) (getPreviousEvents : Bool)

/-- The effect of one call on the bus. -/
def step (run : Behaviour) (s : Bus) : Op → Bus × List Call
  | .publish eventName uid args now => publish run s eventName uid args now
  | .subscribe events uid func getPreviousEvents =>
    subscribe run s events uid func getPreviousEvents

/-- A sequence of calls on the bus: the final state and all invocations made, in
order. -/
def runOps (run : Behaviour) (s : Bus) : List Op → Bus × List Call
  | [] => (s, [])
  | op :: ops =>
    ((runOps run (step run s op).1 ops).1, (step run s op).2 ++ (runOps run (step run s op).1 ops).2)

/-- The replay buffer of the asset `uid` (empty when `previousEvents[uid]` is
`undefined`). -/
def buffer (s : Bus) (uid : String) : List OVVEvent :=
  (s.previousEvents uid).getD []

/-- The events published for the asset `uid` by a sequence of calls, in order. -/
def published (uid : String) : List Op → List OVVEvent
  | [] => []
  | .publish eventName uid' args now :: ops =>
    if uid' = uid then
      { eventName := eventName, eventTime := now, ovvArgs := args } :: published uid ops
    else published uid ops
  | .subscribe _ _ _ _ :: ops => published uid ops

/-- The values registered by a sequence of calls under the key `key` of
`subscribers`, one per registration, in subscription order. -/
def registrations (key : String) : List Op → List Callback
  | [] => []
  | .publish _ _ _ _ :: ops => registrations key ops
  | .subscribe events uid func _ :: ops =>
    (events.filter (fun eventName => eventName ++ uid = key)).map (fun _ => func) ++
      registrations key ops

/-- The values registered by a sequence of calls for the event kind `kind` and the
asset `uid`, one per registration, in subscription order. -/
def registrationsFor (kind uid : String) : List Op → List Callback
  | [] => []
  | .publish _ _ _ _ :: ops => registrationsFor kind uid ops
  | .subscribe events uid' func _ :: ops =>
    (if uid' = uid then (events.filter (fun eventName => eventName = kind)).map (fun _ => func)
      else []) ++ registrationsFor kind uid ops

/-- A call without the result of `runSafely`: the function, the asset id and the
event it was called with. -/
def Call.delivery (c : Call) : ℕ × String × OVVEvent :=
  (c.func, c.uid, c.event)

/-- The calls `publish(eventName, uid, args)` for one asset `uid`, one per triple
`(eventName, args, now)` of the list. -/
def publishes (uid : String) (pubs : List (String × String × ℕ)) : List Op :=
  pubs.map (fun p => Op.publish p.1 uid p.2.1 p.2.2)

/-- A bus whose replay buffer holds 1000 events `tick` for every asset. -/
def fullBus : Bus :=
  { previousEvents := fun _ =>
      some (List.replicate 1000 { eventName := "tick", eventTime := 0, ovvArgs := "" }),
    subscribers := fun _ => none }

/-- The calls `publish("A", "OVVID", "", t)` for t = 0, ..., 999 followed by one
call `publish("B", "OVVID", "", 1000)`. -/
def thousandThenOne : List Op :=
  publishes "OVVID" ((List.range 1000).map (fun t => ("A", "", t))) ++
    [Op.publish "B" "OVVID" "" 1000]

/-! ## The registry of assets of `OVV`

The private variable `assets` is a plain JavaScript object used as a map from ids
to assets.  An object is represented by the list of its own properties, in
insertion order; a read `assets[id]` that finds no own property falls through to
`Object.prototype`.  The ids under which assets are stored are taken to differ
from `__proto__` and `hasOwnProperty`, so that `assets[id] = ovvAsset` creates an
own property and `assets.hasOwnProperty` stays the inherited method.  Objects live
in a heap, so that two references to one object can be told from two objects
with equal contents. -/

/-- An `OVVAsset` object as the registry sees it: `id` is what `getId()` returns,
`tag` tells apart two assets with one id. -/
structure AssetRef where
  id : String
  tag : ℕ
deriving DecidableEq

/-- The own properties of a plain object whose values are assets. -/
abbrev JSObject := List (String × AssetRef)

/-- The names of the members that a plain object inherits from
`Object.prototype`. -/
def objectPrototype : List String :=
  ["constructor", "hasOwnProperty", "isPrototypeOf", "propertyIsEnumerable", "toLocaleString",
   "toString", "valueOf", "__proto__", "__defineGetter__", "__defineSetter__",
   "__lookupGetter__", "__lookupSetter__"]

/-- The result of a read `object[key]`: an asset stored as an own property, a
member inherited from `Object.prototype`, or `undefined`. -/
inductive JSValue where
  | asset (a : AssetRef)
  | inherited (name : String)
  | undefined
deriving DecidableEq

/-- The method `object.hasOwnProperty(key)`. -/
def JSObject.hasOwnProperty (o : JSObject) (key : String) : Bool :=
  o.any (fun p => decide (p.1 = key))

/-- The read `object[key]`. -/
def JSObject.get (o : JSObject) (key : String) : JSValue :=
  match o.find? (fun p => decide (p.1 = key)) with
  | some p => .asset p.2
  | none => if key ∈ objectPrototype then .inherited key else .undefined

/-- The assignment `object[key] = value`. -/
def JSObject.setProperty (o : JSObject) (key : String) (value : AssetRef) : JSObject :=
  if o.hasOwnProperty key then o.map (fun p => if p.1 = key then (key, value) else p)
  else o ++ [(key, value)]

/-- The statement `delete object[key]`. -/
def JSObject.deleteProperty (o : JSObject) (key : String) : JSObject :=
  o.filter (fun p => decide (p.1 ≠ key))

/-- The part of the state of `OVV` used by the registry: the heap of plain
objects, the reference held by the private variable `assets`, and the public
property `asset` (`none` while it is unset). -/
structure Registry where
  heap : List JSObject
  assets : ℕ
  asset : Option AssetRef

/-- The registry when `OVV` is constructed: `assets = {}`. -/
def Registry.init : Registry :=
  { heap := [[]], assets := 0, asset := none }

/-- The object a reference points to. -/
def Registry.deref (s : Registry) (ref : ℕ) : JSObject :=
  s.heap.getD ref []

/-- The method `OVV.addAsset(ovvAsset)`. -/
def addAsset (s : Registry) (ovvAsset : AssetRef) : Registry :=
  if !(s.deref s.assets).hasOwnProperty ovvAsset.id then
    let s := { s with
      heap := s.heap.set s.assets ((s.deref s.assets).setProperty ovvAsset.id ovvAsset) }
    { s with asset := some ovvAsset }
  else s

/-- The method `OVV.removeAsset(ovvAsset)`. -/
def removeAsset (s : Registry) (ovvAsset : AssetRef) : Registry :=
  { s with heap := s.heap.set s.assets ((s.deref s.assets).deleteProperty ovvAsset.id) }

/-- The method `OVV.getAssetById(id)`. -/
def getAssetById (s : Registry) (id : String) : JSValue :=
  (s.deref s.assets).get id

/-- The method `OVV.getAds()`: the object `copy` is allocated in the heap and
filled by the loop over the properties of `assets`; the result is the reference to
it. -/
def getAds (s : Registry) : Registry × ℕ :=
  let copy : JSObject :=
    (s.deref s.assets).foldl
      (fun copy p =>
        if (s.deref s.assets).hasOwnProperty p.1 then copy.setProperty p.1 p.2 else copy)
      []
  ({ s with heap := s.heap ++ [copy] }, s.heap.length)

/-- A change made by a caller to an object it holds a reference to:
`object[key] = value` or `delete object[key]`. -/
inductive Mutation where
  | assign (key : String) (value : AssetRef)
  | remove (key : String)

/-- The effect of a sequence of changes made through the reference `ref`. -/
def mutate (s : Registry) (ref : ℕ) (changes : List Mutation) : Registry :=
  changes.foldl
    (fun s change =>
      match change with
      | .assign key value =>
        { s with heap := s.heap.set ref ((s.deref ref).setProperty key value) }
      | .remove key => { s with heap := s.heap.set ref ((s.deref ref).deleteProperty key) })
    s

/-- The own properties of a plain object have distinct names. -/
def JSObject.wellFormed (o : JSObject) : Prop :=
  (o.map Prod.fst).Nodup

/-- The reference `assets` points into the heap, to a well-formed object. -/
def Registry.wellFormed (s : Registry) : Prop :=
  s.assets < s.heap.length ∧ (s.deref s.assets).wellFormed

/-! ## Disposal of an asset -/

/-- The `_cacheValue` object of a memoized function from indices to elements;
an element is named by the index of its beacon and `none` is `null`. -/
abbrev CacheValue := List (ℕ × Option ℕ)

/-- The function `Function.prototype.memoized(key)` for a function `fn` whose
cache is `cacheValue`: the cache after the call and the result.  A cached `null`
passes the test `!== undefined` and is returned. -/
def memoized (cacheValue : CacheValue) (fn : ℕ → Option ℕ) (key : ℕ) : CacheValue × Option ℕ :=
  match cacheValue.lookup key with
  | some value => (cacheValue, value)
  | none => ((key, fn key) :: cacheValue, fn key)

/-- The state that `dispose` works on: the registry, the beacon containers of the
asset that are children of `document.body` (by index), and the cache of the
memoized `getBeaconContainer`. -/
structure Page where
  ovv : Registry
  attached : List ℕ
  cacheValue : CacheValue

/-- The function `getFlashBeaconContainer(index)`: the lookup
`document.getElementById('OVVBeaconContainer_' + index + '_' + id)`. -/
def getFlashBeaconContainer (p : Page) (index : ℕ) : Option ℕ :=
  if index ∈ p.attached then some index else none

/-- The memoized function `getBeaconContainer(index)`. -/
def Page.getBeaconContainer (p : Page) (index : ℕ) : Page × Option ℕ :=
  match memoized p.cacheValue (getFlashBeaconContainer p) index with
  | (cacheValue, value) => ({ p with cacheValue := cacheValue }, value)

/-- The body of the loop of `dispose` for one index.  `delete
beaconsStarted[index]` has no effect on the number `beaconsStarted`;
`container.parentElement` is `null` for an element that is not in the document, and
the call of `removeChild` on it throws. -/
def disposeStep (p : Page) (index : ℕ) : Except String Page :=
  match p.getBeaconContainer index with
  | (p, some container) =>
    if container ∈ p.attached then .ok { p with attached := p.attached.erase container }
    else .error "TypeError: container.parentElement is null"
  | (p, none) => .ok p

/-- The method `OVVAsset.dispose()` of the asset `self`. -/
def dispose (p : Page) (self : AssetRef) : Except String Page :=
  match (List.range' 1 TOTAL_BEACONS).foldlM disposeStep p with
  | .error e => .error e
  | .ok p => .ok { p with ovv := removeAsset p.ovv self }

/-- The page after `new OVVAsset('OVVID')` created its 14 beacon containers
(indices 0 to 13) and was added to a new registry. -/
def beaconPage : Page :=
  { ovv := addAsset Registry.init { id := "OVVID", tag := 0 },
    attached := List.range 14,
    cacheValue := [] }

/-! ## The geometry technique: lemmas -/

theorem resolveViewport_eq (d : Document) (w : Window) (c : OVVCheck) :
    resolveViewport d w c =
      { c with clientWidth := resolvedWidth d w, clientHeight := resolvedHeight d w } := by
  unfold resolveViewport resolvedWidth resolvedHeight
  cases d.documentElement <;> simp only [] <;> split_ifs <;> rfl

theorem measurePlayer_frame (W H : ℚ) (p : Element) (c c' : OVVCheck)
    (h : measurePlayer W H p c = .ok c') :
    ∃ r, p.getClientRects0 = some r ∧
      c' = { c with objTop := r.top, objBottom := r.bottom, objLeft := r.left,
                    objRight := r.right, percentViewable := c'.percentViewable } := by
  unfold measurePlayer at h
  cases hr : p.getClientRects0 with
  | none => simp [hr] at h
  | some r =>
    refine ⟨r, rfl, ?_⟩
    simp only [hr] at h
    split_ifs at h <;> (injection h with h; subst h; rfl)

theorem checkViewability_geometry (a : OVVAsset) (player : Element)
    (hp : a.player = some player) (hg : isGeometryTechniqueApplicable a = true)
    (hd : a.ovv.DEBUG = false) :
    checkViewability a =
      match checkGeometry a.document a.window player
          { id := a.id, inIframe := some a.ovv.IN_IFRAME, geometrySupported := some true,
            focus := some a.inFocus, technique := OVVCheck.GEOMETRY } with
      | .error e => .error e
      | .ok check =>
        .ok { check with
          viewabilityState :=
            if geFifty check.percentViewable then OVVCheck.VIEWABLE else OVVCheck.UNVIEWABLE } := by
  have hi : a.ovv.IN_IFRAME = false := by simpa [isGeometryTechniqueApplicable] using hg
  simp [checkViewability, hp, hg, hd, hi]

theorem checkGeometry_determined (d : Document) (w : Window) (p : Element) (c : OVVCheck)
    (W H : ℚ) (hW : (resolveViewport d w c).clientWidth = .num W)
    (hH : (resolveViewport d w c).clientHeight = .num H) :
    checkGeometry d w p c = measurePlayer W H p (resolveViewport d w c) := by
  simp only [checkGeometry, hW, hH]

theorem checkGeometry_undetermined (d : Document) (w : Window) (p : Element) (c : OVVCheck)
    (h : (∀ W, (resolveViewport d w c).clientWidth ≠ .num W) ∨
      (∀ H, (resolveViewport d w c).clientHeight ≠ .num H)) :
    checkGeometry d w p c = .ok (resolveViewport d w c) := by
  unfold checkGeometry
  simp only []
  split
  · rename_i W H hW hH
    rcases h with h | h
    · exact absurd hW (h W)
    · exact absurd hH (h H)
  · rfl

theorem measurePlayer_ok (W H : ℚ) (p : Element) (c : OVVCheck) (r : ClientRect)
    (hr : p.getClientRects0 = some r) : ∃ c', measurePlayer W H p c = .ok c' := by
  unfold measurePlayer
  simp only [hr]
  split_ifs <;> exact ⟨_, rfl⟩

theorem checkGeometry_ok (d : Document) (w : Window) (p : Element) (c : OVVCheck)
    (r : ClientRect) (hr : p.getClientRects0 = some r) :
    ∃ c', checkGeometry d w p c = .ok c' := by
  unfold checkGeometry
  simp only []
  split
  · exact measurePlayer_ok _ _ p _ r hr
  · exact ⟨_, rfl⟩

theorem checkGeometry_frame (d : Document) (w : Window) (p : Element) (c c' : OVVCheck)
    (h : checkGeometry d w p c = .ok c') :
    c'.technique = c.technique ∧ c'.geometrySupported = c.geometrySupported ∧
      c'.error = c.error ∧ c'.beacons = c.beacons ∧ c'.id = c.id := by
  unfold checkGeometry at h
  simp only [] at h
  split at h
  · obtain ⟨r, -, hc⟩ := measurePlayer_frame _ _ _ _ _ h
    rw [hc, resolveViewport_eq]
    simp
  · injection h with h
    rw [← h, resolveViewport_eq]
    simp

/-! ## Claims on the geometry technique -/

/-- C1: when the player is found, geometry is supported and debug mode is off,
`checkViewability` returns (as soon as the player has a rectangle) and every
check it returns has technique `geometry` and a viewability state that is
`viewable` exactly when `percentViewable >= 50` and `unviewable` exactly otherwise. -/
theorem checkViewability_geometry_fifty (a : OVVAsset) (player : Element)
    (hp : a.player = some player) (hg : isGeometryTechniqueApplicable a = true)
    (hd : a.ovv.DEBUG = false) :
    (player.getClientRects0 ≠ none → ∃ check, checkViewability a = .ok check) ∧
    ∀ check, checkViewability a = .ok check →
      check.geometrySupported = some true ∧
      check.technique = OVVCheck.GEOMETRY ∧
      (check.viewabilityState = OVVCheck.VIEWABLE ↔ geFifty check.percentViewable = true) ∧
      (check.viewabilityState = OVVCheck.UNVIEWABLE ↔ geFifty check.percentViewable = false) := by
  rw [checkViewability_geometry a player hp hg hd]
  constructor
  · intro hr
    obtain ⟨r, hr⟩ := Option.ne_none_iff_exists'.mp hr
    obtain ⟨c', hc'⟩ := checkGeometry_ok a.document a.window player
      { id := a.id, inIframe := some a.ovv.IN_IFRAME, geometrySupported := some true,
        focus := some a.inFocus, technique := OVVCheck.GEOMETRY } r hr
    rw [hc']
    exact ⟨_, rfl⟩
  · intro check h
    split at h
    · exact absurd h (by simp)
    · rename_i c' hc'
      injection h with h
      obtain ⟨ht, hgs, -⟩ := checkGeometry_frame _ _ _ _ _ hc'
      subst h
      refine ⟨hgs, ht, ?_, ?_⟩
      · cases hge : geFifty c'.percentViewable <;>
          simp [OVVCheck.VIEWABLE, OVVCheck.UNVIEWABLE]
      · cases hge : geFifty c'.percentViewable <;>
          simp [OVVCheck.VIEWABLE, OVVCheck.UNVIEWABLE]

theorem resolveViewport_clientWidth (d : Document) (w : Window) (c : OVVCheck) :
    (resolveViewport d w c).clientWidth = resolvedWidth d w := by
  rw [resolveViewport_eq]

theorem resolveViewport_clientHeight (d : Document) (w : Window) (c : OVVCheck) :
    (resolveViewport d w c).clientHeight = resolvedHeight d w := by
  rw [resolveViewport_eq]

theorem pageAsset_viewport (W H : ℚ) (r : ClientRect) (c : OVVCheck) (hW : 0 < W) (hH : 0 < H) :
    resolveViewport (pageAsset W H r).document (pageAsset W H r).window c =
      { c with clientWidth := .num W, clientHeight := .num H } := by
  rw [resolveViewport_eq]
  simp [resolvedWidth, resolvedHeight, pageAsset, isNaN, gtZero, truthy, toNum, jsMin, hW, hH,
    hW.ne', hH.ne']

theorem checkGeometry_pageAsset (W H : ℚ) (r : ClientRect) (c : OVVCheck) (hW : 0 < W)
    (hH : 0 < H) (p : Element) :
    checkGeometry (pageAsset W H r).document (pageAsset W H r).window p c =
      measurePlayer W H p { c with clientWidth := .num W, clientHeight := .num H } := by
  rw [checkGeometry_determined _ _ _ _ W H (by rw [pageAsset_viewport W H r c hW hH])
    (by rw [pageAsset_viewport W H r c hW hH]), pageAsset_viewport W H r c hW hH]

theorem checkViewability_pageAsset (W H : ℚ) (r : ClientRect) (hW : 0 < W) (hH : 0 < H) :
    checkViewability (pageAsset W H r) =
      match measurePlayer W H { getClientRects0 := some r }
          { id := "OVVID", inIframe := some false, geometrySupported := some true,
            focus := some true, technique := OVVCheck.GEOMETRY,
            clientWidth := .num W, clientHeight := .num H } with
      | .error e => .error e
      | .ok check =>
        .ok { check with
          viewabilityState :=
            if geFifty check.percentViewable then OVVCheck.VIEWABLE else OVVCheck.UNVIEWABLE } := by
  rw [checkViewability_geometry (pageAsset W H r) { getClientRects0 := some r } rfl rfl rfl,
    checkGeometry_pageAsset W H r _ hW hH]
  rfl

/-- C2: on an 800 by 600 viewport, the player rectangle top -51, left 0, bottom 49,
right 100 has 4900 of its 10000 square pixels inside the viewport (49%), and
`checkViewability` reports `percentViewable` 50 and state `viewable`. -/
theorem checkViewability_viewable_below_half :
    ∃ check, checkViewability (pageAsset 800 600 ⟨-51, 0, 49, 100⟩) = .ok check ∧
      check.technique = OVVCheck.GEOMETRY ∧
      check.percentViewable = .num 50 ∧
      check.viewabilityState = OVVCheck.VIEWABLE ∧
      0 < ClientRect.area ⟨-51, 0, 49, 100⟩ ∧
      intersectionArea 800 600 ⟨-51, 0, 49, 100⟩ = 4900 ∧
      ClientRect.area ⟨-51, 0, 49, 100⟩ = 10000 := by
  rw [checkViewability_pageAsset _ _ _ (by norm_num) (by norm_num)]
  simp [measurePlayer, percentOf, geFifty, intersectionArea, ClientRect.area]
  norm_num
/-- Witness of C1 on an 800 by 600 page with the player at (0,0)-(800,600). -/
theorem checkViewability_geometry_fifty_witness :
    (pageAsset 800 600 ⟨0, 0, 600, 800⟩).player = some { getClientRects0 := some ⟨0, 0, 600, 800⟩ } ∧
    isGeometryTechniqueApplicable (pageAsset 800 600 ⟨0, 0, 600, 800⟩) = true ∧
    (pageAsset 800 600 ⟨0, 0, 600, 800⟩).ovv.DEBUG = false ∧
    ∀ check, checkViewability (pageAsset 800 600 ⟨0, 0, 600, 800⟩) = .ok check →
      check.geometrySupported = some true ∧
      check.technique = OVVCheck.GEOMETRY ∧
      (check.viewabilityState = OVVCheck.VIEWABLE ↔ geFifty check.percentViewable = true) ∧
      (check.viewabilityState = OVVCheck.UNVIEWABLE ↔ geFifty check.percentViewable = false) :=
  ⟨rfl, rfl, rfl,
    (checkViewability_geometry_fifty (pageAsset 800 600 ⟨0, 0, 600, 800⟩)
      { getClientRects0 := some ⟨0, 0, 600, 800⟩ } rfl rfl rfl).2⟩

/-- C3: on an 800 by 600 viewport, the rectangle (0,0)-(100,100) lies inside the
viewport and has positive area, and `checkGeometry` sets `percentViewable` to 102. -/
theorem checkGeometry_contained_gives_102 :
    ∃ check,
      checkGeometry (pageAsset 800 600 ⟨0, 0, 100, 100⟩).document
        (pageAsset 800 600 ⟨0, 0, 100, 100⟩).window
        { getClientRects0 := some ⟨0, 0, 100, 100⟩ } {} = .ok check ∧
      check.clientWidth = .num 800 ∧ check.clientHeight = .num 600 ∧
      check.objTop = 0 ∧ check.objLeft = 0 ∧ check.objBottom = 100 ∧ check.objRight = 100 ∧
      check.percentViewable = .num 102 := by
  rw [checkGeometry_pageAsset _ _ _ _ (by norm_num) (by norm_num)]
  simp [measurePlayer, percentOf]
  norm_num

/-- C4: when the viewport is determined as `W` by `H` and the rectangle of the
player has `bottom < 0`, `right < 0`, `top > H` or `left > W`, `checkGeometry`
returns with `percentViewable = 0`; and `checkViewability` with the player found,
geometry supported and debug off returns a check with `percentViewable = 0` and
state `unviewable`. -/
theorem excluded_rect_percent_zero (a : OVVAsset) (player : Element) (r : ClientRect)
    (W H : ℚ) (check : OVVCheck)
    (hW : (resolveViewport a.document a.window check).clientWidth = .num W)
    (hH : (resolveViewport a.document a.window check).clientHeight = .num H)
    (hr : player.getClientRects0 = some r)
    (hout : r.bottom < 0 ∨ r.right < 0 ∨ r.top > H ∨ r.left > W) :
    (∃ c, checkGeometry a.document a.window player check = .ok c ∧
      c.percentViewable = .num 0) ∧
    (a.player = some player → isGeometryTechniqueApplicable a = true → a.ovv.DEBUG = false →
      ∃ c, checkViewability a = .ok c ∧ c.percentViewable = .num 0 ∧
        c.viewabilityState = OVVCheck.UNVIEWABLE) := by
  have key : ∀ c0 : OVVCheck, ∃ c, checkGeometry a.document a.window player c0 = .ok c ∧
      c.percentViewable = .num 0 := by
    intro c0
    rw [checkGeometry_determined _ _ _ _ W H
      (by rw [resolveViewport_clientWidth, ← resolveViewport_clientWidth _ _ check, hW])
      (by rw [resolveViewport_clientHeight, ← resolveViewport_clientHeight _ _ check, hH])]
    simp [measurePlayer, hr, hout]
  refine ⟨key check, fun hp hg hd => ?_⟩
  rw [checkViewability_geometry a player hp hg hd]
  obtain ⟨c, hc, hpct⟩ := key
    { id := a.id, inIframe := some a.ovv.IN_IFRAME, geometrySupported := some true,
      focus := some a.inFocus, technique := OVVCheck.GEOMETRY }
  rw [hc]
  exact ⟨_, rfl, hpct, by simp [hpct, geFifty]⟩

/-- Witness of C4: the rectangle top -50, left 0, bottom -10, right 100 on an 800
by 600 page. -/
theorem excluded_rect_percent_zero_witness :
    (∃ c, checkGeometry (pageAsset 800 600 ⟨-50, 0, -10, 100⟩).document
        (pageAsset 800 600 ⟨-50, 0, -10, 100⟩).window
        { getClientRects0 := some ⟨-50, 0, -10, 100⟩ } {} = .ok c ∧
      c.percentViewable = .num 0) ∧
    ∃ c, checkViewability (pageAsset 800 600 ⟨-50, 0, -10, 100⟩) = .ok c ∧
      c.percentViewable = .num 0 ∧ c.viewabilityState = OVVCheck.UNVIEWABLE :=
  have h := excluded_rect_percent_zero (pageAsset 800 600 ⟨-50, 0, -10, 100⟩)
    { getClientRects0 := some ⟨-50, 0, -10, 100⟩ } ⟨-50, 0, -10, 100⟩ 800 600 {}
    (by rw [pageAsset_viewport _ _ _ _ (by norm_num) (by norm_num)])
    (by rw [pageAsset_viewport _ _ _ _ (by norm_num) (by norm_num)])
    rfl (Or.inl (by norm_num))
  ⟨h.1, h.2 rfl rfl rfl⟩

/-- C5: on an 800 by 600 viewport, for the 120 by 60 rectangle (10,10)-(130,70),
which lies inside the viewport, `checkGeometry` sets `percentViewable` to 102,
which is above 100. -/
theorem checkGeometry_percent_above_100 :
    ∃ check,
      checkGeometry (pageAsset 800 600 ⟨10, 10, 70, 130⟩).document
        (pageAsset 800 600 ⟨10, 10, 70, 130⟩).window
        { getClientRects0 := some ⟨10, 10, 70, 130⟩ } {} = .ok check ∧
      check.clientWidth = .num 800 ∧ check.clientHeight = .num 600 ∧
      0 < ClientRect.area ⟨10, 10, 70, 130⟩ ∧
      check.percentViewable = .num 102 ∧ ¬ (102 : ℚ) ≤ 100 := by
  rw [checkGeometry_pageAsset _ _ _ _ (by norm_num) (by norm_num)]
  simp [measurePlayer, percentOf, ClientRect.area]
  norm_num

/-- C6: on a 100 by 100 viewport, the 16 by 16 rectangle (-12,-12)-(4,4) has an
intersection of area 16 with the viewport and the 16 by 16 rectangle
(left -15, top -1)-(right 1, bottom 15) an intersection of area 15;
`checkGeometry` gives the first `percentViewable = 9` and the second, whose
intersection is smaller, `percentViewable = 12`. -/
theorem checkGeometry_not_monotone :
    ∃ c₁ c₂,
      checkGeometry (pageAsset 100 100 ⟨-12, -12, 4, 4⟩).document
        (pageAsset 100 100 ⟨-12, -12, 4, 4⟩).window
        { getClientRects0 := some ⟨-12, -12, 4, 4⟩ } {} = .ok c₁ ∧
      checkGeometry (pageAsset 100 100 ⟨-1, -15, 15, 1⟩).document
        (pageAsset 100 100 ⟨-1, -15, 15, 1⟩).window
        { getClientRects0 := some ⟨-1, -15, 15, 1⟩ } {} = .ok c₂ ∧
      c₁.clientWidth = c₂.clientWidth ∧ c₁.clientHeight = c₂.clientHeight ∧
      c₁.objRight - c₁.objLeft = c₂.objRight - c₂.objLeft ∧
      c₁.objBottom - c₁.objTop = c₂.objBottom - c₂.objTop ∧
      intersectionArea 100 100 ⟨-12, -12, 4, 4⟩ = 16 ∧
      intersectionArea 100 100 ⟨-1, -15, 15, 1⟩ = 15 ∧
      c₁.percentViewable = .num 9 ∧ c₂.percentViewable = .num 12 := by
  rw [checkGeometry_pageAsset _ _ _ _ (by norm_num) (by norm_num),
    checkGeometry_pageAsset _ _ _ _ (by norm_num) (by norm_num)]
  simp [measurePlayer, percentOf, intersectionArea]
  norm_num

/-- C7: with a viewport resolved to 800 by 600, the player rectangle top 0, left 0,
bottom 600, right 800, the player found, geometry supported and debug off,
`checkViewability` returns `percentViewable = 100`, state `viewable` and
technique `geometry`. -/
theorem checkViewability_full_viewport (a : OVVAsset) (player : Element) (check : OVVCheck)
    (hW : (resolveViewport a.document a.window check).clientWidth = .num 800)
    (hH : (resolveViewport a.document a.window check).clientHeight = .num 600)
    (hr : player.getClientRects0 = some ⟨0, 0, 600, 800⟩)
    (hp : a.player = some player) (hg : isGeometryTechniqueApplicable a = true)
    (hd : a.ovv.DEBUG = false) :
    ∃ c, checkViewability a = .ok c ∧ c.percentViewable = .num 100 ∧
      c.viewabilityState = OVVCheck.VIEWABLE ∧ c.technique = OVVCheck.GEOMETRY := by
  rw [checkViewability_geometry a player hp hg hd]
  rw [checkGeometry_determined _ _ _ _ 800 600
    (by rw [resolveViewport_clientWidth, ← resolveViewport_clientWidth _ _ check, hW])
    (by rw [resolveViewport_clientHeight, ← resolveViewport_clientHeight _ _ check, hH])]
  rw [resolveViewport_eq]
  simp [measurePlayer, hr, percentOf, geFifty]
  norm_num

/-- Witness of C7: the 800 by 600 page with the player at (0,0)-(800,600). -/
theorem checkViewability_full_viewport_witness :
    ∃ c, checkViewability (pageAsset 800 600 ⟨0, 0, 600, 800⟩) = .ok c ∧
      c.percentViewable = .num 100 ∧
      c.viewabilityState = OVVCheck.VIEWABLE ∧ c.technique = OVVCheck.GEOMETRY :=
  checkViewability_full_viewport (pageAsset 800 600 ⟨0, 0, 600, 800⟩)
    { getClientRects0 := some ⟨0, 0, 600, 800⟩ } {}
    (by rw [pageAsset_viewport _ _ _ _ (by norm_num) (by norm_num)])
    (by rw [pageAsset_viewport _ _ _ _ (by norm_num) (by norm_num)])
    rfl rfl rfl rfl

/-- C8: on a page where no candidate gives a viewport size, `checkViewability`
returns a check whose `error` is the empty string; `percentViewable` is -1 and
both viewport extents are `Infinity`. -/
theorem checkViewability_undetermined_no_error :
    ∃ check, checkViewability (blankPageAsset ⟨0, 0, 10, 10⟩) = .ok check ∧
      check.clientWidth = .posInf ∧ check.clientHeight = .posInf ∧
      check.error = "" ∧ check.percentViewable = .num (-1) ∧
      check.technique = OVVCheck.GEOMETRY ∧
      check.viewabilityState = OVVCheck.UNVIEWABLE := by
  rw [checkViewability_geometry (blankPageAsset ⟨0, 0, 10, 10⟩)
    { getClientRects0 := some ⟨0, 0, 10, 10⟩ } rfl rfl rfl]
  rw [checkGeometry_undetermined _ _ _ _ (Or.inl (by
    intro W
    rw [resolveViewport_clientWidth]
    simp [resolvedWidth, blankPageAsset, isNaN, gtZero, truthy]))]
  rw [resolveViewport_eq]
  simp [resolvedWidth, resolvedHeight, blankPageAsset, isNaN, gtZero, truthy, geFifty]
  norm_num
/-! ## The beacon technique: lemmas -/

theorem beaconLoopBody_zero (a : OVVAsset) (c : OVVCheck) (n : Counters) :
    beaconLoopBody a (c, n) 0 = .ok ({ c with beacons := arraySet c.beacons 0 false }, n) := by
  simp [beaconLoopBody]

theorem beaconLoopBody_answer (a : OVVAsset) (c : OVVCheck) (n : Counters) (index : ℕ)
    (v : ℕ → Bool) (h0 : index ≠ 0) (h : answer a index = some (v index)) :
    beaconLoopBody a (c, n) index =
      .ok ({ c with beacons := arraySet c.beacons index (recorded a v index) },
        tally index (v index) n) := by
  unfold answer at h
  cases hb : a.getBeacon index with
  | none => simp [hb] at h
  | some b =>
    simp only [hb, Option.some_bind] at h
    simp only [beaconLoopBody, h0, if_false, hb, h, recorded, tally]
    cases v index <;> rfl

theorem beaconLoopBody_ok (a : OVVAsset) (s s' : OVVCheck × Counters) (index : ℕ)
    (h0 : index ≠ 0) (h : beaconLoopBody a s index = .ok s') :
    ∃ vi, answer a index = some vi := by
  unfold answer
  cases hb : a.getBeacon index with
  | none => simp [beaconLoopBody, h0, hb] at h
  | some b =>
    cases hv : b.isViewable with
    | none => simp [beaconLoopBody, h0, hb, hv] at h
    | some vi => exact ⟨vi, by simp [hv]⟩

theorem beaconLoop_ok (a : OVVAsset) (l : List ℕ) :
    ∀ (s s' : OVVCheck × Counters), l.foldlM (beaconLoopBody a) s = .ok s' →
      ∀ i ∈ l, i ≠ 0 → ∃ vi, answer a i = some vi := by
  induction l with
  | nil => intro s s' _ i hi; simp at hi
  | cons x xs ih =>
    intro s s' h i hi h0
    rw [List.foldlM_cons] at h
    cases hx : beaconLoopBody a s x with
    | error e => rw [hx] at h; exact absurd h (by simp [bind, Except.bind])
    | ok s₁ =>
      rw [hx] at h
      rcases List.mem_cons.mp hi with rfl | hi
      · exact beaconLoopBody_ok a s s₁ i h0 hx
      · exact ih s₁ s' h i hi h0

theorem ok_bind {α β : Type} (x : α) (f : α → Except String β) :
    (Except.ok x >>= f) = f x := rfl

theorem beaconLoopBody_step (a : OVVAsset) (c : OVVCheck) (B B' : List (Option Bool))
    (n : Counters) (index : ℕ) (v : ℕ → Bool) (h0 : index ≠ 0)
    (h : answer a index = some (v index))
    (hB : arraySet B index (recorded a v index) = B') :
    beaconLoopBody a ({ c with beacons := B }, n) index =
      .ok ({ c with beacons := B' }, tally index (v index) n) := by
  rw [beaconLoopBody_answer a _ _ index v h0 h, ← hB]

theorem beaconLoop_eq (a : OVVAsset) (c : OVVCheck) (v : ℕ → Bool)
    (hv : ∀ i, 1 ≤ i → i ≤ 13 → answer a i = some (v i)) :
    (List.range (TOTAL_BEACONS + 1)).foldlM (beaconLoopBody a)
        ({ c with beacons := List.replicate TOTAL_BEACONS none }, {}) =
      .ok ({ c with beacons := recordedBeacons a v }, counted v) := by
  have hr : List.range (TOTAL_BEACONS + 1) = [0, 1, 2, 3, 4, 5, 6, 7, 8, 9, 10, 11, 12, 13] := by
    decide
  rw [hr, List.foldlM_cons, beaconLoopBody_zero, ok_bind]
  have h0 : ({ c with beacons := List.replicate TOTAL_BEACONS none } : OVVCheck).beacons =
      List.replicate TOTAL_BEACONS none := rfl
  rw [h0, show arraySet (List.replicate TOTAL_BEACONS none) 0 false = [some false, none, none, none, none, none, none, none, none, none, none, none, none] from rfl]
  have hc : ∀ B B' : List (Option Bool),
      ({ ({ c with beacons := B } : OVVCheck) with beacons := B' } : OVVCheck) =
        { c with beacons := B' } := fun _ _ => rfl
  rw [hc]
  rw [List.foldlM_cons, beaconLoopBody_step a c [some false, none, none, none, none, none, none, none, none, none, none, none, none]
    [some false, some (recorded a v 1), none, none, none, none, none, none, none, none, none, none, none] _ 1 v (by decide)
    (hv 1 (by decide) (by decide)) rfl, ok_bind]
  rw [List.foldlM_cons, beaconLoopBody_step a c [some false, some (recorded a v 1), none, none, none, none, none, none, none, none, none, none, none]
    [some false, some (recorded a v 1), some (recorded a v 2), none, none, none, none, none, none, none, none, none, none] _ 2 v (by decide)
    (hv 2 (by decide) (by decide)) rfl, ok_bind]
  rw [List.foldlM_cons, beaconLoopBody_step a c [some false, some (recorded a v 1), some (recorded a v 2), none, none, none, none, none, none, none, none, none, none]
    [some false, some (recorded a v 1), some (recorded a v 2), some (recorded a v 3), none, none, none, none, none, none, none, none, none] _ 3 v (by decide)
    (hv 3 (by decide) (by decide)) rfl, ok_bind]
  rw [List.foldlM_cons, beaconLoopBody_step a c [some false, some (recorded a v 1), some (recorded a v 2), some (recorded a v 3), none, none, none, none, none, none, none, none, none]
    [some false, some (recorded a v 1), some (recorded a v 2), some (recorded a v 3), some (recorded a v 4), none, none, none, none, none, none, none, none] _ 4 v (by decide)
    (hv 4 (by decide) (by decide)) rfl, ok_bind]
  rw [List.foldlM_cons, beaconLoopBody_step a c [some false, some (recorded a v 1), some (recorded a v 2), some (recorded a v 3), some (recorded a v 4), none, none, none, none, none, none, none, none]
    [some false, some (recorded a v 1), some (recorded a v 2), some (recorded a v 3), some (recorded a v 4), some (recorded a v 5), none, none, none, none, none, none, none] _ 5 v (by decide)
    (hv 5 (by decide) (by decide)) rfl, ok_bind]
  rw [List.foldlM_cons, beaconLoopBody_step a c [some false, some (recorded a v 1), some (recorded a v 2), some (recorded a v 3), some (recorded a v 4), some (recorded a v 5), none, none, none, none, none, none, none]
    [some false, some (recorded a v 1), some (recorded a v 2), some (recorded a v 3), some (recorded a v 4), some (recorded a v 5), some (recorded a v 6), none, none, none, none, none, none] _ 6 v (by decide)
    (hv 6 (by decide) (by decide)) rfl, ok_bind]
  rw [List.foldlM_cons, beaconLoopBody_step a c [some false, some (recorded a v 1), some (recorded a v 2), some (recorded a v 3), some (recorded a v 4), some (recorded a v 5), some (recorded a v 6), none, none, none, none, none, none]
    [some false, some (recorded a v 1), some (recorded a v 2), some (recorded a v 3), some (recorded a v 4), some (recorded a v 5), some (recorded a v 6), some (recorded a v 7), none, none, none, none, none] _ 7 v (by decide)
    (hv 7 (by decide) (by decide)) rfl, ok_bind]
  rw [List.foldlM_cons, beaconLoopBody_step a c [some false, some (recorded a v 1), some (recorded a v 2), some (recorded a v 3), some (recorded a v 4), some (recorded a v 5), some (recorded a v 6), some (recorded a v 7), none, none, none, none, none]
    [some false, some (recorded a v 1), some (recorded a v 2), some (recorded a v 3), some (recorded a v 4), some (recorded a v 5), some (recorded a v 6), some (recorded a v 7), some (recorded a v 8), none, none, none, none] _ 8 v (by decide)
    (hv 8 (by decide) (by decide)) rfl, ok_bind]
  rw [List.foldlM_cons, beaconLoopBody_step a c [some false, some (recorded a v 1), some (recorded a v 2), some (recorded a v 3), some (recorded a v 4), some (recorded a v 5), some (recorded a v 6), some (recorded a v 7), some (recorded a v 8), none, none, none, none]
    [some false, some (recorded a v 1), some (recorded a v 2), some (recorded a v 3), some (recorded a v 4), some (recorded a v 5), some (recorded a v 6), some (recorded a v 7), some (recorded a v 8), some (recorded a v 9), none, none, none] _ 9 v (by decide)
    (hv 9 (by decide) (by decide)) rfl, ok_bind]
  rw [List.foldlM_cons, beaconLoopBody_step a c [some false, some (recorded a v 1), some (recorded a v 2), some (recorded a v 3), some (recorded a v 4), some (recorded a v 5), some (recorded a v 6), some (recorded a v 7), some (recorded a v 8), some (recorded a v 9), none, none, none]
    [some false, some (recorded a v 1), some (recorded a v 2), some (recorded a v 3), some (recorded a v 4), some (recorded a v 5), some (recorded a v 6), some (recorded a v 7), some (recorded a v 8), some (recorded a v 9), some (recorded a v 10), none, none] _ 10 v (by decide)
    (hv 10 (by decide) (by decide)) rfl, ok_bind]
  rw [List.foldlM_cons, beaconLoopBody_step a c [some false, some (recorded a v 1), some (recorded a v 2), some (recorded a v 3), some (recorded a v 4), some (recorded a v 5), some (recorded a v 6), some (recorded a v 7), some (recorded a v 8), some (recorded a v 9), some (recorded a v 10), none, none]
    [some false, some (recorded a v 1), some (recorded a v 2), some (recorded a v 3), some (recorded a v 4), some (recorded a v 5), some (recorded a v 6), some (recorded a v 7), some (recorded a v 8), some (recorded a v 9), some (recorded a v 10), some (recorded a v 11), none] _ 11 v (by decide)
    (hv 11 (by decide) (by decide)) rfl, ok_bind]
  rw [List.foldlM_cons, beaconLoopBody_step a c [some false, some (recorded a v 1), some (recorded a v 2), some (recorded a v 3), some (recorded a v 4), some (recorded a v 5), some (recorded a v 6), some (recorded a v 7), some (recorded a v 8), some (recorded a v 9), some (recorded a v 10), some (recorded a v 11), none]
    [some false, some (recorded a v 1), some (recorded a v 2), some (recorded a v 3), some (recorded a v 4), some (recorded a v 5), some (recorded a v 6), some (recorded a v 7), some (recorded a v 8), some (recorded a v 9), some (recorded a v 10), some (recorded a v 11), some (recorded a v 12)] _ 12 v (by decide)
    (hv 12 (by decide) (by decide)) rfl, ok_bind]
  rw [List.foldlM_cons, beaconLoopBody_step a c [some false, some (recorded a v 1), some (recorded a v 2), some (recorded a v 3), some (recorded a v 4), some (recorded a v 5), some (recorded a v 6), some (recorded a v 7), some (recorded a v 8), some (recorded a v 9), some (recorded a v 10), some (recorded a v 11), some (recorded a v 12)]
    [some false, some (recorded a v 1), some (recorded a v 2), some (recorded a v 3), some (recorded a v 4), some (recorded a v 5), some (recorded a v 6), some (recorded a v 7), some (recorded a v 8), some (recorded a v 9), some (recorded a v 10), some (recorded a v 11), some (recorded a v 12), some (recorded a v 13)] _ 13 v (by decide)
    (hv 13 (by decide) (by decide)) rfl, ok_bind]
  rfl
theorem beaconLoop_eq_of (a : OVVAsset) (c : OVVCheck) (v : ℕ → Bool)
    (hv : ∀ i, 1 ≤ i → i ≤ 13 → answer a i = some (v i))
    (hc : c.beacons = List.replicate TOTAL_BEACONS none) :
    (List.range (TOTAL_BEACONS + 1)).foldlM (beaconLoopBody a) (c, {}) =
      .ok ({ c with beacons := recordedBeacons a v }, counted v) := by
  have h := beaconLoop_eq a c v hv
  rw [← hc] at h
  exact h

theorem checkBeacons_eq (a : OVVAsset) (check : OVVCheck) (r : ClientRect) (v : ℕ → Bool)
    (hready : beaconsReady a = true)
    (hrect : a.player.bind Element.getClientRects0 = some r)
    (hv : ∀ i, 1 ≤ i → i ≤ 13 → answer a i = some (v i)) :
    checkBeacons a check =
      .ok ({ check with beacons := recordedBeacons a v, objTop := r.top, objBottom := r.bottom,
                        objLeft := r.left, objRight := r.right },
        beaconVerdict (recordedBeacons a v) (counted v)) := by
  unfold checkBeacons
  simp only [hready, hrect, Bool.not_true, Bool.false_eq_true, if_false]
  rw [beaconLoop_eq_of a _ v hv rfl]

theorem checkBeacons_ok (a : OVVAsset) (check check' : OVVCheck) (verdict : Option Bool)
    (hready : beaconsReady a = true) (h : checkBeacons a check = .ok (check', verdict)) :
    ∃ (r : ClientRect) (v : ℕ → Bool),
      a.player.bind Element.getClientRects0 = some r ∧
      (∀ i, 1 ≤ i → i ≤ 13 → answer a i = some (v i)) ∧
      check'.beacons = recordedBeacons a v ∧
      verdict = beaconVerdict (recordedBeacons a v) (counted v) := by
  cases hrect : a.player.bind Element.getClientRects0 with
  | none =>
    unfold checkBeacons at h
    simp [hready, hrect] at h
  | some r =>
    have hans : ∀ i, 1 ≤ i → i ≤ 13 → ∃ vi, answer a i = some vi := by
      intro i h1 h13
      unfold checkBeacons at h
      simp only [hready, hrect, Bool.not_true, Bool.false_eq_true, if_false] at h
      split at h
      · exact absurd h (by simp)
      · rename_i c n hl
        exact beaconLoop_ok a _ _ _ hl i
          (List.mem_range.mpr (by simp only [TOTAL_BEACONS]; omega)) (by omega)
    refine ⟨r, fun i => (answer a i).getD false, rfl, ?_, ?_⟩
    · intro i h1 h13
      obtain ⟨vi, hvi⟩ := hans i h1 h13
      simp [hvi]
    · have hv : ∀ i, 1 ≤ i → i ≤ 13 →
          answer a i = some ((fun i => (answer a i).getD false) i) := by
        intro i h1 h13
        obtain ⟨vi, hvi⟩ := hans i h1 h13
        simp [hvi]
      rw [checkBeacons_eq a check r _ hready hrect hv] at h
      injection h with h
      injection h with h1 h2
      exact ⟨by rw [← h1], h2.symm⟩
theorem arrayGet_recordedBeacons (a : OVVAsset) (v : ℕ → Bool) (i : ℕ) (h1 : 1 ≤ i)
    (h13 : i ≤ 13) : arrayGet (recordedBeacons a v) i = some (recorded a v i) := by
  interval_cases i <;> rfl

theorem tally_beaconsVisible (i : ℕ) (b : Bool) (n : Counters) :
    (tally i b n).beaconsVisible = n.beaconsVisible + b.toNat := by
  unfold tally countCorner
  cases b
  · simp
  · simp only [if_true]
    split_ifs <;> simp

theorem counted_beaconsVisible (v : ℕ → Bool) :
    (counted v).beaconsVisible =
      (v 1).toNat + (v 2).toNat + (v 3).toNat + (v 4).toNat + (v 5).toNat + (v 6).toNat +
        (v 7).toNat + (v 8).toNat + (v 9).toNat + (v 10).toNat + (v 11).toNat + (v 12).toNat +
        (v 13).toNat := by
  simp only [counted, tally_beaconsVisible]
  simp

theorem frameAsset_isOnScreen (vis ons : ℕ → Bool) (i : ℕ) :
    isOnScreen (frameAsset vis ons) ((frameAsset vis ons).getBeaconContainer i) = ons i := by
  cases h : ons i
  · simp [isOnScreen, frameAsset, containerAt, h, jsMax, ltMeasure]
  · simp [isOnScreen, frameAsset, containerAt, h, jsMax, ltMeasure]
    norm_num

/-! ## Claims on the beacon technique -/

/-- C9: with all probes ready, if every probe answers and is on screen then
`checkBeacons` returns `true` with the 13 non-control readings recorded as `true`;
and whenever `checkBeacons` returns with the 13 non-control readings
`check.beacons[1..13]` all `true`, the returned verdict is `true` (viewable). -/
theorem checkBeacons_all_visible (a : OVVAsset) (check : OVVCheck)
    (hready : beaconsReady a = true) :
    ((∃ r, a.player.bind Element.getClientRects0 = some r) →
      (∀ i, 1 ≤ i → i ≤ 13 → answer a i = some true) →
      (∀ i, 1 ≤ i → i ≤ 13 → isOnScreen a (a.getBeaconContainer i) = true) →
      ∃ check', checkBeacons a check = .ok (check', some true) ∧
        ∀ i, 1 ≤ i → i ≤ 13 → arrayGet check'.beacons i = some true) ∧
    (∀ check' verdict, checkBeacons a check = .ok (check', verdict) →
      (∀ i, 1 ≤ i → i ≤ 13 → arrayGet check'.beacons i = some true) →
      verdict = some true) := by
  have key : ∀ v : ℕ → Bool, (∀ i, 1 ≤ i → i ≤ 13 → v i = true) →
      beaconVerdict (recordedBeacons a v) (counted v) = some true := by
    intro v hv
    have h13 : (counted v).beaconsVisible = TOTAL_BEACONS := by
      rw [counted_beaconsVisible]
      simp [hv, TOTAL_BEACONS]
    simp [beaconVerdict, h13]
  constructor
  · rintro ⟨r, hrect⟩ hans hons
    have heq := checkBeacons_eq a check r (fun _ => true) hready hrect hans
    rw [key _ (fun _ _ _ => rfl)] at heq
    refine ⟨_, heq, ?_⟩
    intro i h1 h13
    show arrayGet (recordedBeacons a fun _ => true) i = some true
    rw [arrayGet_recordedBeacons a _ i h1 h13]
    simp [recorded, hons i h1 h13]
  · intro check' verdict h hall
    obtain ⟨r, v, -, -, hb, hverd⟩ := checkBeacons_ok a check check' verdict hready h
    rw [hverd]
    apply key
    intro i h1 h13
    have := hall i h1 h13
    rw [hb, arrayGet_recordedBeacons a v i h1 h13] at this
    simp only [recorded, Option.some.injEq, Bool.and_eq_true] at this
    exact this.1

/-- Witness of C9: every probe of the iframe asset answers `true` and is on
screen. -/
theorem checkBeacons_all_visible_witness :
    beaconsReady (frameAsset (fun _ => true) (fun _ => true)) = true ∧
    ∃ check', checkBeacons (frameAsset (fun _ => true) (fun _ => true)) {} =
        .ok (check', some true) ∧
      ∀ i, 1 ≤ i → i ≤ 13 → arrayGet check'.beacons i = some true :=
  ⟨rfl, (checkBeacons_all_visible (frameAsset (fun _ => true) (fun _ => true)) {} rfl).1
    ⟨_, rfl⟩ (fun _ _ _ => rfl) (fun i _ _ => frameAsset_isOnScreen _ _ i)⟩

/-- C10: whenever `checkBeacons` (all probes ready) returns with the Center reading
`true` and an adjacent pair of Outer corner readings both `true` (top-left and
top-right, top-left and bottom-left, top-right and bottom-right, or bottom-left
and bottom-right), the verdict is `true` (viewable), whatever the other readings
are; and `checkBeacons` does return when the player has a rectangle and every
probe answers. -/
theorem checkBeacons_center_adjacent_outer (a : OVVAsset) (check : OVVCheck)
    (hready : beaconsReady a = true) :
    ((∃ r, a.player.bind Element.getClientRects0 = some r) →
      (∀ i, 1 ≤ i → i ≤ 13 → ∃ vi, answer a i = some vi) →
      ∃ result, checkBeacons a check = .ok result) ∧
    (∀ check' verdict, checkBeacons a check = .ok (check', verdict) →
      arrayGet check'.beacons CENTER = some true →
      ((arrayGet check'.beacons OUTER_TOP_LEFT = some true ∧
          arrayGet check'.beacons OUTER_TOP_RIGHT = some true) ∨
        (arrayGet check'.beacons OUTER_TOP_LEFT = some true ∧
          arrayGet check'.beacons OUTER_BOTTOM_LEFT = some true) ∨
        (arrayGet check'.beacons OUTER_TOP_RIGHT = some true ∧
          arrayGet check'.beacons OUTER_BOTTOM_RIGHT = some true) ∨
        (arrayGet check'.beacons OUTER_BOTTOM_LEFT = some true ∧
          arrayGet check'.beacons OUTER_BOTTOM_RIGHT = some true)) →
      verdict = some true) := by
  constructor
  · rintro ⟨r, hrect⟩ hans
    have hv : ∀ i, 1 ≤ i → i ≤ 13 →
        answer a i = some ((fun i => (answer a i).getD false) i) := by
      intro i h1 h13
      obtain ⟨vi, hvi⟩ := hans i h1 h13
      simp [hvi]
    exact ⟨_, checkBeacons_eq a check r _ hready hrect hv⟩
  · intro check' verdict h hcenter hadj
    obtain ⟨r, v, -, -, hb, hverd⟩ := checkBeacons_ok a check check' verdict hready h
    rw [hb] at hcenter hadj
    rw [hverd]
    unfold beaconVerdict
    by_cases h1 : (counted v).beaconsVisible = TOTAL_BEACONS
    · rw [if_pos h1]
    · have h2 : ¬ arrayGet (recordedBeacons a v) CENTER = some false := by
        rw [hcenter]
        simp
      rw [if_neg h1, if_neg h2, if_pos hadj]

/-- Witness of C10: the Center and the two top Outer probes are visible and on
screen, every other probe answers `false`. -/
theorem checkBeacons_center_adjacent_outer_witness :
    beaconsReady (frameAsset (fun i => decide (i ≤ 3)) (fun _ => true)) = true ∧
    ∃ check', checkBeacons (frameAsset (fun i => decide (i ≤ 3)) (fun _ => true)) {} =
        .ok (check', some true) ∧
      arrayGet check'.beacons CENTER = some true ∧
      arrayGet check'.beacons OUTER_TOP_LEFT = some true ∧
      arrayGet check'.beacons OUTER_TOP_RIGHT = some true ∧
      arrayGet check'.beacons MIDDLE_TOP_LEFT = some false := by
  have heq := checkBeacons_eq (frameAsset (fun i => decide (i ≤ 3)) (fun _ => true)) {}
    ⟨0, 0, 300, 400⟩ (fun i => decide (i ≤ 3)) rfl rfl (fun _ _ _ => rfl)
  have hrd : ∀ i, 1 ≤ i → i ≤ 13 →
      arrayGet (recordedBeacons (frameAsset (fun i => decide (i ≤ 3)) (fun _ => true))
        (fun i => decide (i ≤ 3))) i = some (decide (i ≤ 3)) := by
    intro i h1 h13
    rw [arrayGet_recordedBeacons _ _ i h1 h13]
    simp [recorded, frameAsset_isOnScreen]
  have hv := (checkBeacons_center_adjacent_outer
    (frameAsset (fun i => decide (i ≤ 3)) (fun _ => true)) {} rfl).2 _ _ heq
    (hrd 1 (by decide) (by decide))
    (Or.inl ⟨hrd 2 (by decide) (by decide), hrd 3 (by decide) (by decide)⟩)
  rw [hv] at heq
  exact ⟨rfl, _, heq, hrd 1 (by decide) (by decide), hrd 2 (by decide) (by decide),
    hrd 3 (by decide) (by decide), hrd 6 (by decide) (by decide)⟩
/-! ## The verdict of the beacon technique: lemmas -/

theorem tally_outerCornersVisible (i : ℕ) (b : Bool) (n : Counters) :
    (tally i b n).outerCornersVisible =
      n.outerCornersVisible + (if i = 2 ∨ i = 3 ∨ i = 4 ∨ i = 5 then b.toNat else 0) := by
  unfold tally countCorner
  cases b
  · simp
  · simp only [if_true, OUTER_TOP_LEFT, OUTER_TOP_RIGHT, OUTER_BOTTOM_LEFT, OUTER_BOTTOM_RIGHT,
      MIDDLE_TOP_LEFT, MIDDLE_TOP_RIGHT, MIDDLE_BOTTOM_LEFT, MIDDLE_BOTTOM_RIGHT,
      INNER_TOP_LEFT, INNER_TOP_RIGHT, INNER_BOTTOM_LEFT, INNER_BOTTOM_RIGHT]
    split_ifs <;> simp

theorem tally_middleCornersVisible (i : ℕ) (b : Bool) (n : Counters) :
    (tally i b n).middleCornersVisible =
      n.middleCornersVisible + (if i = 6 ∨ i = 7 ∨ i = 8 ∨ i = 9 then b.toNat else 0) := by
  unfold tally countCorner
  cases b
  · simp
  · simp only [if_true, OUTER_TOP_LEFT, OUTER_TOP_RIGHT, OUTER_BOTTOM_LEFT, OUTER_BOTTOM_RIGHT,
      MIDDLE_TOP_LEFT, MIDDLE_TOP_RIGHT, MIDDLE_BOTTOM_LEFT, MIDDLE_BOTTOM_RIGHT,
      INNER_TOP_LEFT, INNER_TOP_RIGHT, INNER_BOTTOM_LEFT, INNER_BOTTOM_RIGHT]
    split_ifs <;> (simp; try omega)

theorem tally_innerCornersVisible (i : ℕ) (b : Bool) (n : Counters) :
    (tally i b n).innerCornersVisible =
      n.innerCornersVisible + (if i = 10 ∨ i = 11 ∨ i = 12 ∨ i = 13 then b.toNat else 0) := by
  unfold tally countCorner
  cases b
  · simp
  · simp only [if_true, OUTER_TOP_LEFT, OUTER_TOP_RIGHT, OUTER_BOTTOM_LEFT, OUTER_BOTTOM_RIGHT,
      MIDDLE_TOP_LEFT, MIDDLE_TOP_RIGHT, MIDDLE_BOTTOM_LEFT, MIDDLE_BOTTOM_RIGHT,
      INNER_TOP_LEFT, INNER_TOP_RIGHT, INNER_BOTTOM_LEFT, INNER_BOTTOM_RIGHT]
    split_ifs <;> (simp; try omega)

theorem counted_outerCornersVisible (v : ℕ → Bool) :
    (counted v).outerCornersVisible = (v 2).toNat + (v 3).toNat + (v 4).toNat + (v 5).toNat := by
  simp only [counted, tally_outerCornersVisible]
  simp

theorem counted_middleCornersVisible (v : ℕ → Bool) :
    (counted v).middleCornersVisible = (v 6).toNat + (v 7).toNat + (v 8).toNat + (v 9).toNat := by
  simp only [counted, tally_middleCornersVisible]
  simp

theorem counted_innerCornersVisible (v : ℕ → Bool) :
    (counted v).innerCornersVisible =
      (v 10).toNat + (v 11).toNat + (v 12).toNat + (v 13).toNat := by
  simp only [counted, tally_innerCornersVisible]
  simp

theorem counted_beaconsVisible_eq_iff (v : ℕ → Bool) :
    (counted v).beaconsVisible = TOTAL_BEACONS ↔ ∀ i, 1 ≤ i → i ≤ 13 → v i = true := by
  rw [counted_beaconsVisible]
  constructor
  · intro h i h1 h13
    have hb : ∀ j, (v j).toNat ≤ 1 := fun j => Bool.toNat_le (v j)
    have h1' := hb 1; have h2 := hb 2; have h3 := hb 3; have h4 := hb 4; have h5 := hb 5
    have h6 := hb 6; have h7 := hb 7; have h8 := hb 8; have h9 := hb 9; have h10 := hb 10
    have h11 := hb 11; have h12 := hb 12; have h13' := hb 13
    by_contra hne
    have hz : (v i).toNat = 0 := by
      cases hvi : v i
      · rfl
      · exact absurd hvi hne
    simp only [TOTAL_BEACONS] at h
    interval_cases i <;> omega
  · intro h
    simp [h, TOTAL_BEACONS]

theorem viewableAnswers_outer (a : OVVAsset) (v : ℕ → Bool)
    (hv : ∀ i, 1 ≤ i → i ≤ 13 → answer a i = some (v i)) :
    viewableAnswers a OUTER_CORNERS = (counted v).outerCornersVisible := by
  rw [counted_outerCornersVisible]
  simp only [viewableAnswers, OUTER_CORNERS, OUTER_TOP_LEFT, OUTER_TOP_RIGHT, OUTER_BOTTOM_LEFT,
    OUTER_BOTTOM_RIGHT, hv 2 (by decide) (by decide), hv 3 (by decide) (by decide),
    hv 4 (by decide) (by decide), hv 5 (by decide) (by decide), List.countP_cons, List.countP_nil]
  cases v 2 <;> cases v 3 <;> cases v 4 <;> cases v 5 <;> rfl

theorem viewableAnswers_middle (a : OVVAsset) (v : ℕ → Bool)
    (hv : ∀ i, 1 ≤ i → i ≤ 13 → answer a i = some (v i)) :
    viewableAnswers a MIDDLE_CORNERS = (counted v).middleCornersVisible := by
  rw [counted_middleCornersVisible]
  simp only [viewableAnswers, MIDDLE_CORNERS, MIDDLE_TOP_LEFT, MIDDLE_TOP_RIGHT,
    MIDDLE_BOTTOM_LEFT, MIDDLE_BOTTOM_RIGHT, hv 6 (by decide) (by decide),
    hv 7 (by decide) (by decide), hv 8 (by decide) (by decide), hv 9 (by decide) (by decide),
    List.countP_cons, List.countP_nil]
  cases v 6 <;> cases v 7 <;> cases v 8 <;> cases v 9 <;> rfl

theorem viewableAnswers_inner (a : OVVAsset) (v : ℕ → Bool)
    (hv : ∀ i, 1 ≤ i → i ≤ 13 → answer a i = some (v i)) :
    viewableAnswers a INNER_CORNERS = (counted v).innerCornersVisible := by
  rw [counted_innerCornersVisible]
  simp only [viewableAnswers, INNER_CORNERS, INNER_TOP_LEFT, INNER_TOP_RIGHT,
    INNER_BOTTOM_LEFT, INNER_BOTTOM_RIGHT, hv 10 (by decide) (by decide),
    hv 11 (by decide) (by decide), hv 12 (by decide) (by decide),
    hv 13 (by decide) (by decide), List.countP_cons, List.countP_nil]
  cases v 10 <;> cases v 11 <;> cases v 12 <;> cases v 13 <;> rfl

theorem recordedBeacons_frameAsset (vis ons : ℕ → Bool) :
    recordedBeacons (frameAsset vis ons) vis =
      [some false, some (vis 1 && ons 1), some (vis 2 && ons 2), some (vis 3 && ons 3),
       some (vis 4 && ons 4), some (vis 5 && ons 5), some (vis 6 && ons 6),
       some (vis 7 && ons 7), some (vis 8 && ons 8), some (vis 9 && ons 9),
       some (vis 10 && ons 10), some (vis 11 && ons 11), some (vis 12 && ons 12),
       some (vis 13 && ons 13)] := by
  simp only [recordedBeacons, recorded, frameAsset_isOnScreen]

theorem checkBeacons_frameAsset (vis ons : ℕ → Bool) (check : OVVCheck) :
    checkBeacons (frameAsset vis ons) check =
      .ok ({ check with beacons := recordedBeacons (frameAsset vis ons) vis, objTop := 0,
                        objBottom := 300, objLeft := 0, objRight := 400 },
        beaconVerdict (recordedBeacons (frameAsset vis ons) vis) (counted vis)) :=
  checkBeacons_eq (frameAsset vis ons) check ⟨0, 0, 300, 400⟩ vis rfl rfl (fun _ _ _ => rfl)
theorem visibleReadings_outer_le (a : OVVAsset) (v : ℕ → Bool) :
    visibleReadings (recordedBeacons a v) OUTER_CORNERS ≤ (counted v).outerCornersVisible := by
  rw [counted_outerCornersVisible]
  simp only [visibleReadings, OUTER_CORNERS, OUTER_TOP_LEFT, OUTER_TOP_RIGHT, OUTER_BOTTOM_LEFT,
    OUTER_BOTTOM_RIGHT, List.countP_cons, List.countP_nil,
    arrayGet_recordedBeacons a v 2 (by decide) (by decide),
    arrayGet_recordedBeacons a v 3 (by decide) (by decide),
    arrayGet_recordedBeacons a v 4 (by decide) (by decide),
    arrayGet_recordedBeacons a v 5 (by decide) (by decide), recorded]
  cases v 2 <;> cases v 3 <;> cases v 4 <;> cases v 5 <;> simp <;> split_ifs <;> omega

theorem checkBeacons_returns (a : OVVAsset) (check : OVVCheck) (hready : beaconsReady a = true)
    (hrect : ∃ r, a.player.bind Element.getClientRects0 = some r)
    (hans : ∀ i, 1 ≤ i → i ≤ 13 → ∃ vi, answer a i = some vi) :
    ∃ result, checkBeacons a check = .ok result := by
  obtain ⟨r, hrect⟩ := hrect
  have hv : ∀ i, 1 ≤ i → i ≤ 13 →
      answer a i = some ((fun i => (answer a i).getD false) i) := by
    intro i h1 h13
    obtain ⟨vi, hvi⟩ := hans i h1 h13
    simp [hvi]
  exact ⟨_, checkBeacons_eq a check r _ hready hrect hv⟩

/-- C11, as stated, fails in both directions.  First input: all 13 probes answer
`isViewable() = true` and the Center probe is off screen; the Center reading is
`false` and `checkBeacons` returns `true`.  Second input: only the Outer probes 2, 3
and 4 answer `true` and every probe is off screen; the Center reading is `false`,
no ring has a visible reading, and `checkBeacons` returns `null`. -/
theorem checkBeacons_center_invisible_counterexample :
    (∃ c, checkBeacons (frameAsset (fun _ => true) (fun i => decide (i ≠ 1))) {} =
        .ok (c, some true) ∧
      arrayGet c.beacons CENTER = some false) ∧
    (∃ c, checkBeacons (frameAsset (fun i => decide (2 ≤ i ∧ i ≤ 4)) (fun _ => false)) {} =
        .ok (c, none) ∧
      arrayGet c.beacons CENTER = some false ∧
      visibleReadings c.beacons OUTER_CORNERS = 0 ∧
      visibleReadings c.beacons MIDDLE_CORNERS = 0 ∧
      visibleReadings c.beacons INNER_CORNERS = 0) := by
  constructor
  · rw [checkBeacons_frameAsset, recordedBeacons_frameAsset]
    exact ⟨_, rfl, rfl⟩
  · rw [checkBeacons_frameAsset, recordedBeacons_frameAsset]
    exact ⟨_, rfl, rfl, rfl, rfl, rfl⟩

/-- C11 (amended): when `checkBeacons` (all probes ready) returns with the Center
reading `check.beacons[1]` equal to `false` and not all 13 probes answer
`isViewable() = true`, the verdict is `null` if at least 3 probes of one ring
(inner, middle or outer) answer `isViewable() = true`, on screen or not, and
`false` otherwise; in particular it is `null` when exactly 3 Outer readings are
`true`.  `checkBeacons` returns when the player has a rectangle and every probe
answers. -/
theorem checkBeacons_center_invisible (a : OVVAsset) (check : OVVCheck)
    (hready : beaconsReady a = true) :
    ((∃ r, a.player.bind Element.getClientRects0 = some r) →
      (∀ i, 1 ≤ i → i ≤ 13 → ∃ vi, answer a i = some vi) →
      ∃ result, checkBeacons a check = .ok result) ∧
    (∀ check' verdict, checkBeacons a check = .ok (check', verdict) →
      arrayGet check'.beacons CENTER = some false →
      (¬ ∀ i, 1 ≤ i → i ≤ 13 → answer a i = some true) →
      (verdict =
          if 3 ≤ viewableAnswers a INNER_CORNERS ∨ 3 ≤ viewableAnswers a MIDDLE_CORNERS ∨
              3 ≤ viewableAnswers a OUTER_CORNERS then none
          else some false) ∧
        (visibleReadings check'.beacons OUTER_CORNERS = 3 → verdict = none)) := by
  refine ⟨checkBeacons_returns a check hready, ?_⟩
  intro check' verdict h hcenter hnot
  obtain ⟨r, v, -, hv, hb, hverd⟩ := checkBeacons_ok a check check' verdict hready h
  rw [hb] at hcenter
  have h13 : ¬ (counted v).beaconsVisible = TOTAL_BEACONS := by
    rw [counted_beaconsVisible_eq_iff]
    intro hall
    exact hnot (fun i h1 h13 => by rw [hv i h1 h13, hall i h1 h13])
  have hverd' : verdict =
      if (counted v).innerCornersVisible ≥ 3 ∨ (counted v).middleCornersVisible ≥ 3 ∨
          (counted v).outerCornersVisible ≥ 3 then none
      else some false := by
    rw [hverd]
    unfold beaconVerdict
    rw [if_neg h13, if_pos hcenter]
  rw [viewableAnswers_inner a v hv, viewableAnswers_middle a v hv, viewableAnswers_outer a v hv]
  refine ⟨hverd', ?_⟩
  intro h3
  have hle := visibleReadings_outer_le a v
  rw [hb] at h3
  rw [hverd', if_pos (Or.inr (Or.inr (by omega)))]

/-- Witness of C11 (amended): the Center probe answers `false`, the Outer probes
2, 3 and 4 answer `true`, all probes are on screen. -/
theorem checkBeacons_center_invisible_witness :
    beaconsReady (frameAsset (fun i => decide (2 ≤ i ∧ i ≤ 4)) (fun _ => true)) = true ∧
    ∃ check', checkBeacons (frameAsset (fun i => decide (2 ≤ i ∧ i ≤ 4)) (fun _ => true)) {} =
        .ok (check', none) ∧
      arrayGet check'.beacons CENTER = some false ∧
      viewableAnswers (frameAsset (fun i => decide (2 ≤ i ∧ i ≤ 4)) (fun _ => true))
        OUTER_CORNERS = 3 := by
  have heq := checkBeacons_frameAsset (fun i => decide (2 ≤ i ∧ i ≤ 4)) (fun _ => true) {}
  have hc : arrayGet (recordedBeacons (frameAsset (fun i => decide (2 ≤ i ∧ i ≤ 4))
      (fun _ => true)) (fun i => decide (2 ≤ i ∧ i ≤ 4))) CENTER = some false := by
    rw [recordedBeacons_frameAsset]
    rfl
  have hn : ¬ ∀ i, 1 ≤ i → i ≤ 13 →
      answer (frameAsset (fun i => decide (2 ≤ i ∧ i ≤ 4)) (fun _ => true)) i = some true :=
    fun h => absurd (h 1 (by decide) (by decide)) (by decide)
  have ho : viewableAnswers (frameAsset (fun i => decide (2 ≤ i ∧ i ≤ 4)) (fun _ => true))
      OUTER_CORNERS = 3 := by decide
  have hv := ((checkBeacons_center_invisible
    (frameAsset (fun i => decide (2 ≤ i ∧ i ≤ 4)) (fun _ => true)) {} rfl).2 _ _ heq hc hn).1
  rw [if_pos (Or.inr (Or.inr (by rw [ho])))] at hv
  rw [hv] at heq
  exact ⟨rfl, _, heq, hc, ho⟩
theorem counted_middle_eq_four_iff (v : ℕ → Bool) :
    (counted v).middleCornersVisible = 4 ↔
      v 6 = true ∧ v 7 = true ∧ v 8 = true ∧ v 9 = true := by
  rw [counted_middleCornersVisible]
  cases v 6 <;> cases v 7 <;> cases v 8 <;> cases v 9 <;> simp

theorem recorded_true (a : OVVAsset) (v : ℕ → Bool) (i : ℕ) (h1 : 1 ≤ i) (h13 : i ≤ 13)
    (h : arrayGet (recordedBeacons a v) i = some true) : v i = true := by
  rw [arrayGet_recordedBeacons a v i h1 h13] at h
  simp only [recorded, Option.some.injEq, Bool.and_eq_true] at h
  exact h.1

theorem not_all_thirteen_of_middle (v : ℕ → Bool)
    (h : ¬ (v 6 = true ∧ v 7 = true ∧ v 8 = true ∧ v 9 = true)) :
    ¬ (counted v).beaconsVisible = TOTAL_BEACONS := by
  rw [counted_beaconsVisible_eq_iff]
  intro hall
  exact h ⟨hall 6 (by decide) (by decide), hall 7 (by decide) (by decide),
    hall 8 (by decide) (by decide), hall 9 (by decide) (by decide)⟩

theorem middle_answers (a : OVVAsset) (v : ℕ → Bool)
    (hv : ∀ i, 1 ≤ i → i ≤ 13 → answer a i = some (v i))
    (h : ¬ ∀ i ∈ MIDDLE_CORNERS, answer a i = some true) :
    ¬ (v 6 = true ∧ v 7 = true ∧ v 8 = true ∧ v 9 = true) := by
  rintro ⟨h6, h7, h8, h9⟩
  apply h
  intro i hi
  simp only [MIDDLE_CORNERS, MIDDLE_TOP_LEFT, MIDDLE_TOP_RIGHT, MIDDLE_BOTTOM_LEFT,
    MIDDLE_BOTTOM_RIGHT, List.mem_cons, List.mem_singleton, List.not_mem_nil, or_false] at hi
  rcases hi with rfl | rfl | rfl | rfl
  · rw [hv 6 (by decide) (by decide), h6]
  · rw [hv 7 (by decide) (by decide), h7]
  · rw [hv 8 (by decide) (by decide), h8]
  · rw [hv 9 (by decide) (by decide), h9]

/-- C12: whenever `checkBeacons` (all probes ready) returns with the Center reading
`true`, no adjacent pair of Outer corner readings both `true`, and the 4 Middle
readings all `true`, the verdict is `true` (viewable); and `checkBeacons` returns
when the player has a rectangle and every probe answers. -/
theorem checkBeacons_middle_visible (a : OVVAsset) (check : OVVCheck)
    (hready : beaconsReady a = true) :
    ((∃ r, a.player.bind Element.getClientRects0 = some r) →
      (∀ i, 1 ≤ i → i ≤ 13 → ∃ vi, answer a i = some vi) →
      ∃ result, checkBeacons a check = .ok result) ∧
    (∀ check' verdict, checkBeacons a check = .ok (check', verdict) →
      arrayGet check'.beacons CENTER = some true →
      ¬ adjacentOuterPair check'.beacons →
      (∀ i ∈ MIDDLE_CORNERS, arrayGet check'.beacons i = some true) →
      verdict = some true) := by
  refine ⟨checkBeacons_returns a check hready, ?_⟩
  intro check' verdict h hcenter hadj hmid
  obtain ⟨r, v, -, -, hb, hverd⟩ := checkBeacons_ok a check check' verdict hready h
  rw [hb] at hcenter hadj hmid
  unfold adjacentOuterPair at hadj
  have h4 : (counted v).middleCornersVisible = 4 := by
    rw [counted_middle_eq_four_iff]
    exact ⟨recorded_true a v 6 (by decide) (by decide) (hmid 6 (by decide)),
      recorded_true a v 7 (by decide) (by decide) (hmid 7 (by decide)),
      recorded_true a v 8 (by decide) (by decide) (hmid 8 (by decide)),
      recorded_true a v 9 (by decide) (by decide) (hmid 9 (by decide))⟩
  rw [hverd]
  unfold beaconVerdict
  by_cases h1 : (counted v).beaconsVisible = TOTAL_BEACONS
  · rw [if_pos h1]
  · have h2 : ¬ arrayGet (recordedBeacons a v) CENTER = some false := by
      rw [hcenter]
      simp
    rw [if_neg h1, if_neg h2, if_neg hadj, if_pos h4]

/-- Witness of C12: the Center and the 4 Middle probes answer `true` and are on
screen, every other probe answers `false`. -/
theorem checkBeacons_middle_visible_witness :
    beaconsReady (frameAsset (fun i => decide (i = 1 ∨ (6 ≤ i ∧ i ≤ 9))) (fun _ => true)) = true ∧
    ∃ check', checkBeacons (frameAsset (fun i => decide (i = 1 ∨ (6 ≤ i ∧ i ≤ 9)))
        (fun _ => true)) {} = .ok (check', some true) ∧
      arrayGet check'.beacons CENTER = some true ∧
      ¬ adjacentOuterPair check'.beacons ∧
      ∀ i ∈ MIDDLE_CORNERS, arrayGet check'.beacons i = some true := by
  have heq := checkBeacons_frameAsset (fun i => decide (i = 1 ∨ (6 ≤ i ∧ i ≤ 9)))
    (fun _ => true) {}
  rw [recordedBeacons_frameAsset] at heq
  have hc : arrayGet ({ ({} : OVVCheck) with
      beacons := [some false, some true, some false, some false, some false, some false,
        some true, some true, some true, some true, some false, some false, some false,
        some false],
      objTop := 0, objBottom := 300, objLeft := 0, objRight := 400 } : OVVCheck).beacons
      CENTER = some true := rfl
  have hadj : ¬ adjacentOuterPair ({ ({} : OVVCheck) with
      beacons := [some false, some true, some false, some false, some false, some false,
        some true, some true, some true, some true, some false, some false, some false,
        some false],
      objTop := 0, objBottom := 300, objLeft := 0, objRight := 400 } : OVVCheck).beacons := by
    unfold adjacentOuterPair
    decide
  have hmid : ∀ i ∈ MIDDLE_CORNERS, arrayGet ({ ({} : OVVCheck) with
      beacons := [some false, some true, some false, some false, some false, some false,
        some true, some true, some true, some true, some false, some false, some false,
        some false],
      objTop := 0, objBottom := 300, objLeft := 0, objRight := 400 } : OVVCheck).beacons
      i = some true := by
    decide
  have hv := (checkBeacons_middle_visible
    (frameAsset (fun i => decide (i = 1 ∨ (6 ≤ i ∧ i ≤ 9))) (fun _ => true)) {} rfl).2
    _ _ heq hc hadj hmid
  rw [hv] at heq
  exact ⟨rfl, _, heq, hc, hadj, hmid⟩
/-- C13: the probes 1, 2, 5, 6, 9 and 13 (Center, Outer top-left, Outer
bottom-right, Middle top-left, Middle bottom-right, Inner bottom-right) answer
`isViewable() = true`, the others `false`, and all are on screen.  The hypotheses of
the claim hold (Center reading visible, no adjacent Outer pair visible, 2 of the 4
Middle readings visible, Outer top-left and Outer bottom-right readings visible)
and the Inner top-left reading is not visible, but `checkBeacons` returns `false`
(unviewable), not `null`: the term `![INNER_TOP_LEFT]` of the first diagonal test
negates an array literal and never holds, and the four readings which the test
does read are all visible. -/
theorem checkBeacons_diagonal_down_inner_ignored :
    ∃ c, checkBeacons (frameAsset
          (fun i => decide (i = 1 ∨ i = 2 ∨ i = 5 ∨ i = 6 ∨ i = 9 ∨ i = 13))
          (fun _ => true)) {} = .ok (c, some false) ∧
      arrayGet c.beacons CENTER = some true ∧
      ¬ adjacentOuterPair c.beacons ∧
      visibleReadings c.beacons MIDDLE_CORNERS = 2 ∧
      arrayGet c.beacons OUTER_TOP_LEFT = some true ∧
      arrayGet c.beacons OUTER_BOTTOM_RIGHT = some true ∧
      arrayGet c.beacons INNER_TOP_LEFT = some false ∧
      arrayGet c.beacons MIDDLE_TOP_LEFT = some true ∧
      arrayGet c.beacons INNER_BOTTOM_RIGHT = some true ∧
      arrayGet c.beacons MIDDLE_BOTTOM_RIGHT = some true := by
  rw [checkBeacons_frameAsset, recordedBeacons_frameAsset]
  refine ⟨_, rfl, rfl, ?_, rfl, rfl, rfl, rfl, rfl, rfl, rfl⟩
  unfold adjacentOuterPair
  decide

/-- The four readings that the first diagonal test of `checkBeacons` does read:
whenever `checkBeacons` (all probes ready) returns with the Center reading `true`,
no adjacent pair of Outer readings both `true`, not all 4 Middle probes answering
`isViewable() = true`, and the Outer top-left and Outer bottom-right readings both
`true`, then the verdict is `null` if one of the readings Middle top-left, Center,
Inner bottom-right, Middle bottom-right is not `true`.  `checkBeacons` returns when
the player has a rectangle and every probe answers. -/
theorem checkBeacons_diagonal_down (a : OVVAsset) (check : OVVCheck)
    (hready : beaconsReady a = true) :
    ((∃ r, a.player.bind Element.getClientRects0 = some r) →
      (∀ i, 1 ≤ i → i ≤ 13 → ∃ vi, answer a i = some vi) →
      ∃ result, checkBeacons a check = .ok result) ∧
    (∀ check' verdict, checkBeacons a check = .ok (check', verdict) →
      arrayGet check'.beacons CENTER = some true →
      ¬ adjacentOuterPair check'.beacons →
      (¬ ∀ i ∈ MIDDLE_CORNERS, answer a i = some true) →
      arrayGet check'.beacons OUTER_TOP_LEFT = some true →
      arrayGet check'.beacons OUTER_BOTTOM_RIGHT = some true →
      (¬ arrayGet check'.beacons MIDDLE_TOP_LEFT = some true ∨
        ¬ arrayGet check'.beacons CENTER = some true ∨
        ¬ arrayGet check'.beacons INNER_BOTTOM_RIGHT = some true ∨
        ¬ arrayGet check'.beacons MIDDLE_BOTTOM_RIGHT = some true) →
      verdict = none) := by
  refine ⟨checkBeacons_returns a check hready, ?_⟩
  intro check' verdict h hcenter hadj hmid hTL hBR hdiag
  obtain ⟨r, v, -, hv, hb, hverd⟩ := checkBeacons_ok a check check' verdict hready h
  rw [hb] at hcenter hadj hTL hBR hdiag
  unfold adjacentOuterPair at hadj
  have hm := middle_answers a v hv hmid
  have h1 := not_all_thirteen_of_middle v hm
  have h4 : ¬ (counted v).middleCornersVisible = 4 := by
    rw [counted_middle_eq_four_iff]
    exact hm
  have h2 : ¬ arrayGet (recordedBeacons a v) CENTER = some false := by
    rw [hcenter]
    simp
  rw [hverd]
  unfold beaconVerdict
  rw [if_neg h1, if_neg h2, if_neg hadj, if_neg h4, if_pos]
  refine ⟨⟨hTL, hBR⟩, ?_⟩
  rcases hdiag with h | h | h | h
  · exact Or.inl h
  · exact Or.inr (Or.inr (Or.inl h))
  · exact Or.inr (Or.inr (Or.inr (Or.inl h)))
  · exact Or.inr (Or.inr (Or.inr (Or.inr h)))

/-- An instance of `checkBeacons_diagonal_down`: the Center and the Outer top-left
and bottom-right probes answer `true`, the others `false`, all on screen; the Middle
top-left reading is `false` and the verdict is `null`. -/
theorem checkBeacons_diagonal_down_witness :
    beaconsReady (frameAsset (fun i => decide (i = 1 ∨ i = 2 ∨ i = 5)) (fun _ => true)) = true ∧
    ∃ check', checkBeacons (frameAsset (fun i => decide (i = 1 ∨ i = 2 ∨ i = 5))
        (fun _ => true)) {} = .ok (check', none) ∧
      arrayGet check'.beacons CENTER = some true ∧
      arrayGet check'.beacons OUTER_TOP_LEFT = some true ∧
      arrayGet check'.beacons OUTER_BOTTOM_RIGHT = some true ∧
      arrayGet check'.beacons MIDDLE_TOP_LEFT = some false := by
  have heq := checkBeacons_frameAsset (fun i => decide (i = 1 ∨ i = 2 ∨ i = 5))
    (fun _ => true) {}
  rw [recordedBeacons_frameAsset] at heq
  have hv := (checkBeacons_diagonal_down
    (frameAsset (fun i => decide (i = 1 ∨ i = 2 ∨ i = 5)) (fun _ => true)) {} rfl).2
    _ _ heq rfl (by unfold adjacentOuterPair; decide)
    (fun h => absurd (h 6 (by decide)) (by decide)) rfl rfl (Or.inl (by decide))
  rw [hv] at heq
  exact ⟨rfl, _, heq, rfl, rfl, rfl, rfl⟩

/-- C14, as stated, fails: all 13 probes answer `isViewable() = true` and the
probes 2, 5 and 8 (Outer top-left, Outer bottom-right, Middle bottom-left) are off
screen; the hypotheses of the claim hold, the Middle bottom-left reading is
`false`, and `checkBeacons` returns `true`. -/
theorem checkBeacons_diagonal_up_counterexample :
    ∃ c, checkBeacons (frameAsset (fun _ => true)
          (fun i => decide (i ≠ 2 ∧ i ≠ 5 ∧ i ≠ 8))) {} = .ok (c, some true) ∧
      arrayGet c.beacons CENTER = some true ∧
      ¬ adjacentOuterPair c.beacons ∧
      visibleReadings c.beacons MIDDLE_CORNERS = 3 ∧
      arrayGet c.beacons OUTER_BOTTOM_LEFT = some true ∧
      arrayGet c.beacons OUTER_TOP_RIGHT = some true ∧
      arrayGet c.beacons MIDDLE_BOTTOM_LEFT = some false := by
  rw [checkBeacons_frameAsset, recordedBeacons_frameAsset]
  refine ⟨_, rfl, rfl, ?_, rfl, rfl, rfl, rfl⟩
  unfold adjacentOuterPair
  decide

/-- C14 (amended): whenever `checkBeacons` (all probes ready) returns with the
Center reading `true`, no adjacent pair of Outer readings both `true`, not all 4
Middle probes answering `isViewable() = true`, and the Outer bottom-left and Outer
top-right readings both `true`: the verdict is `null` if at least one of the
readings Middle bottom-left, Inner bottom-left, Center, Inner top-right, Middle
top-right is not `true`, and `false` if all five are `true`.  `checkBeacons`
returns when the player has a rectangle and every probe answers. -/
theorem checkBeacons_diagonal_up (a : OVVAsset) (check : OVVCheck)
    (hready : beaconsReady a = true) :
    ((∃ r, a.player.bind Element.getClientRects0 = some r) →
      (∀ i, 1 ≤ i → i ≤ 13 → ∃ vi, answer a i = some vi) →
      ∃ result, checkBeacons a check = .ok result) ∧
    (∀ check' verdict, checkBeacons a check = .ok (check', verdict) →
      arrayGet check'.beacons CENTER = some true →
      ¬ adjacentOuterPair check'.beacons →
      (¬ ∀ i ∈ MIDDLE_CORNERS, answer a i = some true) →
      arrayGet check'.beacons OUTER_BOTTOM_LEFT = some true →
      arrayGet check'.beacons OUTER_TOP_RIGHT = some true →
      verdict =
        if ¬ arrayGet check'.beacons MIDDLE_BOTTOM_LEFT = some true ∨
            ¬ arrayGet check'.beacons INNER_BOTTOM_LEFT = some true ∨
            ¬ arrayGet check'.beacons CENTER = some true ∨
            ¬ arrayGet check'.beacons INNER_TOP_RIGHT = some true ∨
            ¬ arrayGet check'.beacons MIDDLE_TOP_RIGHT = some true then none
        else some false) := by
  refine ⟨checkBeacons_returns a check hready, ?_⟩
  intro check' verdict h hcenter hadj hmid hBL hTR
  obtain ⟨r, v, -, hv, hb, hverd⟩ := checkBeacons_ok a check check' verdict hready h
  rw [hb] at hcenter hadj hBL hTR ⊢
  unfold adjacentOuterPair at hadj
  have hm := middle_answers a v hv hmid
  have h1 := not_all_thirteen_of_middle v hm
  have h4 : ¬ (counted v).middleCornersVisible = 4 := by
    rw [counted_middle_eq_four_iff]
    exact hm
  have h2 : ¬ arrayGet (recordedBeacons a v) CENTER = some false := by
    rw [hcenter]
    simp
  have hTL : ¬ arrayGet (recordedBeacons a v) OUTER_TOP_LEFT = some true :=
    fun hTL => hadj (Or.inl ⟨hTL, hTR⟩)
  rw [hverd]
  unfold beaconVerdict
  rw [if_neg h1, if_neg h2, if_neg hadj, if_neg h4, if_neg (fun hc => hTL hc.1.1)]
  by_cases h5 : ¬ arrayGet (recordedBeacons a v) MIDDLE_BOTTOM_LEFT = some true ∨
      ¬ arrayGet (recordedBeacons a v) INNER_BOTTOM_LEFT = some true ∨
      ¬ arrayGet (recordedBeacons a v) CENTER = some true ∨
      ¬ arrayGet (recordedBeacons a v) INNER_TOP_RIGHT = some true ∨
      ¬ arrayGet (recordedBeacons a v) MIDDLE_TOP_RIGHT = some true
  · rw [if_pos ⟨⟨hBL, hTR⟩, h5⟩, if_pos h5]
  · rw [if_neg (fun hc => h5 hc.2), if_neg h5]

/-- Witness of C14 (amended): the Center and the Outer bottom-left and top-right
probes answer `true`, the others `false`, all on screen; the verdict is `null`. -/
theorem checkBeacons_diagonal_up_witness :
    beaconsReady (frameAsset (fun i => decide (i = 1 ∨ i = 3 ∨ i = 4)) (fun _ => true)) = true ∧
    ∃ check', checkBeacons (frameAsset (fun i => decide (i = 1 ∨ i = 3 ∨ i = 4))
        (fun _ => true)) {} = .ok (check', none) ∧
      arrayGet check'.beacons CENTER = some true ∧
      arrayGet check'.beacons OUTER_BOTTOM_LEFT = some true ∧
      arrayGet check'.beacons OUTER_TOP_RIGHT = some true ∧
      arrayGet check'.beacons MIDDLE_BOTTOM_LEFT = some false := by
  have heq := checkBeacons_frameAsset (fun i => decide (i = 1 ∨ i = 3 ∨ i = 4))
    (fun _ => true) {}
  rw [recordedBeacons_frameAsset] at heq
  have hv := (checkBeacons_diagonal_up
    (frameAsset (fun i => decide (i = 1 ∨ i = 3 ∨ i = 4)) (fun _ => true)) {} rfl).2
    _ _ heq rfl (by unfold adjacentOuterPair; decide)
    (fun h => absurd (h 6 (by decide)) (by decide)) rfl rfl
  rw [if_pos (Or.inl (by decide))] at hv
  rw [hv] at heq
  exact ⟨rfl, _, heq, rfl, rfl, rfl, rfl⟩
/-! ## The orchestration: lemmas and claims -/

theorem checkViewability_beacons (a : OVVAsset) (player : Element)
    (hp : a.player = some player) (hd : a.ovv.DEBUG = false)
    (hg : isGeometryTechniqueApplicable a = false)
    (hb : isBeaconsTechniqueApplicable a = true)
    (hm : (isChromeOnMac a && a.ovv.IN_IFRAME) = false) :
    checkViewability a =
      checkViewabilityBeacons a
        { id := a.id, inIframe := some a.ovv.IN_IFRAME, geometrySupported := some false,
          focus := some a.inFocus } := by
  unfold checkViewability
  simp only [hp, hd, hg, hb, hm]
  rfl

theorem checkViewabilityBeacons_not_ready (a : OVVAsset) (check : OVVCheck)
    (hd : a.ovv.DEBUG = false) (hnr : beaconsReady a = false) :
    ∃ c, checkViewabilityBeacons a check = .ok c ∧
      c.viewabilityState = OVVCheck.NOT_READY ∧ c.technique = OVVCheck.BEACON := by
  unfold checkViewabilityBeacons
  simp only [hnr, hd]
  exact ⟨_, rfl, rfl, rfl⟩

/-- C15: when the player is found, debug is off, geometry is not supported, the
beacon technique is applicable and the override for Chrome on Mac in an iframe is
not active, and the probes are not all ready, `checkViewability` returns a check
with state `not_ready` and technique `beacon`, whatever the control probe reads. -/
theorem checkViewability_not_ready (a : OVVAsset) (player : Element)
    (hp : a.player = some player) (hd : a.ovv.DEBUG = false)
    (hg : isGeometryTechniqueApplicable a = false)
    (hb : isBeaconsTechniqueApplicable a = true)
    (hm : (isChromeOnMac a && a.ovv.IN_IFRAME) = false)
    (hnr : beaconsReady a = false) :
    ∃ check, checkViewability a = .ok check ∧
      check.viewabilityState = OVVCheck.NOT_READY ∧ check.technique = OVVCheck.BEACON := by
  rw [checkViewability_beacons a player hp hd hg hb hm]
  exact checkViewabilityBeacons_not_ready a _ hd hnr

/-- Witness of C15: the iframe asset with 5 of its 13 probes started and a control
probe that reads visible and on screen. -/
theorem checkViewability_not_ready_witness :
    ∃ check, checkViewability (startingFrameAsset (fun _ => true) (fun _ => true)) = .ok check ∧
      check.viewabilityState = OVVCheck.NOT_READY ∧ check.technique = OVVCheck.BEACON :=
  checkViewability_not_ready (startingFrameAsset (fun _ => true) (fun _ => true))
    { getClientRects0 := some ⟨0, 0, 300, 400⟩ } rfl rfl rfl (by decide) rfl rfl

/-- C18: when the asset has no player element, `checkViewability` returns a check
whose error text is `Player not found!` (non-empty) and whose fields `clientWidth`,
`clientHeight`, `objTop`, `objLeft`, `objRight`, `objBottom` and `percentViewable`
are all -1. -/
theorem checkViewability_player_not_found (a : OVVAsset) (hp : a.player = none) :
    ∃ check, checkViewability a = .ok check ∧
      check.error = "Player not found!" ∧ check.error ≠ "" ∧
      check.clientWidth = .num (-1) ∧ check.clientHeight = .num (-1) ∧
      check.objTop = -1 ∧ check.objLeft = -1 ∧ check.objRight = -1 ∧ check.objBottom = -1 ∧
      check.percentViewable = .num (-1) := by
  unfold checkViewability
  simp only [hp]
  refine ⟨_, rfl, rfl, ?_, rfl, rfl, rfl, rfl, rfl, rfl, rfl⟩
  show "Player not found!" ≠ ""
  decide

/-- Witness of C18: a page on which the player was not found. -/
theorem checkViewability_player_not_found_witness :
    noPlayerAsset.player = none ∧
    ∃ check, checkViewability noPlayerAsset = .ok check ∧
      check.error = "Player not found!" ∧ check.error ≠ "" ∧
      check.clientWidth = .num (-1) ∧ check.clientHeight = .num (-1) ∧
      check.objTop = -1 ∧ check.objLeft = -1 ∧ check.objRight = -1 ∧ check.objBottom = -1 ∧
      check.percentViewable = .num (-1) :=
  ⟨rfl, checkViewability_player_not_found noPlayerAsset rfl⟩
theorem checkViewabilityBeacons_stages (a : OVVAsset) (c : OVVCheck) :
    checkViewabilityBeacons a c =
      match techniqueStage a (controlStage a c) with
      | .error e => .error e
      | .ok check => reconcileStage a check := rfl

theorem techniqueStage_state (a : OVVAsset) (c c' : OVVCheck)
    (h : techniqueStage a c = .ok c') :
    c'.viewabilityState = OVVCheck.NOT_READY ∨ c'.viewabilityState = OVVCheck.VIEWABLE ∨
      c'.viewabilityState = OVVCheck.UNVIEWABLE ∨
      c'.viewabilityState = OVVCheck.UNMEASURABLE := by
  unfold techniqueStage at h
  by_cases hr : (!beaconsReady a) = true
  · rw [if_pos hr] at h
    injection h with h
    subst h
    exact Or.inl rfl
  · rw [if_neg hr] at h
    by_cases hs : c.beaconsSupported = some true
    · rw [if_pos hs] at h
      simp only [] at h
      split at h
      · exact absurd h (by simp)
      · rename_i c₂ viewable hcb
        split at h
        · split_ifs at h <;>
            (injection h with h; subst h; exact Or.inr (Or.inr (Or.inr rfl)))
        · rename_i b
          cases b <;> split_ifs at h <;> (injection h with h; subst h; simp)
    · rw [if_neg hs] at h
      injection h with h
      subst h
      exact Or.inr (Or.inr (Or.inr rfl))

theorem reconcileStage_state (a : OVVAsset) (c c' : OVVCheck)
    (h : reconcileStage a c = .ok c')
    (hc : c.viewabilityState = OVVCheck.NOT_READY ∨ c.viewabilityState = OVVCheck.VIEWABLE ∨
      c.viewabilityState = OVVCheck.UNVIEWABLE ∨ c.viewabilityState = OVVCheck.UNMEASURABLE) :
    c'.viewabilityState = OVVCheck.NOT_READY ∨ c'.viewabilityState = OVVCheck.VIEWABLE ∨
      c'.viewabilityState = OVVCheck.UNVIEWABLE ∨
      c'.viewabilityState = OVVCheck.UNMEASURABLE := by
  unfold reconcileStage at h
  by_cases hd : a.ovv.DEBUG = true
  · rw [if_pos hd] at h
    simp only [] at h
    split_ifs at h
    · injection h with h
      subst h
      exact Or.inr (Or.inr (Or.inr rfl))
    · injection h with h
      subst h
      exact Or.inr (Or.inl rfl)
    · injection h with h
      subst h
      exact Or.inr (Or.inr (Or.inl rfl))
  · rw [if_neg hd] at h
    injection h with h
    subst h
    exact hc

theorem checkViewabilityBeacons_state (a : OVVAsset) (c c' : OVVCheck)
    (h : checkViewabilityBeacons a c = .ok c') :
    c'.viewabilityState = OVVCheck.NOT_READY ∨ c'.viewabilityState = OVVCheck.VIEWABLE ∨
      c'.viewabilityState = OVVCheck.UNVIEWABLE ∨
      c'.viewabilityState = OVVCheck.UNMEASURABLE := by
  rw [checkViewabilityBeacons_stages] at h
  cases ht : techniqueStage a (controlStage a c) with
  | error e =>
    rw [ht] at h
    exact absurd h (by simp)
  | ok c₁ =>
    rw [ht] at h
    exact reconcileStage_state a c₁ c' h (techniqueStage_state a _ c₁ ht)
theorem checkViewability_found (a : OVVAsset) (player : Element)
    (hp : a.player = some player) :
    checkViewability a =
      foundStage a player
        { id := a.id, inIframe := some a.ovv.IN_IFRAME,
          geometrySupported := some (isGeometryTechniqueApplicable a),
          focus := some a.inFocus } := by
  unfold checkViewability
  simp only [hp]
  rfl

theorem geometryStage_state (a : OVVAsset) (player : Element) (c c' : OVVCheck)
    (h : geometryStage a player c = .ok c') :
    c'.viewabilityState = OVVCheck.NOT_READY ∨ c'.viewabilityState = OVVCheck.VIEWABLE ∨
      c'.viewabilityState = OVVCheck.UNVIEWABLE ∨
      c'.viewabilityState = OVVCheck.UNMEASURABLE := by
  unfold geometryStage at h
  simp only [] at h
  split at h
  · exact absurd h (by simp)
  · rename_i c₁ hc₁
    by_cases hd : a.ovv.DEBUG = true
    · rw [if_pos hd] at h
      exact checkViewabilityBeacons_state a _ c' h
    · rw [if_neg hd] at h
      injection h with h
      subst h
      simp only []
      split_ifs
      · exact Or.inr (Or.inl rfl)
      · exact Or.inr (Or.inr (Or.inl rfl))

theorem foundStage_state (a : OVVAsset) (player : Element) (c c' : OVVCheck)
    (h : foundStage a player c = .ok c') :
    c'.viewabilityState = OVVCheck.NOT_READY ∨ c'.viewabilityState = OVVCheck.VIEWABLE ∨
      c'.viewabilityState = OVVCheck.UNVIEWABLE ∨
      c'.viewabilityState = OVVCheck.UNMEASURABLE := by
  unfold foundStage at h
  simp only [] at h
  by_cases hu : (((!isGeometryTechniqueApplicable a && !isBeaconsTechniqueApplicable a) ||
      (isChromeOnMac a && a.ovv.IN_IFRAME)) && !a.ovv.DEBUG) = true
  · rw [if_pos hu] at h
    have hu' : ((!isGeometryTechniqueApplicable a && !isBeaconsTechniqueApplicable a) ||
        (isChromeOnMac a && a.ovv.IN_IFRAME)) = true := by
      simp only [Bool.and_eq_true] at hu
      exact hu.1
    rw [if_pos hu'] at h
    injection h with h
    subst h
    exact Or.inr (Or.inr (Or.inr rfl))
  · rw [if_neg hu] at h
    have key : ∀ c₀ : OVVCheck,
        (if c₀.geometrySupported = some true then geometryStage a player c₀
          else checkViewabilityBeacons a c₀) = .ok c' →
        c'.viewabilityState = OVVCheck.NOT_READY ∨ c'.viewabilityState = OVVCheck.VIEWABLE ∨
          c'.viewabilityState = OVVCheck.UNVIEWABLE ∨
          c'.viewabilityState = OVVCheck.UNMEASURABLE := by
      intro c₀ h₀
      by_cases hg : c₀.geometrySupported = some true
      · rw [if_pos hg] at h₀
        exact geometryStage_state a player c₀ c' h₀
      · rw [if_neg hg] at h₀
        exact checkViewabilityBeacons_state a c₀ c' h₀
    exact key _ h

/-- C19, as stated, fails: when the player is not found, `checkViewability` returns
a check whose `viewabilityState` is the empty string. -/
theorem checkViewability_state_counterexample :
    ∃ check, checkViewability noPlayerAsset = .ok check ∧
      check.viewabilityState = "" ∧
      ¬ (check.viewabilityState = OVVCheck.NOT_READY ∨
        check.viewabilityState = OVVCheck.VIEWABLE ∨
        check.viewabilityState = OVVCheck.UNVIEWABLE ∨
        check.viewabilityState = OVVCheck.UNMEASURABLE) := by
  refine ⟨_, rfl, rfl, ?_⟩
  show ¬ ("" = OVVCheck.NOT_READY ∨ "" = OVVCheck.VIEWABLE ∨ "" = OVVCheck.UNVIEWABLE ∨
    "" = OVVCheck.UNMEASURABLE)
  decide

/-- C19 (amended): every check that `checkViewability` returns when the player
element is found has `viewabilityState` equal to one of `not_ready`, `viewable`,
`unviewable`, `unmeasurable`. -/
theorem checkViewability_state (a : OVVAsset) (player : Element)
    (hp : a.player = some player) (check : OVVCheck)
    (h : checkViewability a = .ok check) :
    check.viewabilityState = OVVCheck.NOT_READY ∨
      check.viewabilityState = OVVCheck.VIEWABLE ∨
      check.viewabilityState = OVVCheck.UNVIEWABLE ∨
      check.viewabilityState = OVVCheck.UNMEASURABLE := by
  rw [checkViewability_found a player hp] at h
  exact foundStage_state a player _ check h
/-- Witness of C19 (amended): the iframe asset with 5 of its 13 probes started. -/
theorem checkViewability_state_witness :
    ∃ check, checkViewability (startingFrameAsset (fun _ => false) (fun _ => false)) = .ok check ∧
      (check.viewabilityState = OVVCheck.NOT_READY ∨
        check.viewabilityState = OVVCheck.VIEWABLE ∨
        check.viewabilityState = OVVCheck.UNVIEWABLE ∨
        check.viewabilityState = OVVCheck.UNMEASURABLE) := by
  have hret : ∃ c, checkViewability (startingFrameAsset (fun _ => false) (fun _ => false)) =
      .ok c := by
    rw [checkViewability_beacons (startingFrameAsset (fun _ => false) (fun _ => false))
      { getClientRects0 := some ⟨0, 0, 300, 400⟩ } rfl rfl rfl (by decide) rfl]
    obtain ⟨c, hc, -⟩ := checkViewabilityBeacons_not_ready
      (startingFrameAsset (fun _ => false) (fun _ => false))
      { id := "OVVID", inIframe := some true, geometrySupported := some false,
        focus := some true } rfl rfl
    exact ⟨c, hc⟩
  obtain ⟨c, hc⟩ := hret
  exact ⟨c, hc, checkViewability_state _ { getClientRects0 := some ⟨0, 0, 300, 400⟩ } rfl c hc⟩

theorem controlStage_frameAsset (vis ons : ℕ → Bool) (c : OVVCheck) :
    controlStage (frameAsset vis ons) c =
      { c with beaconsSupported := some (!(ons 0 && vis 0)) } := by
  have h := frameAsset_isOnScreen vis ons 0
  have h' : isOnScreen (frameAsset vis ons) (some (containerAt (ons 0))) = ons 0 := h
  unfold controlStage
  simp only [frameAsset, Option.getD_some]
  simp only [frameAsset] at h'
  rw [h']

theorem isBeaconsTechniqueApplicable_frameAsset (vis ons : ℕ → Bool) :
    isBeaconsTechniqueApplicable (frameAsset vis ons) = true := by
  simp [isBeaconsTechniqueApplicable, frameAsset, browserIDEnum.Chrome, browserIDEnum.MSIE]

theorem checkViewability_frameAsset (vis ons : ℕ → Bool) :
    checkViewability (frameAsset vis ons) =
      match techniqueStage (frameAsset vis ons)
          { id := "OVVID", inIframe := some true, geometrySupported := some false,
            focus := some true, beaconsSupported := some (!(ons 0 && vis 0)) } with
      | .error e => .error e
      | .ok check => reconcileStage (frameAsset vis ons) check := by
  rw [checkViewability_beacons (frameAsset vis ons) { getClientRects0 := some ⟨0, 0, 300, 400⟩ }
    rfl rfl rfl (isBeaconsTechniqueApplicable_frameAsset vis ons) rfl,
    checkViewabilityBeacons_stages, controlStage_frameAsset]
  rfl

theorem techniqueStage_frameAsset (vis ons : ℕ → Bool) (c : OVVCheck)
    (hs : c.beaconsSupported = some true) :
    techniqueStage (frameAsset vis ons) c =
      .ok { c with
        technique := OVVCheck.BEACON,
        beacons := recordedBeacons (frameAsset vis ons) vis,
        objTop := 0, objBottom := 300, objLeft := 0, objRight := 400,
        viewabilityState :=
          match beaconVerdict (recordedBeacons (frameAsset vis ons) vis) (counted vis) with
          | none => OVVCheck.UNMEASURABLE
          | some b => if b then OVVCheck.VIEWABLE else OVVCheck.UNVIEWABLE } := by
  unfold techniqueStage
  have hr : ¬ (!beaconsReady (frameAsset vis ons)) = true := by
    simp [beaconsReady, frameAsset, TOTAL_BEACONS]
  rw [if_neg hr, if_pos hs]
  simp only []
  rw [checkBeacons_frameAsset]
  cases beaconVerdict (recordedBeacons (frameAsset vis ons) vis) (counted vis) <;> rfl

/-- C20: in an iframe with all 13 probes ready, a Control probe that answers
`isViewable() = true` while its container is off screen, and all other probes
visible and on screen, `checkViewability` reports `beaconsSupported = true`, runs
the beacon technique and returns state `viewable`. -/
theorem checkViewability_control_visible_supported :
    ∃ check, checkViewability (frameAsset (fun _ => true) (fun i => decide (i ≠ 0))) = .ok check ∧
      answer (frameAsset (fun _ => true) (fun i => decide (i ≠ 0))) CONTROL = some true ∧
      isOnScreen (frameAsset (fun _ => true) (fun i => decide (i ≠ 0)))
        ((frameAsset (fun _ => true) (fun i => decide (i ≠ 0))).getBeaconContainer CONTROL) =
          false ∧
      check.beaconsSupported = some true ∧
      check.technique = OVVCheck.BEACON ∧
      check.viewabilityState = OVVCheck.VIEWABLE := by
  rw [checkViewability_frameAsset, techniqueStage_frameAsset _ _ _ rfl]
  exact ⟨_, rfl, rfl, frameAsset_isOnScreen _ _ 0, rfl, rfl, rfl⟩
/-! ## Readiness of the probes: lemmas and claims -/

theorem beaconStarted_le (a : OVVAsset) (index : ℕ) :
    (beaconStarted a index).asset.beaconsStarted ≤
      a.beaconsStarted + (if index ≠ 0 then 1 else 0) := by
  unfold beaconStarted
  simp only []
  split_ifs <;> simp_all

theorem beaconStartedAll_le (indices : List ℕ) :
    ∀ s : OVVAsset × ℕ,
      (indices.foldl (fun s index =>
        ((beaconStarted s.1 index).asset, s.2 + (beaconStarted s.1 index).timerCalls)) s).1.beaconsStarted
        ≤ s.1.beaconsStarted + (indices.filter (fun i => i ≠ 0)).length := by
  induction indices with
  | nil => intro s; simp
  | cons x xs ih =>
    intro s
    rw [List.foldl_cons]
    refine (ih _).trans ?_
    have h := beaconStarted_le s.1 x
    by_cases hx : x = 0
    · subst hx
      simp only [ne_eq, not_true_eq_false, if_false] at h
      simp only [ne_eq, not_true_eq_false, decide_False, Bool.false_eq_true, not_false_eq_true,
        List.filter_cons_of_neg]
      omega
    · simp only [ne_eq, hx, not_false_eq_true, if_true] at h
      simp only [ne_eq, hx, not_false_eq_true, decide_True, List.filter_cons_of_pos,
        List.length_cons]
      omega

theorem beaconStarted_timer_step (a : OVVAsset) (index t : ℕ) :
    t + (beaconStarted a index).timerCalls +
        (if (beaconStarted a index).asset.beaconsStarted < 13 then 1 else 0) ≤
      t + (if a.beaconsStarted < 13 then 1 else 0) := by
  unfold beaconStarted
  by_cases h1 : a.ovv.DEBUG = true ∧ (a.getBeacon index).bind Beacon.debug = none
  · rw [if_pos h1]
    simp
  · rw [if_neg h1]
    by_cases h2 : index = 0
    · rw [if_pos h2]
      simp
    · rw [if_neg h2]
      simp only []
      by_cases h3 : beaconsReady { a with beaconsStarted := a.beaconsStarted + 1 } = true
      · rw [if_pos h3]
        simp only [beaconsReady, Bool.and_eq_true, beq_iff_eq, TOTAL_BEACONS] at h3
        have h13 : a.beaconsStarted + 1 = 13 := h3.2
        simp only []
        rw [if_neg (by omega), if_pos (by omega)]
      · rw [if_neg h3]
        simp only []
        split_ifs <;> omega

theorem beaconStartedAll_timer (indices : List ℕ) :
    ∀ s : OVVAsset × ℕ,
      (indices.foldl (fun s index =>
        ((beaconStarted s.1 index).asset, s.2 + (beaconStarted s.1 index).timerCalls)) s).2
        ≤ s.2 + (if s.1.beaconsStarted < 13 then 1 else 0) := by
  induction indices with
  | nil => intro s; simp
  | cons x xs ih =>
    intro s
    rw [List.foldl_cons]
    exact (ih _).trans (beaconStarted_timer_step s.1 x s.2)

/-- C16, as stated, fails: after 13 calls `beaconStarted(1)` on a fresh asset,
`beaconsReady()` holds although the roles 2..13 never reported. -/
theorem beaconsReady_counterexample :
    beaconsReady (beaconStartedAll freshFrameAsset (List.replicate 13 1)).1 = true ∧
      2 ∉ List.replicate 13 1 := by
  constructor
  · rfl
  · decide

/-- C16 (amended): for every sequence of `beaconStarted` calls on a fresh asset in
which every index is in 0..13 and no non-control index occurs twice,
`beaconsReady()` holds after the sequence only if each of the 13 non-control
roles 1..13 has reported. -/
theorem beaconsReady_all_reported (a : OVVAsset) (indices : List ℕ)
    (h0 : a.beaconsStarted = 0)
    (hnd : (indices.filter (fun i => i ≠ 0)).Nodup)
    (hle : ∀ i ∈ indices, i ≤ 13)
    (hready : beaconsReady (beaconStartedAll a indices).1 = true) :
    ∀ i, 1 ≤ i → i ≤ 13 → i ∈ indices := by
  have hcount : 13 ≤ (indices.filter (fun i => i ≠ 0)).length := by
    have h := beaconStartedAll_le indices (a, 0)
    simp only [beaconsReady, Bool.and_eq_true, beq_iff_eq, TOTAL_BEACONS] at hready
    have h13 : (beaconStartedAll a indices).1.beaconsStarted = 13 := hready.2
    unfold beaconStartedAll at h13
    rw [h13, h0] at h
    omega
  have hsub : (indices.filter (fun i => i ≠ 0)).toFinset ⊆ Finset.Icc 1 13 := by
    intro x hx
    rw [List.mem_toFinset, List.mem_filter] at hx
    rw [Finset.mem_Icc]
    have hx0 : x ≠ 0 := by simpa using hx.2
    exact ⟨Nat.one_le_iff_ne_zero.mpr hx0, hle x hx.1⟩
  have hcard : (Finset.Icc 1 13).card ≤ (indices.filter (fun i => i ≠ 0)).toFinset.card := by
    rw [List.toFinset_card_of_nodup hnd]
    simpa using hcount
  have heq := Finset.eq_of_subset_of_card_le hsub hcard
  intro i h1 h13
  have hi : i ∈ (indices.filter (fun i => i ≠ 0)).toFinset := by
    rw [heq, Finset.mem_Icc]
    exact ⟨h1, h13⟩
  rw [List.mem_toFinset, List.mem_filter] at hi
  exact hi.1

/-- Witness of C16 (amended): the roles 1..13 report once each, the control probe
in between, on a fresh asset. -/
theorem beaconsReady_all_reported_witness :
    beaconsReady (beaconStartedAll freshFrameAsset
      [1, 2, 3, 0, 4, 5, 6, 7, 8, 9, 10, 11, 12, 13]).1 = true ∧
    ∀ i, 1 ≤ i → i ≤ 13 → i ∈ [1, 2, 3, 0, 4, 5, 6, 7, 8, 9, 10, 11, 12, 13] :=
  ⟨rfl, beaconsReady_all_reported freshFrameAsset
    [1, 2, 3, 0, 4, 5, 6, 7, 8, 9, 10, 11, 12, 13] rfl (by decide) (by decide) rfl⟩

/-- C17: in debug mode on Firefox a beacon is the window of a frame, which has no
`debug` function; the call `beaconStarted(1)` throws at `getBeacon(index).debug()`
before the counter is touched, so this call with a non-control index does not
increment the counter and does not start the timer; after the 13 probes have all
made their call the counter is still 0 and `beaconsReady()` is false.  With debug
off the same call increments the counter. -/
theorem beaconStarted_debug_throws :
    debugFirefoxAsset.ovv.DEBUG = true ∧
    debugFirefoxAsset.beaconsStarted = 0 ∧
    (beaconStarted debugFirefoxAsset 1).threw = true ∧
    (beaconStarted debugFirefoxAsset 1).asset.beaconsStarted = 0 ∧
    (beaconStarted debugFirefoxAsset 1).timerCalls = 0 ∧
    (beaconStartedAll debugFirefoxAsset
      [1, 2, 3, 4, 5, 6, 7, 8, 9, 10, 11, 12, 13]).1.beaconsStarted = 0 ∧
    beaconsReady (beaconStartedAll debugFirefoxAsset
      [1, 2, 3, 4, 5, 6, 7, 8, 9, 10, 11, 12, 13]).1 = false ∧
    (beaconStartedAll debugFirefoxAsset [1, 2, 3, 4, 5, 6, 7, 8, 9, 10, 11, 12, 13]).2 = 0 ∧
    (beaconStarted freshFrameAsset 1).threw = false ∧
    (beaconStarted freshFrameAsset 1).asset.beaconsStarted = 1 :=
  ⟨rfl, rfl, rfl, rfl, rfl, rfl, rfl, rfl, rfl, rfl⟩

/-- The counter and the timer in `beaconStarted`: `beaconStarted(0)` leaves the
counter unchanged; a call with a non-control index that returns increments the
counter by one, and every call returns when debug is off; over every sequence of
calls `player.startImpressionTimer()` is invoked at most once; and a call invokes
it exactly when it returns, has a non-control index, the player is found and the
call brings the counter to 13. -/
theorem beaconStarted_counter_timer (a : OVVAsset) :
    (beaconStarted a 0).asset.beaconsStarted = a.beaconsStarted ∧
    (∀ index, index ≠ 0 → (beaconStarted a index).threw = false →
      (beaconStarted a index).asset.beaconsStarted = a.beaconsStarted + 1) ∧
    (∀ index, a.ovv.DEBUG = false → (beaconStarted a index).threw = false) ∧
    (∀ indices, (beaconStartedAll a indices).2 ≤ 1) ∧
    (∀ index, (beaconStarted a index).timerCalls = 1 ↔
      (index ≠ 0 ∧ (beaconStarted a index).threw = false ∧ a.player.isSome = true ∧
        (beaconStarted a index).asset.beaconsStarted = 13)) ∧
    (∀ index, (beaconStarted a index).timerCalls ≤ 1) := by
  refine ⟨?_, ?_, ?_, ?_, ?_, ?_⟩
  · unfold beaconStarted
    simp only []
    split_ifs <;> simp_all
  · intro index h0 hthrew
    unfold beaconStarted at hthrew ⊢
    simp only [] at hthrew ⊢
    split_ifs at hthrew ⊢ <;> simp_all
  · intro index hd
    unfold beaconStarted
    simp only []
    split_ifs <;> simp_all
  · intro indices
    have h := beaconStartedAll_timer indices (a, 0)
    unfold beaconStartedAll
    split_ifs at h <;> omega
  · intro index
    unfold beaconStarted
    simp only []
    split_ifs with h1 h2 h3
    · simp
    · simp [h2]
    · simp only [beaconsReady, Bool.and_eq_true, beq_iff_eq, TOTAL_BEACONS] at h3
      simp [h2, h3.1, h3.2]
    · simp only [beaconsReady, Bool.and_eq_true, beq_iff_eq, TOTAL_BEACONS] at h3
      simp only [true_and, h2, ne_eq, not_false_eq_true, zero_ne_one, false_iff, not_and]
      intro hp h13
      exact h3 ⟨hp, h13⟩
  · intro index
    unfold beaconStarted
    simp only []
    split_ifs <;> simp

/-- An instance of `beaconStarted_counter_timer`: on a fresh asset with debug off,
the 13 roles report once each; the counter reaches 13 and the timer has been
invoked once, by the last call. -/
theorem beaconStarted_counter_timer_witness :
    (beaconStarted freshFrameAsset 5).threw = false ∧
    (beaconStarted freshFrameAsset 5).asset.beaconsStarted = 1 ∧
    (beaconStartedAll freshFrameAsset [1, 2, 3, 4, 5, 6, 7, 8, 9, 10, 11, 12, 13]).2 ≤ 1 ∧
    (beaconStartedAll freshFrameAsset [1, 2, 3, 4, 5, 6, 7, 8, 9, 10, 11, 12, 13]).2 = 1 :=
  ⟨(beaconStarted_counter_timer freshFrameAsset).2.2.1 5 rfl,
    (beaconStarted_counter_timer freshFrameAsset).2.1 5 (by decide) rfl,
    (beaconStarted_counter_timer freshFrameAsset).2.2.2.1 _, rfl⟩
/-! ## The orchestration: failures of the probes, short-circuit, debug mode -/

theorem techniqueStage_not_ready (a : OVVAsset) (c : OVVCheck) (h : beaconsReady a = false) :
    techniqueStage a c =
      .ok { c with technique := OVVCheck.BEACON, viewabilityState := OVVCheck.NOT_READY } := by
  unfold techniqueStage
  rw [if_pos (by rw [h]; rfl)]

theorem reconcileStage_not_debug (a : OVVAsset) (c : OVVCheck) (hd : a.ovv.DEBUG = false) :
    reconcileStage a c = .ok c := by
  unfold reconcileStage
  rw [if_neg (by rw [hd]; decide)]

theorem controlStage_unreadable (a : OVVAsset) (c : OVVCheck) (b : Beacon) (e : Element)
    (hb : a.getBeacon 0 = some b) (he : a.getBeaconContainer 0 = some e)
    (hv : b.isViewable = none) :
    controlStage a c = { c with beaconsSupported := some true } := by
  unfold controlStage
  simp only [hb, he, hv, Option.getD_none, Bool.and_false, Bool.not_false]

theorem checkViewabilityBeacons_not_ready_eq (a : OVVAsset) (c : OVVCheck)
    (hd : a.ovv.DEBUG = false) (hnr : beaconsReady a = false) :
    checkViewabilityBeacons a c =
      .ok { controlStage a c with
        technique := OVVCheck.BEACON, viewabilityState := OVVCheck.NOT_READY } := by
  rw [checkViewabilityBeacons_stages, techniqueStage_not_ready a _ hnr]
  exact reconcileStage_not_debug a _ hd

/-- C21: in an iframe (debug off, 5 probes started) whose Control probe and its
container are present but whose `isViewable()` call throws, `checkViewability`
reports `beaconsSupported = true`. -/
theorem checkViewability_control_unreadable_supported :
    ∃ check,
      checkViewability (faultyFrameAsset (fun i => if i = 0 then none else some true)
        (fun _ => true) 5) = .ok check ∧
      answer (faultyFrameAsset (fun i => if i = 0 then none else some true)
        (fun _ => true) 5) CONTROL = none ∧
      check.beaconsSupported = some true := by
  rw [checkViewability_beacons
    (faultyFrameAsset (fun i => if i = 0 then none else some true) (fun _ => true) 5)
    { getClientRects0 := some ⟨0, 0, 300, 400⟩ } rfl rfl rfl (by decide) rfl,
    checkViewabilityBeacons_not_ready_eq
      (faultyFrameAsset (fun i => if i = 0 then none else some true) (fun _ => true) 5)
      _ rfl rfl]
  refine ⟨_, rfl, rfl, ?_⟩
  show (controlStage _ _).beaconsSupported = some true
  rw [controlStage_unreadable _ _ { isViewable := none } (containerAt true) rfl rfl rfl]

theorem checkBeacons_fails (a : OVVAsset) (c : OVVCheck) (i : ℕ) (h1 : 1 ≤ i) (h13 : i ≤ 13)
    (hready : beaconsReady a = true) (h : answer a i = none) :
    ∃ e, checkBeacons a c = .error e := by
  cases hres : checkBeacons a c with
  | error e => exact ⟨e, rfl⟩
  | ok res =>
    obtain ⟨r, v, -, hv, -, -⟩ := checkBeacons_ok a c res.1 res.2 hready hres
    rw [hv i h1 h13] at h
    exact absurd h (by simp)

theorem techniqueStage_fails (a : OVVAsset) (c : OVVCheck) (i : ℕ) (h1 : 1 ≤ i) (h13 : i ≤ 13)
    (hready : beaconsReady a = true) (hs : c.beaconsSupported = some true)
    (h : answer a i = none) :
    ∃ e, techniqueStage a c = .error e := by
  unfold techniqueStage
  rw [if_neg (by rw [hready]; decide), if_pos hs]
  simp only []
  obtain ⟨e, he⟩ := checkBeacons_fails a { c with technique := OVVCheck.BEACON } i h1 h13 hready h
  rw [he]
  exact ⟨e, rfl⟩

theorem controlStage_faulty (vis : ℕ → Option Bool) (ons : ℕ → Bool) (n : ℕ) (c : OVVCheck) :
    controlStage (faultyFrameAsset vis ons n) c =
      { c with beaconsSupported := some (!(ons 0 && (vis 0).getD false)) } := by
  have h : isOnScreen (faultyFrameAsset vis ons n) (some (containerAt (ons 0))) = ons 0 :=
    frameAsset_isOnScreen (fun _ => false) ons 0
  unfold controlStage
  simp only [faultyFrameAsset, frameAsset]
  simp only [faultyFrameAsset, frameAsset] at h
  rw [h]

theorem checkViewabilityBeacons_fails (a : OVVAsset) (c : OVVCheck) (i : ℕ) (h1 : 1 ≤ i)
    (h13 : i ≤ 13) (hready : beaconsReady a = true)
    (hs : (controlStage a c).beaconsSupported = some true) (h : answer a i = none) :
    ∃ e, checkViewabilityBeacons a c = .error e := by
  rw [checkViewabilityBeacons_stages]
  obtain ⟨e, he⟩ := techniqueStage_fails a (controlStage a c) i h1 h13 hready hs h
  rw [he]
  exact ⟨e, rfl⟩

/-- C22: in an iframe with all 13 probes started, a Control probe that reads
invisible and off screen (so `beaconsSupported = true`) and a Center probe whose
`isViewable()` call throws, `checkViewability` does not return a check: the
exception leaves `checkBeacons` and `checkViewability`. -/
theorem checkViewability_probe_failure_propagates :
    answer (faultyFrameAsset (fun i => if i = 1 then none else some (decide (i ≠ 0)))
      (fun i => decide (i ≠ 0)) 13) CENTER = none ∧
    ∃ e, checkViewability (faultyFrameAsset (fun i => if i = 1 then none else some (decide (i ≠ 0)))
      (fun i => decide (i ≠ 0)) 13) = .error e := by
  refine ⟨rfl, ?_⟩
  rw [checkViewability_beacons
    (faultyFrameAsset (fun i => if i = 1 then none else some (decide (i ≠ 0)))
      (fun i => decide (i ≠ 0)) 13)
    { getClientRects0 := some ⟨0, 0, 300, 400⟩ } rfl rfl rfl (by decide) rfl]
  exact checkViewabilityBeacons_fails
    (faultyFrameAsset (fun i => if i = 1 then none else some (decide (i ≠ 0)))
      (fun i => decide (i ≠ 0)) 13) _ 1 (by decide) (by decide) rfl
    (by rw [controlStage_faulty]; rfl) rfl

/-- C23: when the player is found, debug is off, and either neither technique is
applicable or the asset runs on Chrome on a Mac inside an iframe,
`checkViewability` returns the check as constructed, with only `id`, `inIframe`,
`geometrySupported`, `focus` and `viewabilityState = unmeasurable` set: the
technique is blank, `percentViewable` is -1 and no technique has run. -/
theorem checkViewability_unmeasurable (a : OVVAsset) (player : Element)
    (hp : a.player = some player) (hd : a.ovv.DEBUG = false)
    (hu : (isGeometryTechniqueApplicable a = false ∧ isBeaconsTechniqueApplicable a = false) ∨
      (isChromeOnMac a = true ∧ a.ovv.IN_IFRAME = true)) :
    ∃ check, checkViewability a = .ok check ∧
      check = { id := a.id, inIframe := some a.ovv.IN_IFRAME,
                geometrySupported := some (isGeometryTechniqueApplicable a),
                focus := some a.inFocus, viewabilityState := OVVCheck.UNMEASURABLE } ∧
      check.viewabilityState = OVVCheck.UNMEASURABLE ∧ check.technique = "" ∧
      check.percentViewable = .num (-1) ∧ check.beacons = [] ∧
      check.clientWidth = .num (-1) ∧ check.beaconsSupported = none := by
  have hflag : ((!isGeometryTechniqueApplicable a && !isBeaconsTechniqueApplicable a) ||
      (isChromeOnMac a && a.ovv.IN_IFRAME)) = true := by
    rcases hu with ⟨h1, h2⟩ | ⟨h1, h2⟩
    · simp [h1, h2]
    · simp [h1, h2]
  rw [checkViewability_found a player hp]
  unfold foundStage
  simp only [hflag, hd, Bool.not_false, Bool.and_self, if_true]
  exact ⟨_, rfl, rfl, rfl, rfl, rfl, rfl, rfl, rfl⟩

/-- Witness of C23: the iframe asset on Chrome on a Mac. -/
theorem checkViewability_unmeasurable_witness :
    ∃ check, checkViewability chromeMacFrameAsset = .ok check ∧
      check.viewabilityState = OVVCheck.UNMEASURABLE ∧ check.technique = "" ∧
      check.percentViewable = .num (-1) ∧ check.beacons = [] := by
  obtain ⟨c, hc, -, h1, h2, h3, h4, -⟩ := checkViewability_unmeasurable chromeMacFrameAsset
    { getClientRects0 := some ⟨0, 0, 300, 400⟩ } rfl rfl (Or.inr ⟨rfl, rfl⟩)
  exact ⟨c, hc, h1, h2, h3, h4⟩
theorem controlStage_beacons (a : OVVAsset) (c : OVVCheck) :
    (controlStage a c).beacons = c.beacons ∧
      (controlStage a c).geometryViewabilityState = c.geometryViewabilityState ∧
      (controlStage a c).beaconViewabilityState = c.beaconViewabilityState := by
  unfold controlStage
  split <;> exact ⟨rfl, rfl, rfl⟩

theorem recordedBeacons_shape (a : OVVAsset) (v : ℕ → Bool) :
    (recordedBeacons a v).length = 14 ∧ arrayGet (recordedBeacons a v) 0 = some false :=
  ⟨rfl, rfl⟩

theorem techniqueStage_beacons (a : OVVAsset) (c c' : OVVCheck)
    (h : techniqueStage a c = .ok c')
    (hc : c.beacons = [] ∨ (c.beacons.length = 14 ∧ arrayGet c.beacons 0 = some false)) :
    c'.beacons = [] ∨ (c'.beacons.length = 14 ∧ arrayGet c'.beacons 0 = some false) := by
  unfold techniqueStage at h
  by_cases hr : (!beaconsReady a) = true
  · rw [if_pos hr] at h
    injection h with h
    subst h
    exact hc
  · rw [if_neg hr] at h
    have hready : beaconsReady a = true := by simpa using hr
    by_cases hs : c.beaconsSupported = some true
    · rw [if_pos hs] at h
      simp only [] at h
      split at h
      · exact absurd h (by simp)
      · rename_i c₂ viewable hcb
        obtain ⟨r, v, -, -, hb, -⟩ := checkBeacons_ok a _ c₂ viewable hready hcb
        have hshape := recordedBeacons_shape a v
        rw [← hb] at hshape
        split at h
        · split_ifs at h <;> (injection h with h; subst h; exact Or.inr hshape)
        · split_ifs at h <;> (injection h with h; subst h; exact Or.inr hshape)
    · rw [if_neg hs] at h
      injection h with h
      subst h
      exact hc

theorem reconcileStage_beacons (a : OVVAsset) (c c' : OVVCheck)
    (h : reconcileStage a c = .ok c') : c'.beacons = c.beacons := by
  unfold reconcileStage at h
  by_cases hd : a.ovv.DEBUG = true
  · rw [if_pos hd] at h
    simp only [] at h
    split_ifs at h <;> (injection h with h; subst h; rfl)
  · rw [if_neg hd] at h
    injection h with h
    subst h
    rfl

theorem checkViewabilityBeacons_beacons (a : OVVAsset) (c c' : OVVCheck)
    (h : checkViewabilityBeacons a c = .ok c')
    (hc : c.beacons = [] ∨ (c.beacons.length = 14 ∧ arrayGet c.beacons 0 = some false)) :
    c'.beacons = [] ∨ (c'.beacons.length = 14 ∧ arrayGet c'.beacons 0 = some false) := by
  rw [checkViewabilityBeacons_stages] at h
  cases ht : techniqueStage a (controlStage a c) with
  | error e =>
    rw [ht] at h
    exact absurd h (by simp)
  | ok c₁ =>
    rw [ht] at h
    rw [reconcileStage_beacons a c₁ c' h]
    exact techniqueStage_beacons a _ c₁ ht (by rw [(controlStage_beacons a c).1]; exact hc)

theorem geometryStage_beacons (a : OVVAsset) (player : Element) (c c' : OVVCheck)
    (h : geometryStage a player c = .ok c')
    (hc : c.beacons = [] ∨ (c.beacons.length = 14 ∧ arrayGet c.beacons 0 = some false)) :
    c'.beacons = [] ∨ (c'.beacons.length = 14 ∧ arrayGet c'.beacons 0 = some false) := by
  unfold geometryStage at h
  simp only [] at h
  split at h
  · exact absurd h (by simp)
  · rename_i c₁ hc₁
    have hb : c₁.beacons = c.beacons := (checkGeometry_frame _ _ _ _ _ hc₁).2.2.2.1
    by_cases hd : a.ovv.DEBUG = true
    · rw [if_pos hd] at h
      exact checkViewabilityBeacons_beacons a _ c' h (by
        show c₁.beacons = [] ∨ (c₁.beacons.length = 14 ∧ arrayGet c₁.beacons 0 = some false)
        rw [hb]
        exact hc)
    · rw [if_neg hd] at h
      injection h with h
      subst h
      show c₁.beacons = [] ∨ (c₁.beacons.length = 14 ∧ arrayGet c₁.beacons 0 = some false)
      rw [hb]
      exact hc

theorem foundStage_beacons (a : OVVAsset) (player : Element) (c c' : OVVCheck)
    (h : foundStage a player c = .ok c') (hc : c.beacons = []) :
    c'.beacons = [] ∨ (c'.beacons.length = 14 ∧ arrayGet c'.beacons 0 = some false) := by
  unfold foundStage at h
  simp only [] at h
  have key : ∀ c₀ : OVVCheck, c₀.beacons = [] →
      ((if (((!isGeometryTechniqueApplicable a && !isBeaconsTechniqueApplicable a) ||
            (isChromeOnMac a && a.ovv.IN_IFRAME)) && !a.ovv.DEBUG) = true then .ok c₀
        else if c₀.geometrySupported = some true then geometryStage a player c₀
        else checkViewabilityBeacons a c₀) = Except.ok c') →
      (c'.beacons = [] ∨ (c'.beacons.length = 14 ∧ arrayGet c'.beacons 0 = some false)) := by
    intro c₀ hc₀ h₀
    split_ifs at h₀
    · injection h₀ with h₀
      subst h₀
      exact Or.inl hc₀
    · exact geometryStage_beacons a player c₀ c' h₀ (Or.inl hc₀)
    · exact checkViewabilityBeacons_beacons a c₀ c' h₀ (Or.inl hc₀)
  refine key _ ?_ h
  split_ifs <;> exact hc

/-- C24, as stated, fails: on a top-level page the geometry technique is used and
the returned check has an empty `beacons` array. -/
theorem checkViewability_beacons_counterexample :
    ∃ check, checkViewability (pageAsset 800 600 ⟨0, 0, 600, 800⟩) = .ok check ∧
      check.technique = OVVCheck.GEOMETRY ∧ check.beacons = [] ∧ check.beacons.length ≠ 14 := by
  rw [checkViewability_pageAsset _ _ _ (by norm_num) (by norm_num)]
  simp [measurePlayer]
  norm_num

/-- C24 (amended): every check returned by `checkViewability` has a `beacons`
array that is either empty (the beacon classifier did not run) or of length exactly
14 with index 0 (Control) `false`. -/
theorem checkViewability_beacons_shape (a : OVVAsset) (check : OVVCheck)
    (h : checkViewability a = .ok check) :
    check.beacons = [] ∨
      (check.beacons.length = 14 ∧ arrayGet check.beacons 0 = some false) := by
  cases hp : a.player with
  | none =>
    unfold checkViewability at h
    simp only [hp] at h
    injection h with h
    subst h
    exact Or.inl rfl
  | some player =>
    rw [checkViewability_found a player hp] at h
    exact foundStage_beacons a player _ check h rfl

/-- Witness of C24 (amended): in an iframe with all probes visible the classifier
runs and the array has length 14 with index 0 `false`. -/
theorem checkViewability_beacons_shape_witness :
    ∃ check, checkViewability (frameAsset (fun i => decide (i ≠ 0)) (fun i => decide (i ≠ 0))) =
        .ok check ∧
      check.beacons.length = 14 ∧ arrayGet check.beacons 0 = some false ∧
      (check.beacons = [] ∨
        (check.beacons.length = 14 ∧ arrayGet check.beacons 0 = some false)) := by
  have heq : ∃ check,
      checkViewability (frameAsset (fun i => decide (i ≠ 0)) (fun i => decide (i ≠ 0))) =
        .ok check ∧ check.beacons.length = 14 ∧ arrayGet check.beacons 0 = some false := by
    rw [checkViewability_frameAsset, techniqueStage_frameAsset _ _ _ rfl]
    exact ⟨_, rfl, rfl, rfl⟩
  obtain ⟨c, hc, h1, h2⟩ := heq
  exact ⟨c, hc, h1, h2, checkViewability_beacons_shape _ c hc⟩
theorem reconcileStage_debug (a : OVVAsset) (c : OVVCheck) (hd : a.ovv.DEBUG = true) :
    reconcileStage a c =
      .ok { c with
        technique := "",
        viewabilityState :=
          if c.geometryViewabilityState = none ∧ c.beaconViewabilityState = none then
            OVVCheck.UNMEASURABLE
          else if (c.beaconViewabilityState == some OVVCheck.VIEWABLE ||
              c.geometryViewabilityState == some OVVCheck.VIEWABLE) = true then OVVCheck.VIEWABLE
          else OVVCheck.UNVIEWABLE } := by
  unfold reconcileStage
  rw [if_pos hd]
  simp only []
  split_ifs <;> rfl

/-- C35: in debug mode, in an iframe with only 5 of the 13 probes started, neither
technique yields a determination (the geometry technique does not run and the
beacon technique reports `not_ready`); both sub-results keep their initial value
`''`, the test `=== null` fails, and `checkViewability` returns the state
`unviewable` with a blank technique. -/
theorem checkViewability_debug_undetermined_unviewable :
    debugStartingAsset.ovv.DEBUG = true ∧
    (∃ player, debugStartingAsset.player = some player) ∧
    isGeometryTechniqueApplicable debugStartingAsset = false ∧
    beaconsReady debugStartingAsset = false ∧
    ∃ check, checkViewability debugStartingAsset = .ok check ∧
      check.geometryViewabilityState = some "" ∧
      check.beaconViewabilityState = some "" ∧
      check.technique = "" ∧
      check.viewabilityState = OVVCheck.UNVIEWABLE ∧
      check.viewabilityState ≠ OVVCheck.UNMEASURABLE := by
  refine ⟨rfl, ⟨_, rfl⟩, rfl, by decide, ?_⟩
  rw [checkViewability_found debugStartingAsset { getClientRects0 := some ⟨0, 0, 300, 400⟩ } rfl]
  have hf : foundStage debugStartingAsset { getClientRects0 := some ⟨0, 0, 300, 400⟩ }
      { id := debugStartingAsset.id, inIframe := some debugStartingAsset.ovv.IN_IFRAME,
        geometrySupported := some (isGeometryTechniqueApplicable debugStartingAsset),
        focus := some debugStartingAsset.inFocus } =
      checkViewabilityBeacons debugStartingAsset
        { id := "OVVID", inIframe := some true, geometrySupported := some false,
          focus := some true } := by
    unfold foundStage
    rfl
  rw [hf, checkViewabilityBeacons_stages, techniqueStage_not_ready _ _ (by decide)]
  obtain ⟨-, hg, hb⟩ := controlStage_beacons debugStartingAsset
    { id := "OVVID", inIframe := some true, geometrySupported := some false, focus := some true }
  generalize controlStage debugStartingAsset _ = c₁ at hg hb ⊢
  have hg' : c₁.geometryViewabilityState = some "" := hg
  have hb' : c₁.beaconViewabilityState = some "" := hb
  show ∃ check, reconcileStage debugStartingAsset _ = .ok check ∧ _
  rw [reconcileStage_debug _ _ rfl]
  refine ⟨_, rfl, hg', hb', rfl, ?_, ?_⟩
  · show (if c₁.geometryViewabilityState = none ∧ c₁.beaconViewabilityState = none then _
      else _) = _
    rw [hg', hb']
    decide
  · show (if c₁.geometryViewabilityState = none ∧ c₁.beaconViewabilityState = none then _
      else _) ≠ _
    rw [hg', hb']
    decide
/-! ## The counters and the readings of the beacon technique -/

theorem beaconVerdict_true (beacons : List (Option Bool)) (n : Counters)
    (h : beaconVerdict beacons n = some true) :
    n.beaconsVisible = TOTAL_BEACONS ∨ arrayGet beacons CENTER ≠ some false := by
  by_cases h13 : n.beaconsVisible = TOTAL_BEACONS
  · exact Or.inl h13
  · refine Or.inr (fun hc => ?_)
    unfold beaconVerdict at h
    rw [if_neg h13, if_pos hc] at h
    split_ifs at h
    exact absurd h (by decide)

/-- C37: with all probes ready, if `checkBeacons` returns `true` (viewable) then the
Center probe answered `isViewable() = true`, whatever the 13 answers and the 13
on-screen flags are. -/
theorem checkBeacons_true_center (a : OVVAsset) (check check' : OVVCheck)
    (hready : beaconsReady a = true)
    (h : checkBeacons a check = .ok (check', some true)) :
    answer a CENTER = some true := by
  obtain ⟨r, v, -, hv, -, hverdict⟩ := checkBeacons_ok a check check' (some true) hready h
  rw [hv CENTER (by decide) (by decide)]
  congr 1
  rcases beaconVerdict_true _ _ hverdict.symm with hall | hc
  · exact (counted_beaconsVisible_eq_iff v).1 hall CENTER (by decide) (by decide)
  · rw [arrayGet_recordedBeacons a v CENTER (by decide) (by decide)] at hc
    cases hrec : recorded a v CENTER with
    | false => exact absurd (by rw [hrec]) hc
    | true =>
      simp only [recorded, Bool.and_eq_true] at hrec
      exact hrec.1

/-- Witness of C37: all 13 probes answer `true` and none is on screen; the verdict
is `true` and the Center probe answered `true`. -/
theorem checkBeacons_true_center_witness :
    beaconsReady (frameAsset (fun _ => true) (fun _ => false)) = true ∧
    (∃ check', checkBeacons (frameAsset (fun _ => true) (fun _ => false)) {} =
      .ok (check', some true)) ∧
    answer (frameAsset (fun _ => true) (fun _ => false)) CENTER = some true :=
  ⟨rfl,
   ⟨_, by rw [checkBeacons_frameAsset, recordedBeacons_frameAsset]; rfl⟩,
   checkBeacons_true_center (frameAsset (fun _ => true) (fun _ => false)) {}
     { ({} : OVVCheck) with
       beacons := recordedBeacons (frameAsset (fun _ => true) (fun _ => false)) (fun _ => true),
       objTop := 0, objBottom := 300, objLeft := 0, objRight := 400 }
     rfl (by rw [checkBeacons_frameAsset, recordedBeacons_frameAsset]; rfl)⟩

/-- C38: two inputs to `checkBeacons` with the identical recorded readings (all
`false`) and different verdicts: all 13 probes answer `isViewable() = true` and none
is on screen (verdict `true`, viewable), and no probe answers `true` (verdict
`false`, unviewable). -/
theorem checkBeacons_not_function_of_readings :
    ∃ check₁ check₂ verdict₁ verdict₂,
      checkBeacons (frameAsset (fun _ => true) (fun _ => false)) {} = .ok (check₁, verdict₁) ∧
      checkBeacons (frameAsset (fun _ => false) (fun _ => false)) {} = .ok (check₂, verdict₂) ∧
      check₁.beacons = check₂.beacons ∧
      check₁.beacons = List.replicate 14 (some false) ∧
      (∀ i, 1 ≤ i → i ≤ 13 →
        arrayGet check₁.beacons i =
          some (recorded (frameAsset (fun _ => true) (fun _ => false)) (fun _ => true) i)) ∧
      (∀ i, 1 ≤ i → i ≤ 13 →
        arrayGet check₂.beacons i =
          some (recorded (frameAsset (fun _ => false) (fun _ => false)) (fun _ => false) i)) ∧
      verdict₁ = some true ∧ verdict₂ = some false ∧
      (counted (fun _ => true)).beaconsVisible = 13 ∧
      (counted (fun _ => false)).beaconsVisible = 0 := by
  refine ⟨_, _, _, _, checkBeacons_frameAsset _ _ _, checkBeacons_frameAsset _ _ _, ?_, ?_,
    ?_, ?_, ?_, ?_, rfl, rfl⟩
  · show recordedBeacons _ _ = recordedBeacons _ _
    rw [recordedBeacons_frameAsset, recordedBeacons_frameAsset]
    rfl
  · show recordedBeacons _ _ = _
    rw [recordedBeacons_frameAsset]
    rfl
  · intro i h1 h13
    exact arrayGet_recordedBeacons _ _ i h1 h13
  · intro i h1 h13
    exact arrayGet_recordedBeacons _ _ i h1 h13
  · rw [recordedBeacons_frameAsset]
    rfl
  · rw [recordedBeacons_frameAsset]
    rfl
/-! ## Monotonicity of the geometry technique in the viewport -/

theorem measurePlayer_visiblePercent (W H : ℚ) (p : Element) (c : OVVCheck) (r : ClientRect)
    (hr : p.getClientRects0 = some r) (hx : r.left < r.right) (hy : r.top < r.bottom) :
    ∃ c', measurePlayer W H p c = .ok c' ∧
      c'.percentViewable = .num (visiblePercent W H r) := by
  have hA : (r.right - r.left) * (r.bottom - r.top) ≠ 0 :=
    mul_ne_zero (sub_ne_zero.2 hx.ne') (sub_ne_zero.2 hy.ne')
  unfold measurePlayer visiblePercent
  simp only [hr]
  split_ifs with hout
  · exact ⟨_, rfl, by simp⟩
  · refine ⟨_, rfl, ?_⟩
    show percentOf _ _ _ = _
    unfold percentOf
    rw [if_pos hA]

theorem span_nonneg (W left right : ℚ) (h0 : 0 ≤ right) (hW : 0 ≤ W) (hl : left ≤ W)
    (hlr : left < right) : (0 : ℤ) ≤ ⌊min W right⌋ - ⌈max 0 left⌉ + 1 := by
  have hm : max 0 left ≤ min W right :=
    max_le (le_min hW h0) (le_min hl hlr.le)
  have h1 : (⌈max 0 left⌉ : ℚ) < max 0 left + 1 := Int.ceil_lt_add_one _
  have h2 : min W right < (⌊min W right⌋ : ℚ) + 1 := Int.lt_floor_add_one _
  have h3 : (⌈max 0 left⌉ : ℚ) < (⌊min W right⌋ : ℚ) + 1 + 1 := by linarith
  have h4 : (⌈max 0 left⌉ : ℤ) < ⌊min W right⌋ + 1 + 1 := by exact_mod_cast h3
  omega

theorem span_mono (W' W left right : ℚ) (h : W' ≤ W) :
    ⌊min W' right⌋ - ⌈max 0 left⌉ + 1 ≤ ⌊min W right⌋ - ⌈max 0 left⌉ + 1 := by
  have : ⌊min W' right⌋ ≤ ⌊min W right⌋ := Int.floor_mono (min_le_min_right right h)
  omega

theorem visiblePercent_nonneg (W H : ℚ) (r : ClientRect) (hW : 0 < W) (hH : 0 < H)
    (hx : r.left < r.right) (hy : r.top < r.bottom) : 0 ≤ visiblePercent W H r := by
  unfold visiblePercent
  split_ifs with hout
  · exact le_refl 0
  · push_neg at hout
    obtain ⟨hb, hr, ht, hl⟩ := hout
    have h1 := span_nonneg W r.left r.right hr hW.le hl hx
    have h2 := span_nonneg H r.top r.bottom hb hH.le ht hy
    apply Int.floor_nonneg.2
    have hA : 0 < (r.right - r.left) * (r.bottom - r.top) :=
      mul_pos (sub_pos.2 hx) (sub_pos.2 hy)
    have hv : (0 : ℚ) ≤ (((⌊min W r.right⌋ - ⌈max 0 r.left⌉ + 1) *
        (⌊min H r.bottom⌋ - ⌈max 0 r.top⌉ + 1) : ℤ) : ℚ) := by
      exact_mod_cast mul_nonneg h1 h2
    exact mul_nonneg (div_nonneg hv hA.le) (by norm_num)

theorem visiblePercent_mono (W' H' W H : ℚ) (r : ClientRect) (hW' : 0 < W') (hH' : 0 < H')
    (hW : W' ≤ W) (hH : H' ≤ H) (hx : r.left < r.right) (hy : r.top < r.bottom) :
    visiblePercent W' H' r ≤ visiblePercent W H r := by
  by_cases hout' : r.bottom < 0 ∨ r.right < 0 ∨ r.top > H' ∨ r.left > W'
  · have h0 : visiblePercent W' H' r = 0 := by
      unfold visiblePercent
      rw [if_pos hout']
    rw [h0]
    exact visiblePercent_nonneg W H r (lt_of_lt_of_le hW' hW) (lt_of_lt_of_le hH' hH) hx hy
  · have hout : ¬ (r.bottom < 0 ∨ r.right < 0 ∨ r.top > H ∨ r.left > W) := by
      push_neg at hout' ⊢
      exact ⟨hout'.1, hout'.2.1, hout'.2.2.1.trans hH, hout'.2.2.2.trans hW⟩
    unfold visiblePercent
    rw [if_neg hout', if_neg hout]
    push_neg at hout'
    obtain ⟨hb, hr, ht, hl⟩ := hout'
    have h1 := span_nonneg W' r.left r.right hr hW'.le hl hx
    have h2 := span_nonneg H' r.top r.bottom hb hH'.le ht hy
    have h3 := span_mono W' W r.left r.right hW
    have h4 := span_mono H' H r.top r.bottom hH
    have hA : 0 < (r.right - r.left) * (r.bottom - r.top) :=
      mul_pos (sub_pos.2 hx) (sub_pos.2 hy)
    have hv : (⌊min W' r.right⌋ - ⌈max 0 r.left⌉ + 1) * (⌊min H' r.bottom⌋ - ⌈max 0 r.top⌉ + 1) ≤
        (⌊min W r.right⌋ - ⌈max 0 r.left⌉ + 1) * (⌊min H r.bottom⌋ - ⌈max 0 r.top⌉ + 1) :=
      mul_le_mul h3 h4 h2 (h1.trans h3)
    have hvq : ((((⌊min W' r.right⌋ - ⌈max 0 r.left⌉ + 1) *
        (⌊min H' r.bottom⌋ - ⌈max 0 r.top⌉ + 1) : ℤ)) : ℚ) ≤
        (((⌊min W r.right⌋ - ⌈max 0 r.left⌉ + 1) *
          (⌊min H r.bottom⌋ - ⌈max 0 r.top⌉ + 1) : ℤ) : ℚ) := by
      exact_mod_cast hv
    apply Int.floor_mono
    exact mul_le_mul_of_nonneg_right (div_le_div_of_nonneg_right hvq hA.le) (by norm_num)

/-- C36: for a player rectangle with left < right and top < bottom and two
determined viewports with 0 < W' ≤ W and 0 < H' ≤ H, `checkGeometry` returns on
both, with numeric `percentViewable` values p' (under W', H') and p (under W, H)
such that 0 ≤ p' ≤ p. -/
theorem checkGeometry_viewport_monotone (d d' : Document) (w w' : Window) (player : Element)
    (c c' : OVVCheck) (r : ClientRect) (W H W' H' : ℚ)
    (hr : player.getClientRects0 = some r) (hx : r.left < r.right) (hy : r.top < r.bottom)
    (hW : (resolveViewport d w c).clientWidth = .num W)
    (hH : (resolveViewport d w c).clientHeight = .num H)
    (hW' : (resolveViewport d' w' c').clientWidth = .num W')
    (hH' : (resolveViewport d' w' c').clientHeight = .num H')
    (h0W : 0 < W') (hWW : W' ≤ W) (h0H : 0 < H') (hHH : H' ≤ H) :
    ∃ (k k' : OVVCheck) (p p' : ℤ),
      checkGeometry d w player c = .ok k ∧ checkGeometry d' w' player c' = .ok k' ∧
      k.percentViewable = .num p ∧ k'.percentViewable = .num p' ∧ 0 ≤ p' ∧ p' ≤ p := by
  rw [checkGeometry_determined d w player c W H hW hH,
    checkGeometry_determined d' w' player c' W' H' hW' hH']
  obtain ⟨k, hk, hp⟩ := measurePlayer_visiblePercent W H player (resolveViewport d w c) r hr hx hy
  obtain ⟨k', hk', hp'⟩ :=
    measurePlayer_visiblePercent W' H' player (resolveViewport d' w' c') r hr hx hy
  exact ⟨k, k', _, _, hk, hk', hp, hp', visiblePercent_nonneg W' H' r h0W h0H hx hy,
    visiblePercent_mono W' H' W H r h0W h0H hWW hHH hx hy⟩

/-- Witness of C36: the rectangle (0,0)-(100,100) on the viewports 50 by 50 and
800 by 600. -/
theorem checkGeometry_viewport_monotone_witness :
    ∃ (k k' : OVVCheck) (p p' : ℤ),
      checkGeometry (pageAsset 800 600 ⟨0, 0, 100, 100⟩).document
        (pageAsset 800 600 ⟨0, 0, 100, 100⟩).window
        { getClientRects0 := some ⟨0, 0, 100, 100⟩ } {} = .ok k ∧
      checkGeometry (pageAsset 50 50 ⟨0, 0, 100, 100⟩).document
        (pageAsset 50 50 ⟨0, 0, 100, 100⟩).window
        { getClientRects0 := some ⟨0, 0, 100, 100⟩ } {} = .ok k' ∧
      k.percentViewable = .num p ∧ k'.percentViewable = .num p' ∧ 0 ≤ p' ∧ p' ≤ p :=
  checkGeometry_viewport_monotone (pageAsset 800 600 ⟨0, 0, 100, 100⟩).document
    (pageAsset 50 50 ⟨0, 0, 100, 100⟩).document (pageAsset 800 600 ⟨0, 0, 100, 100⟩).window
    (pageAsset 50 50 ⟨0, 0, 100, 100⟩).window { getClientRects0 := some ⟨0, 0, 100, 100⟩ } {} {}
    ⟨0, 0, 100, 100⟩ 800 600 50 50 rfl (by norm_num) (by norm_num)
    (by rw [pageAsset_viewport 800 600 _ _ (by norm_num) (by norm_num)])
    (by rw [pageAsset_viewport 800 600 _ _ (by norm_num) (by norm_num)])
    (by rw [pageAsset_viewport 50 50 _ _ (by norm_num) (by norm_num)])
    (by rw [pageAsset_viewport 50 50 _ _ (by norm_num) (by norm_num)])
    (by norm_num) (by norm_num) (by norm_num) (by norm_num)
/-! ## Readiness is not monotone -/

theorem beaconStarted_asset (a : OVVAsset) (index : ℕ) :
    (beaconStarted a index).asset =
      { a with beaconsStarted := a.beaconsStarted + countedCalls a [index] } := by
  unfold beaconStarted countedCalls returnsNormally
  by_cases h1 : a.ovv.DEBUG = true ∧ (a.getBeacon index).bind Beacon.debug = none
  · rw [if_pos h1]
    simp [h1.1, h1.2]
  · rw [if_neg h1]
    have hn : (!(a.ovv.DEBUG && ((a.getBeacon index).bind Beacon.debug).isNone)) = true := by
      cases hd : a.ovv.DEBUG
      · simp
      · cases hb : (a.getBeacon index).bind Beacon.debug
        · exact absurd ⟨hd, hb⟩ h1
        · simp
    by_cases h2 : index = 0
    · rw [if_pos h2]
      simp [h2]
    · rw [if_neg h2]
      simp only []
      have hc : List.countP (fun index => decide (index ≠ 0) &&
          !(a.ovv.DEBUG && ((a.getBeacon index).bind Beacon.debug).isNone)) [index] = 1 := by
        rw [List.countP_cons_of_pos]
        · rfl
        · simp only [hn, Bool.and_true, decide_eq_true_eq]
          exact h2
      rw [hc]
      split_ifs <;> rfl

theorem countedCalls_update (a : OVVAsset) (n : ℕ) (indices : List ℕ) :
    countedCalls { a with beaconsStarted := n } indices = countedCalls a indices := rfl

theorem countedCalls_cons (a : OVVAsset) (x : ℕ) (xs : List ℕ) :
    countedCalls a (x :: xs) = countedCalls a [x] + countedCalls a xs := by
  unfold countedCalls
  rw [List.countP_cons, List.countP_cons, List.countP_nil]
  omega

theorem countedCalls_append (a : OVVAsset) (xs ys : List ℕ) :
    countedCalls a (xs ++ ys) = countedCalls a xs + countedCalls a ys := by
  unfold countedCalls
  rw [List.countP_append]

theorem beaconStartedAll_fold (indices : List ℕ) :
    ∀ (a : OVVAsset) (t : ℕ),
      (indices.foldl (fun s index =>
        ((beaconStarted s.1 index).asset, s.2 + (beaconStarted s.1 index).timerCalls)) (a, t)).1 =
        { a with beaconsStarted := a.beaconsStarted + countedCalls a indices } := by
  induction indices with
  | nil => intro a t; rfl
  | cons x xs ih =>
    intro a t
    rw [List.foldl_cons, ih, beaconStarted_asset, countedCalls_update, countedCalls_cons a x xs]
    show ({ a with beaconsStarted := a.beaconsStarted + countedCalls a [x] + countedCalls a xs } :
      OVVAsset) = _
    rw [Nat.add_assoc]

theorem beaconStartedAll_asset (a : OVVAsset) (indices : List ℕ) :
    (beaconStartedAll a indices).1 =
      { a with beaconsStarted := a.beaconsStarted + countedCalls a indices } :=
  beaconStartedAll_fold indices a 0

/-- C39, as stated, fails: when the player was not found, `beaconsReady()` is false
after exactly 13 non-control calls; and in debug mode, when `getBeacon(index)
.debug()` throws, 13 non-control calls leave the counter at 0 and `beaconsReady()`
false. -/
theorem beaconsReady_count_counterexample :
    (List.replicate 13 1).countP (fun index => index ≠ 0) = 13 ∧
    beaconsReady (beaconStartedAll lostPlayerFrameAsset (List.replicate 13 1)).1 = false ∧
    beaconsReady (beaconStartedAll debugFirefoxAsset (List.replicate 13 1)).1 = false ∧
    (beaconStartedAll debugFirefoxAsset (List.replicate 13 1)).1.beaconsStarted = 0 := by
  refine ⟨by decide, rfl, rfl, rfl⟩

/-- C39 (amended): on an asset whose player is found and whose counter starts at 0,
`beaconsReady()` holds after a sequence of `beaconStarted` calls exactly when the
number of non-control calls that returned normally (all of them when debug is off)
equals 13; once there have been 14 such calls `beaconsReady()` is false after every
further sequence of calls, and, with debug off on the beacon path,
`checkViewability` then returns `not_ready` with technique `beacon`. -/
theorem beaconsReady_not_monotone (a : OVVAsset) (player : Element) (indices : List ℕ)
    (hp : a.player = some player) (h0 : a.beaconsStarted = 0) :
    (beaconsReady (beaconStartedAll a indices).1 = true ↔ countedCalls a indices = 13) ∧
    (a.ovv.DEBUG = false →
      countedCalls a indices = indices.countP (fun index => decide (index ≠ 0))) ∧
    (14 ≤ countedCalls a indices →
      ∀ more, beaconsReady (beaconStartedAll a (indices ++ more)).1 = false) ∧
    (14 ≤ countedCalls a indices → a.ovv.DEBUG = false →
      isGeometryTechniqueApplicable a = false → isBeaconsTechniqueApplicable a = true →
      (isChromeOnMac a && a.ovv.IN_IFRAME) = false →
      ∀ more, ∃ check, checkViewability (beaconStartedAll a (indices ++ more)).1 = .ok check ∧
        check.viewabilityState = OVVCheck.NOT_READY ∧ check.technique = OVVCheck.BEACON) := by
  have hready : ∀ l, beaconsReady (beaconStartedAll a l).1 = decide (countedCalls a l = 13) := by
    intro l
    rw [beaconStartedAll_asset]
    simp only [beaconsReady, hp, h0, TOTAL_BEACONS, Option.isSome_some, Bool.true_and, zero_add]
    by_cases h : countedCalls a l = 13 <;> simp [h]
  have hfalse : 14 ≤ countedCalls a indices →
      ∀ more, beaconsReady (beaconStartedAll a (indices ++ more)).1 = false := by
    intro h14 more
    rw [hready, countedCalls_append]
    exact decide_eq_false (by omega)
  refine ⟨?_, ?_, hfalse, ?_⟩
  · rw [hready]
    exact decide_eq_true_iff
  · intro hd
    unfold countedCalls returnsNormally
    simp only [hd, Bool.false_and, Bool.not_false, Bool.and_true]
  · intro h14 hd hg hb hm more
    have hnr := hfalse h14 more
    have hupd : (beaconStartedAll a (indices ++ more)).1 =
        { a with beaconsStarted := a.beaconsStarted + countedCalls a (indices ++ more) } :=
      beaconStartedAll_asset a (indices ++ more)
    rw [checkViewability_beacons (beaconStartedAll a (indices ++ more)).1 player
      (by rw [hupd]; exact hp) (by rw [hupd]; exact hd) (by rw [hupd]; exact hg)
      (by rw [hupd]; exact hb) (by rw [hupd]; exact hm)]
    exact checkViewabilityBeacons_not_ready _ _ (by rw [hupd]; exact hd) hnr

/-- Witness of C39 (amended): on a fresh iframe asset the 13 roles report and then
role 1 reports again; `beaconsReady()` is false and `checkViewability` gives
`not_ready`. -/
theorem beaconsReady_not_monotone_witness :
    beaconsReady (beaconStartedAll freshFrameAsset
      [1, 2, 3, 4, 5, 6, 7, 8, 9, 10, 11, 12, 13]).1 = true ∧
    beaconsReady (beaconStartedAll freshFrameAsset
      ([1, 2, 3, 4, 5, 6, 7, 8, 9, 10, 11, 12, 13, 1] ++ [])).1 = false ∧
    ∃ check, checkViewability (beaconStartedAll freshFrameAsset
        ([1, 2, 3, 4, 5, 6, 7, 8, 9, 10, 11, 12, 13, 1] ++ [2, 0])).1 = .ok check ∧
      check.viewabilityState = OVVCheck.NOT_READY ∧ check.technique = OVVCheck.BEACON :=
  ⟨rfl,
   (beaconsReady_not_monotone freshFrameAsset { getClientRects0 := some ⟨0, 0, 300, 400⟩ }
      [1, 2, 3, 4, 5, 6, 7, 8, 9, 10, 11, 12, 13, 1] rfl rfl).2.2.1 (by decide) [],
   (beaconsReady_not_monotone freshFrameAsset { getClientRects0 := some ⟨0, 0, 300, 400⟩ }
      [1, 2, 3, 4, 5, 6, 7, 8, 9, 10, 11, 12, 13, 1] rfl rfl).2.2.2 (by decide) rfl rfl
      (by decide) rfl [2, 0]⟩
/-! ## The event bus: lemmas -/

theorem contains_eq (item : String) (list : List String) :
    contains item list = decide (item ∈ list) := by
  induction list with
  | nil => simp [contains]
  | cons x xs ih =>
    unfold contains
    by_cases h : x = item
    · simp [h]
    · rw [if_neg h, ih]
      have h' : ¬ item = x := fun e => h e.symm
      simp [h']

theorem foldl_append_calls {α : Type} (f : α → List Call) (l : List α) :
    ∀ init : List Call,
      l.foldl (fun calls x => calls ++ f x) init = init ++ l.flatMap f := by
  induction l with
  | nil => intro init; simp
  | cons x xs ih =>
    intro init
    rw [List.foldl_cons, ih, List.flatMap_cons, List.append_assoc]

theorem replay_fold (run : Behaviour) (func : Callback) (uid : String) (events : List String)
    (l : List OVVEvent) :
    ∀ init : List Call,
      l.foldl (fun calls eventArgs =>
          if contains eventArgs.eventName events then calls ++ invoke run func uid eventArgs
          else calls) init =
        init ++ (l.filter (fun e => decide (e.eventName ∈ events))).flatMap (invoke run func uid) := by
  induction l with
  | nil => intro init; simp
  | cons x xs ih =>
    intro init
    rw [List.foldl_cons, ih, contains_eq]
    by_cases h : x.eventName ∈ events
    · simp [h]
    · simp [h]

theorem subscribe_calls (run : Behaviour) (s : Bus) (events : List String) (uid : String)
    (func : Callback) (getPreviousEvents : Bool) :
    (subscribe run s events uid func getPreviousEvents).2 =
      if getPreviousEvents then
        ((buffer s uid).filter (fun e => decide (e.eventName ∈ events))).flatMap (invoke run func uid)
      else [] := by
  unfold subscribe buffer
  cases getPreviousEvents
  · rfl
  · cases h : s.previousEvents uid with
    | none => simp [h]
    | some b =>
      simp only [h, if_true, Option.getD_some]
      rw [replay_fold]
      rfl

theorem subscribe_previousEvents (run : Behaviour) (s : Bus) (events : List String)
    (uid : String) (func : Callback) (getPreviousEvents : Bool) :
    (subscribe run s events uid func getPreviousEvents).1.previousEvents = s.previousEvents := rfl

theorem register_getD (uid : String) (func : Callback) (key : String) (events : List String) :
    ∀ subscribers : String → Option (List Subscriber),
      ((register uid func subscribers events) key).getD [] =
        (subscribers key).getD [] ++
          (events.filter (fun eventName => eventName ++ uid = key)).map
            (fun _ => ({ Func := func } : Subscriber)) := by
  induction events with
  | nil => intro subscribers; simp [register]
  | cons x xs ih =>
    intro subscribers
    unfold register at ih ⊢
    rw [List.foldl_cons, ih]
    by_cases hk : x ++ uid = key
    · subst hk
      cases hs : subscribers (x ++ uid) with
      | none => simp [hs]
      | some l => simp [hs]
    · have hk' : ¬ key = x ++ uid := fun e => hk e.symm
      simp only [List.filter_cons, hk, decide_False, Bool.false_eq_true, if_false]
      congr 2
      rw [Function.update_noteq hk']
      split_ifs
      · rw [Function.update_noteq hk']
      · rfl

theorem subscribe_subscribers (run : Behaviour) (s : Bus) (events : List String) (uid : String)
    (func : Callback) (getPreviousEvents : Bool) (key : String) :
    ((subscribe run s events uid func getPreviousEvents).1.subscribers key).getD [] =
      (s.subscribers key).getD [] ++
        (events.filter (fun eventName => eventName ++ uid = key)).map
          (fun _ => ({ Func := func } : Subscriber)) :=
  register_getD uid func key events s.subscribers

theorem publish_subscribers (run : Behaviour) (s : Bus) (eventName uid args : String) (now : ℕ) :
    (publish run s eventName uid args now).1.subscribers = s.subscribers := by
  unfold publish
  simp only []
  cases h : s.previousEvents uid with
  | none =>
    simp only [if_true, Function.update_same]
    split_ifs <;> rfl
  | some b =>
    simp only [if_false, reduceCtorEq, h]
    split_ifs <;> rfl

theorem publish_buffer (run : Behaviour) (s : Bus) (eventName uid args : String) (now : ℕ)
    (uid' : String) :
    buffer (publish run s eventName uid args now).1 uid' =
      if uid' = uid ∧ (buffer s uid).length < PREVIOUS_EVENTS_CAPACITY then
        buffer s uid ++ [{ eventName := eventName, eventTime := now, ovvArgs := args }]
      else buffer s uid' := by
  unfold publish buffer
  simp only []
  cases h : s.previousEvents uid with
  | none =>
    simp only [if_true, Function.update_same, List.length_nil, Option.getD_none]
    rw [if_pos (by decide)]
    by_cases hu : uid' = uid
    · subst hu
      simp [PREVIOUS_EVENTS_CAPACITY]
    · simp [hu, Function.update_noteq hu]
  | some b =>
    simp only [if_false, reduceCtorEq, h, Option.getD_some]
    by_cases hl : b.length < PREVIOUS_EVENTS_CAPACITY
    · rw [if_pos hl]
      by_cases hu : uid' = uid
      · subst hu
        simp [hl]
      · simp [hu, Function.update_noteq hu]
    · rw [if_neg hl]
      simp [hl]

theorem publish_calls (run : Behaviour) (s : Bus) (eventName uid args : String) (now : ℕ) :
    (publish run s eventName uid args now).2 =
      if eventName ≠ "" ∧ uid ≠ "" then
        ((s.subscribers (eventName ++ uid)).getD []).flatMap
          (fun funcObject =>
            invoke run funcObject.Func uid
              { eventName := eventName, eventTime := now, ovvArgs := args })
      else [] := by
  have hs := publish_subscribers run s eventName uid args now
  unfold publish at hs ⊢
  simp only [] at hs ⊢
  rw [hs]
  by_cases hc : eventName ≠ "" ∧ uid ≠ ""
  · rw [if_pos hc, if_pos hc]
    cases s.subscribers (eventName ++ uid) with
    | none => rfl
    | some l =>
      simp only [Option.getD_some]
      rw [foldl_append_calls]
      rfl
  · rw [if_neg hc, if_neg hc]
theorem runOps_subscribers (run : Behaviour) (key : String) (ops : List Op) :
    ∀ s : Bus,
      ((runOps run s ops).1.subscribers key).getD [] =
        (s.subscribers key).getD [] ++
          (registrations key ops).map (fun func => ({ Func := func } : Subscriber)) := by
  induction ops with
  | nil => intro s; simp [runOps, registrations]
  | cons op ops ih =>
    intro s
    show (((runOps run (step run s op).1 ops).1).subscribers key).getD [] = _
    rw [ih]
    cases op with
    | publish eventName uid args now =>
      show (((publish run s eventName uid args now).1).subscribers key).getD [] ++ _ = _
      rw [publish_subscribers]
      rfl
    | subscribe events uid func r =>
      show (((subscribe run s events uid func r).1).subscribers key).getD [] ++ _ = _
      rw [subscribe_subscribers]
      simp [registrations]

theorem take_capacity_append (b rest : List OVVEvent) (e : OVVEvent)
    (h : ¬ b.length < PREVIOUS_EVENTS_CAPACITY) (hle : b.length ≤ PREVIOUS_EVENTS_CAPACITY) :
    (b ++ rest).take PREVIOUS_EVENTS_CAPACITY = (b ++ e :: rest).take PREVIOUS_EVENTS_CAPACITY := by
  have hb : b.length = PREVIOUS_EVENTS_CAPACITY := by omega
  rw [← hb, List.take_left, List.take_left]

theorem runOps_buffer (run : Behaviour) (uid : String) (ops : List Op) :
    ∀ s : Bus, (buffer s uid).length ≤ PREVIOUS_EVENTS_CAPACITY →
      buffer (runOps run s ops).1 uid =
        (buffer s uid ++ published uid ops).take PREVIOUS_EVENTS_CAPACITY := by
  induction ops with
  | nil =>
    intro s hs
    simp only [runOps, published, List.append_nil]
    rw [List.take_of_length_le hs]
  | cons op ops ih =>
    intro s hs
    show buffer (runOps run (step run s op).1 ops).1 uid = _
    cases op with
    | publish eventName uid' args now =>
      have hstep : buffer (step run s (Op.publish eventName uid' args now)).1 uid =
          if uid = uid' ∧ (buffer s uid').length < PREVIOUS_EVENTS_CAPACITY then
            buffer s uid' ++ [{ eventName := eventName, eventTime := now, ovvArgs := args }]
          else buffer s uid := publish_buffer run s eventName uid' args now uid
      by_cases hu : uid' = uid
      · subst hu
        by_cases hl : (buffer s uid').length < PREVIOUS_EVENTS_CAPACITY
        · rw [if_pos ⟨rfl, hl⟩] at hstep
          rw [ih _ (by rw [hstep, List.length_append]; simpa using hl), hstep]
          simp [published]
        · rw [if_neg (fun h => hl h.2)] at hstep
          rw [ih _ (by rw [hstep]; exact hs), hstep]
          simp only [published, if_true]
          exact take_capacity_append _ _ _ hl hs
      · have hu' : ¬ uid = uid' := fun e => hu e.symm
        rw [if_neg (fun h => hu' h.1)] at hstep
        rw [ih _ (by rw [hstep]; exact hs), hstep]
        simp [published, hu]
    | subscribe events uid' func r =>
      have hstep : buffer (step run s (Op.subscribe events uid' func r)).1 uid = buffer s uid :=
        rfl
      rw [ih _ (by rw [hstep]; exact hs), hstep]
      rfl

theorem registrationsFor_sublist (kind uid : String) (ops : List Op) :
    List.Sublist (registrationsFor kind uid ops) (registrations (kind ++ uid) ops) := by
  induction ops with
  | nil => exact List.Sublist.refl _
  | cons op ops ih =>
    cases op with
    | publish eventName uid' args now => exact ih
    | subscribe events uid' func r =>
      unfold registrationsFor registrations
      refine List.Sublist.append ?_ ih
      by_cases hu : uid' = uid
      · subst hu
        rw [if_pos rfl]
        refine List.Sublist.map _ ?_
        refine List.monotone_filter_right events ?_
        intro x hx
        simp only [decide_eq_true_eq] at hx ⊢
        rw [hx]
      · rw [if_neg hu]
        exact List.nil_sublist _

theorem registrations_mem (key : String) (func : Callback) (ops : List Op)
    (h : func ∈ registrations key ops) :
    ∃ events uid r, Op.subscribe events uid func r ∈ ops ∧
      ∃ kind ∈ events, kind ++ uid = key := by
  induction ops with
  | nil => simp [registrations] at h
  | cons op ops ih =>
    cases op with
    | publish eventName uid' args now =>
      obtain ⟨events, uid, r, hmem, hk⟩ := ih h
      exact ⟨events, uid, r, List.mem_cons_of_mem _ hmem, hk⟩
    | subscribe events uid' func' r =>
      unfold registrations at h
      rw [List.mem_append] at h
      rcases h with h | h
      · rw [List.mem_map] at h
        obtain ⟨kind, hkind, hf⟩ := h
        rw [List.mem_filter] at hkind
        subst hf
        exact ⟨events, uid', r, List.mem_cons_self _ _, kind, hkind.1, by simpa using hkind.2⟩
      · obtain ⟨events', uid, r', hmem, hk⟩ := ih h
        exact ⟨events', uid, r', List.mem_cons_of_mem _ hmem, hk⟩

theorem invoke_mem (run : Behaviour) (func : Callback) (uid : String) (e : OVVEvent) (c : Call)
    (h : c ∈ invoke run func uid e) :
    func = .function c.func ∧ c.uid = uid ∧ c.event = e := by
  cases func with
  | function id =>
    simp only [invoke, List.mem_singleton] at h
    subst h
    exact ⟨rfl, rfl, rfl⟩
  | notCallable => simp [invoke] at h
/-! ## Claims on the event bus -/

/-- C25: after every sequence of `publish` (and `subscribe`) calls on a new bus,
for every asset id the replay buffer equals, in order, the first min(n, 1000) of
the n events published for that id, so it holds at most 1000 events; and a
`publish` made when the buffer holds 1000 events leaves the buffer unchanged. -/
theorem publish_buffer_first_thousand (run : Behaviour) (ops : List Op) (uid : String) :
    buffer (runOps run Bus.init ops).1 uid = (published uid ops).take 1000 ∧
    (buffer (runOps run Bus.init ops).1 uid).length = min 1000 (published uid ops).length ∧
    (buffer (runOps run Bus.init ops).1 uid).length ≤ 1000 ∧
    ∀ (s : Bus) (eventName args : String) (now : ℕ), (buffer s uid).length = 1000 →
      buffer (publish run s eventName uid args now).1 uid = buffer s uid := by
  have h : buffer (runOps run Bus.init ops).1 uid = (published uid ops).take 1000 := by
    rw [runOps_buffer run uid ops Bus.init (by simp [buffer, Bus.init])]
    rfl
  refine ⟨h, ?_, ?_, ?_⟩
  · rw [h, List.length_take]
  · rw [h, List.length_take]
    exact min_le_left _ _
  · intro s eventName args now hlen
    rw [publish_buffer, if_neg]
    rw [hlen]
    simp [PREVIOUS_EVENTS_CAPACITY]

/-- Witness of C25: a `publish` on a bus whose buffer for `OVVID` holds 1000
events leaves that buffer unchanged. -/
theorem publish_buffer_first_thousand_witness :
    (buffer fullBus "OVVID").length = 1000 ∧
    buffer (publish (fun _ _ _ => .ok ()) fullBus "check" "OVVID" "" 7).1 "OVVID" =
      buffer fullBus "OVVID" :=
  ⟨List.length_replicate 1000 _,
   (publish_buffer_first_thousand (fun _ _ _ => .ok ()) [] "OVVID").2.2.2 fullBus "check" "" 7
     (List.length_replicate 1000 _)⟩

/-- C26: on the state reached by any sequence of calls on a new bus, for a
non-empty event kind and a non-empty asset id, `publish(kind, uid, args)` invokes the
values registered under the key `kind + uid`, once per registration and in
subscription order, each function with the asset id and the newly built event; the
registrations made for `(kind, uid)` are among them, in order; and the invocations
do not depend on the replay buffers, so they are made as well when the buffer is
full. -/
theorem publish_invokes_registered (run : Behaviour) (ops : List Op)
    (kind uid args : String) (now : ℕ) (hk : kind ≠ "") (hu : uid ≠ "") :
    (publish run (runOps run Bus.init ops).1 kind uid args now).2 =
      (registrations (kind ++ uid) ops).flatMap
        (fun func => invoke run func uid { eventName := kind, eventTime := now, ovvArgs := args }) ∧
    List.Sublist (registrationsFor kind uid ops) (registrations (kind ++ uid) ops) ∧
    (∀ c ∈ (publish run (runOps run Bus.init ops).1 kind uid args now).2,
      c.uid = uid ∧ c.event = { eventName := kind, eventTime := now, ovvArgs := args }) ∧
    (∀ s : Bus, s.subscribers = (runOps run Bus.init ops).1.subscribers →
      (publish run s kind uid args now).2 =
        (publish run (runOps run Bus.init ops).1 kind uid args now).2) := by
  have hcalls : (publish run (runOps run Bus.init ops).1 kind uid args now).2 =
      (registrations (kind ++ uid) ops).flatMap
        (fun func =>
          invoke run func uid { eventName := kind, eventTime := now, ovvArgs := args }) := by
    rw [publish_calls, if_pos ⟨hk, hu⟩, runOps_subscribers]
    simp [Bus.init, List.flatMap_map]
  refine ⟨hcalls, registrationsFor_sublist kind uid ops, ?_, ?_⟩
  · intro c hc
    rw [hcalls, List.mem_flatMap] at hc
    obtain ⟨func, -, hmem⟩ := hc
    exact (invoke_mem run func uid _ c hmem).2
  · intro s hs
    rw [publish_calls, publish_calls, hs]

/-- Witness of C26: two functions subscribe to `check` for `OVVID`, 1000 events
are published, and the 1001st `publish` invokes both functions in subscription
order. -/
theorem publish_invokes_registered_witness :
    (publish (fun _ _ _ => .ok ())
      (runOps (fun _ _ _ => .ok ()) Bus.init
        (Op.subscribe ["check"] "OVVID" (.function 1) false ::
          Op.subscribe ["check"] "OVVID" (.function 2) false ::
          publishes "OVVID" ((List.range 1000).map (fun t => ("check", "", t))))).1
      "check" "OVVID" "" 1000).2 =
      (registrations ("check" ++ "OVVID")
        (Op.subscribe ["check"] "OVVID" (.function 1) false ::
          Op.subscribe ["check"] "OVVID" (.function 2) false ::
          publishes "OVVID" ((List.range 1000).map (fun t => ("check", "", t))))).flatMap
        (fun func => invoke (fun _ _ _ => .ok ()) func "OVVID"
          { eventName := "check", eventTime := 1000, ovvArgs := "" }) :=
  (publish_invokes_registered (fun _ _ _ => .ok ())
    (Op.subscribe ["check"] "OVVID" (.function 1) false ::
      Op.subscribe ["check"] "OVVID" (.function 2) false ::
      publishes "OVVID" ((List.range 1000).map (fun t => ("check", "", t))))
    "check" "OVVID" "" 1000 (by decide) (by decide)).1

/-- C27: `subscribe(events, uid, func, true)` invokes the function `func`, before
returning, once for each event of the buffer of `uid` whose name is in `events`, in
the order of the buffer, each time with `uid` and that event, and for no other
event; with `getPreviousEvents = false` it invokes nothing. -/
theorem subscribe_replays_buffer (run : Behaviour) (s : Bus) (events : List String)
    (uid : String) (id : ℕ) :
    (subscribe run s events uid (.function id) true).2 =
      ((buffer s uid).filter (fun e => decide (e.eventName ∈ events))).map
        (fun e => { func := id, uid := uid, event := e, returned := runSafely (run id uid e) }) ∧
    (subscribe run s events uid (.function id) false).2 = [] := by
  constructor
  · rw [subscribe_calls, if_pos rfl]
    induction (buffer s uid).filter (fun e => decide (e.eventName ∈ events)) with
    | nil => rfl
    | cons x xs ih =>
      rw [List.flatMap_cons, ih]
      rfl
  · rw [subscribe_calls]
    rfl

/-- C28: `publish` and `subscribe` always return (they are total functions of the
state), and whether the functions throw changes neither the state after the call
nor the invocations made (which functions are called, in which order and with
which arguments): both are the same as when every function returns normally; only
the value returned by `runSafely` differs. -/
theorem callback_failure_swallowed (run : Behaviour) (s : Bus) (eventName uid args : String)
    (now : ℕ) (events : List String) (func : Callback) (getPreviousEvents : Bool) :
    (publish run s eventName uid args now).1.previousEvents =
      (publish (fun _ _ _ => .ok ()) s eventName uid args now).1.previousEvents ∧
    (publish run s eventName uid args now).1.subscribers =
      (publish (fun _ _ _ => .ok ()) s eventName uid args now).1.subscribers ∧
    (publish run s eventName uid args now).2.map Call.delivery =
      (publish (fun _ _ _ => .ok ()) s eventName uid args now).2.map Call.delivery ∧
    (subscribe run s events uid func getPreviousEvents).1.previousEvents =
      (subscribe (fun _ _ _ => .ok ()) s events uid func getPreviousEvents).1.previousEvents ∧
    (subscribe run s events uid func getPreviousEvents).1.subscribers =
      (subscribe (fun _ _ _ => .ok ()) s events uid func getPreviousEvents).1.subscribers ∧
    (subscribe run s events uid func getPreviousEvents).2.map Call.delivery =
      (subscribe (fun _ _ _ => .ok ()) s events uid func getPreviousEvents).2.map Call.delivery := by
  have hinv : ∀ (l : List Callback) (u : String) (e : OVVEvent),
      (l.flatMap (fun f => invoke run f u e)).map Call.delivery =
        (l.flatMap (fun f => invoke (fun _ _ _ => .ok ()) f u e)).map Call.delivery := by
    intro l u e
    induction l with
    | nil => rfl
    | cons x xs ih =>
      rw [List.flatMap_cons, List.flatMap_cons, List.map_append, List.map_append, ih]
      cases x <;> rfl
  have hrep : ∀ (l : List OVVEvent),
      (l.flatMap (invoke run func uid)).map Call.delivery =
        (l.flatMap (invoke (fun _ _ _ => .ok ()) func uid)).map Call.delivery := by
    intro l
    induction l with
    | nil => rfl
    | cons x xs ih =>
      rw [List.flatMap_cons, List.flatMap_cons, List.map_append, List.map_append, ih]
      cases func <;> rfl
  refine ⟨rfl, rfl, ?_, rfl, rfl, ?_⟩
  · rw [publish_calls, publish_calls]
    split_ifs
    · have h := hinv (((s.subscribers (eventName ++ uid)).getD []).map Subscriber.Func) uid
        { eventName := eventName, eventTime := now, ovvArgs := args }
      rw [List.flatMap_map, List.flatMap_map] at h
      exact h
    · rfl
  · rw [subscribe_calls, subscribe_calls]
    split_ifs
    · exact hrep _
    · rfl
/-- C29, as stated, fails: a function subscribed only to the kind `ab` for the
asset `c` is invoked by `publish("a", "bc", ...)`, because both pairs give the key
`abc`. -/
theorem publish_key_counterexample :
    (publish (fun _ _ _ => .ok ())
      (runOps (fun _ _ _ => .ok ()) Bus.init [Op.subscribe ["ab"] "c" (.function 7) false]).1
      "a" "bc" "" 0).2 =
      [{ func := 7, uid := "bc", event := { eventName := "a", eventTime := 0, ovvArgs := "" },
         returned := true }] ∧
    registrationsFor "a" "bc" [Op.subscribe ["ab"] "c" (.function 7) false] = [] := by
  constructor
  · rw [(publish_calls _ _ _ _ _ _), if_pos ⟨by decide, by decide⟩, runOps_subscribers]
    decide
  · decide

/-- C29 (amended): subscriptions are keyed by the string `kind + uid`: on the state
reached by any sequence of calls on a new bus, `publish(kind, uid, ...)` invokes a
function only if that function was subscribed with some asset id `uid'` and some
kind `kind'` among its event kinds such that `kind' + uid' = kind + uid`. -/
theorem publish_invokes_only_same_key (run : Behaviour) (ops : List Op)
    (kind uid args : String) (now : ℕ) (c : Call)
    (hc : c ∈ (publish run (runOps run Bus.init ops).1 kind uid args now).2) :
    ∃ events uid' r, Op.subscribe events uid' (.function c.func) r ∈ ops ∧
      ∃ kind' ∈ events, kind' ++ uid' = kind ++ uid := by
  rw [publish_calls] at hc
  split_ifs at hc with hne
  · rw [runOps_subscribers, List.mem_flatMap] at hc
    obtain ⟨funcObject, hmem, hinv⟩ := hc
    have hf := (invoke_mem run _ uid _ c hinv).1
    simp only [Bus.init, Option.getD_none, List.nil_append, List.mem_map] at hmem
    obtain ⟨func, hreg, rfl⟩ := hmem
    have hf' : func = .function c.func := hf
    rw [hf'] at hreg
    exact registrations_mem (kind ++ uid) _ ops hreg
  · simp at hc

/-- Witness of C29 (amended): a function subscribed to `check` for `OVVID` is
invoked by `publish("check", "OVVID", ...)`. -/
theorem publish_invokes_only_same_key_witness :
    ∃ events uid' r,
      Op.subscribe events uid' (.function 7) r ∈
        [Op.subscribe ["check", "impression"] "OVVID" (.function 7) false] ∧
      ∃ kind' ∈ events, kind' ++ uid' = "check" ++ "OVVID" :=
  publish_invokes_only_same_key (fun _ _ _ => .ok ())
    [Op.subscribe ["check", "impression"] "OVVID" (.function 7) false] "check" "OVVID" "" 0
    { func := 7, uid := "OVVID",
      event := { eventName := "check", eventTime := 0, ovvArgs := "" }, returned := true }
    (by
      rw [(publish_calls _ _ _ _ _ _), if_pos ⟨by decide, by decide⟩, runOps_subscribers]
      decide)
theorem published_cons_publish (uid eventName args : String) (now : ℕ) (ops : List Op) :
    published uid (Op.publish eventName uid args now :: ops) =
      { eventName := eventName, eventTime := now, ovvArgs := args } :: published uid ops := by
  simp [published]

theorem published_publishes (uid : String) (pubs : List (String × String × ℕ)) (rest : List Op) :
    published uid (publishes uid pubs ++ rest) =
      pubs.map (fun p => ({ eventName := p.1, eventTime := p.2.2, ovvArgs := p.2.1 } : OVVEvent)) ++
        published uid rest := by
  induction pubs with
  | nil => rfl
  | cons p ps ih =>
    show published uid (Op.publish p.1 uid p.2.1 p.2.2 :: (publishes uid ps ++ rest)) = _
    rw [published_cons_publish, ih]
    rfl

/-- C30: after 1000 events of kind `A` published for the asset `OVVID`, the first
event of kind `B` published for it is not retained, and a later subscriber to `B`
that asks for the previous events receives nothing: the buffer keeps the first
1000 events of the asset, not the first 1000 of each event type. -/
theorem previousEvents_not_per_event_type (run : Behaviour) :
    ((published "OVVID" thousandThenOne).filter (fun e => decide (e.eventName = "B"))) =
      [{ eventName := "B", eventTime := 1000, ovvArgs := "" }] ∧
    ({ eventName := "B", eventTime := 1000, ovvArgs := "" } : OVVEvent) ∉
      buffer (runOps run Bus.init thousandThenOne).1 "OVVID" ∧
    (subscribe run (runOps run Bus.init thousandThenOne).1 ["B"] "OVVID" (.function 1) true).2 =
      [] := by
  have hpub : published "OVVID" thousandThenOne =
      ((List.range 1000).map (fun t => (("A", "", t) : String × String × ℕ))).map
        (fun p => ({ eventName := p.1, eventTime := p.2.2, ovvArgs := p.2.1 } : OVVEvent)) ++
        [{ eventName := "B", eventTime := 1000, ovvArgs := "" }] := by
    unfold thousandThenOne
    rw [published_publishes]
    rfl
  have hA : ∀ e ∈ ((List.range 1000).map (fun t => (("A", "", t) : String × String × ℕ))).map
      (fun p => ({ eventName := p.1, eventTime := p.2.2, ovvArgs := p.2.1 } : OVVEvent)),
      e.eventName = "A" := by
    intro e he
    simp only [List.map_map, List.mem_map] at he
    obtain ⟨t, -, rfl⟩ := he
    rfl
  have hbuf : buffer (runOps run Bus.init thousandThenOne).1 "OVVID" =
      ((List.range 1000).map (fun t => (("A", "", t) : String × String × ℕ))).map
        (fun p => ({ eventName := p.1, eventTime := p.2.2, ovvArgs := p.2.1 } : OVVEvent)) := by
    rw [runOps_buffer run "OVVID" thousandThenOne Bus.init (by simp [buffer, Bus.init]), hpub]
    show List.take PREVIOUS_EVENTS_CAPACITY ([] ++ _) = _
    rw [List.nil_append]
    exact List.take_left' (by simp [PREVIOUS_EVENTS_CAPACITY])
  refine ⟨?_, ?_, ?_⟩
  · rw [hpub, List.filter_append, List.filter_eq_nil_iff.2]
    · rfl
    · intro e he
      rw [hA e he]
      decide
  · rw [hbuf]
    intro hmem
    exact absurd (hA _ hmem) (by decide)
  · rw [subscribe_calls, if_pos rfl, hbuf, List.filter_eq_nil_iff.2]
    · rfl
    · intro e he
      rw [hA e he]
      decide
theorem string_append_right_cancel (a b u : String) (h : a ++ u = b ++ u) : a = b := by
  have h' := congrArg String.data h
  rw [String.data_append, String.data_append] at h'
  exact String.ext (List.append_cancel_right h')

theorem nodup_filter_eq (x : String) (K : List String) (hK : K.Nodup) :
    (K.filter (fun n => decide (n = x))).length = if x ∈ K then 1 else 0 := by
  induction K with
  | nil => rfl
  | cons k ks ih =>
    rw [List.nodup_cons] at hK
    by_cases hk : k = x
    · subst hk
      rw [List.filter_cons_of_pos (by simp), List.length_cons, ih hK.2, if_neg hK.1]
      simp
    · have hx : ¬ x = k := fun e => hk e.symm
      rw [List.filter_cons_of_neg (by simpa using hk), ih hK.2]
      simp [hx]

theorem filter_invoke (run : Behaviour) (f : ℕ) (u : String) (e : OVVEvent)
    (l : List Subscriber) :
    ((l.flatMap (fun o => invoke run o.Func u e)).filter (fun c => decide (c.func = f))).map
        (fun c => (c.uid, c.event)) =
      (l.filter (fun o => decide (o.Func = .function f))).map (fun _ => (u, e)) := by
  induction l with
  | nil => rfl
  | cons o os ih =>
    rw [List.flatMap_cons, List.filter_append, List.map_append, ih]
    obtain ⟨func⟩ := o
    cases func with
    | notCallable => simp [invoke]
    | function id =>
      by_cases h : id = f
      · subst h
        simp [invoke]
      · simp [invoke, h]

theorem replay_deliveries (run : Behaviour) (g : ℕ) (u : String) (l : List OVVEvent) :
    (l.flatMap (invoke run (.function g) u)).map (fun c => (c.uid, c.event)) =
      l.map (fun e => (u, e)) := by
  induction l with
  | nil => rfl
  | cons x xs ih =>
    rw [List.flatMap_cons, List.map_append, ih]
    rfl

theorem runOps_publishes_calls (run : Behaviour) (u : String) (hu : u ≠ "")
    (pubs : List (String × String × ℕ)) (hnames : ∀ p ∈ pubs, p.1 ≠ "") :
    ∀ s : Bus,
      (runOps run s (publishes u pubs)).2 =
        pubs.flatMap (fun p =>
          ((s.subscribers (p.1 ++ u)).getD []).flatMap
            (fun o => invoke run o.Func u
              { eventName := p.1, eventTime := p.2.2, ovvArgs := p.2.1 })) := by
  induction pubs with
  | nil => intro s; rfl
  | cons p ps ih =>
    intro s
    show (publish run s p.1 u p.2.1 p.2.2).2 ++
      (runOps run (publish run s p.1 u p.2.1 p.2.2).1 (publishes u ps)).2 = _
    rw [ih (fun q hq => hnames q (List.mem_cons_of_mem _ hq)), publish_subscribers,
      publish_calls, if_pos ⟨hnames p (List.mem_cons_self _ _), hu⟩, List.flatMap_cons]

/-- C40: on a bus with no buffered event for the non-empty asset id `u`, for a
duplicate-free list `K` of event kinds and at most 1000 `publish` calls for `u` with
non-empty event names, the sequence of `(u, event)` pairs delivered to a function
that subscribes to `(K, u)` with `getPreviousEvents = true` after the calls equals
the sequence delivered to a function, not registered before, that subscribed to
`(K, u)` before them. -/
theorem replay_reproduces_live (run : Behaviour) (s : Bus) (u : String) (K : List String)
    (pubs : List (String × String × ℕ)) (f g : ℕ) (r : Bool)
    (hu : u ≠ "") (hbuf : buffer s u = []) (hK : K.Nodup)
    (hlen : pubs.length ≤ 1000) (hnames : ∀ p ∈ pubs, p.1 ≠ "")
    (hfresh : ∀ key, ({ Func := .function f } : Subscriber) ∉ (s.subscribers key).getD []) :
    (subscribe run (runOps run s (publishes u pubs)).1 K u (.function g) true).2.map
        (fun c => (c.uid, c.event)) =
      ((runOps run s (Op.subscribe K u (.function f) r :: publishes u pubs)).2.filter
        (fun c => decide (c.func = f))).map (fun c => (c.uid, c.event)) := by
  have hreplay : (subscribe run (runOps run s (publishes u pubs)).1 K u (.function g) true).2.map
      (fun c => (c.uid, c.event)) =
      ((pubs.map (fun p =>
          ({ eventName := p.1, eventTime := p.2.2, ovvArgs := p.2.1 } : OVVEvent))).filter
        (fun e => decide (e.eventName ∈ K))).map (fun e => (u, e)) := by
    rw [subscribe_calls, if_pos rfl,
      runOps_buffer run u _ s (by rw [hbuf]; exact Nat.zero_le _), hbuf, List.nil_append]
    have hp : published u (publishes u pubs) =
        pubs.map (fun p =>
          ({ eventName := p.1, eventTime := p.2.2, ovvArgs := p.2.1 } : OVVEvent)) := by
      have h := published_publishes u pubs []
      rw [List.append_nil] at h
      rw [h]
      exact List.append_nil _
    rw [hp, List.take_of_length_le (by rw [List.length_map]; exact hlen)]
    exact replay_deliveries run g u _
  have hsub : (subscribe run s K u (.function f) r).2 = [] := by
    rw [subscribe_calls, hbuf]
    cases r <;> rfl
  have hone : ∀ p : String × String × ℕ,
      ((((subscribe run s K u (.function f) r).1.subscribers (p.1 ++ u)).getD []).filter
        (fun o => decide (o.Func = .function f))).length = if p.1 ∈ K then 1 else 0 := by
    intro p
    rw [subscribe_subscribers, List.filter_append, List.filter_eq_nil_iff.2, List.nil_append]
    · rw [List.filter_eq_self.2, List.length_map, ← nodup_filter_eq p.1 K hK]
      · congr 1
        apply List.filter_congr
        intro n _
        by_cases hn : n = p.1
        · simp [hn]
        · have hn' : ¬ n ++ u = p.1 ++ u := fun e => hn (string_append_right_cancel n p.1 u e)
          simp [hn, hn']
      · intro o ho
        rw [List.mem_map] at ho
        obtain ⟨_, -, rfl⟩ := ho
        simp
    · intro o ho
      obtain ⟨func⟩ := o
      have hne : func ≠ .function f := by
        intro e
        subst e
        exact hfresh _ ho
      simpa using hne
  have hlive : ((runOps run s (Op.subscribe K u (.function f) r :: publishes u pubs)).2.filter
      (fun c => decide (c.func = f))).map (fun c => (c.uid, c.event)) =
      pubs.flatMap (fun p =>
        if p.1 ∈ K then [(u, ({ eventName := p.1, eventTime := p.2.2, ovvArgs := p.2.1 } : OVVEvent))]
        else []) := by
    show (((subscribe run s K u (.function f) r).2 ++
      (runOps run (subscribe run s K u (.function f) r).1 (publishes u pubs)).2).filter
      (fun c => decide (c.func = f))).map (fun c => (c.uid, c.event)) = _
    rw [hsub, List.nil_append, runOps_publishes_calls run u hu pubs hnames]
    generalize (subscribe run s K u (.function f) r).1 = s₁ at hone
    clear hreplay hsub hlen
    induction pubs with
    | nil => rfl
    | cons p ps ih =>
      rw [List.flatMap_cons, List.filter_append, List.map_append, List.flatMap_cons,
        ih (fun q hq => hnames q (List.mem_cons_of_mem _ hq)), filter_invoke]
      congr 1
      have h1 := hone p
      generalize ((s₁.subscribers (p.1 ++ u)).getD []).filter
        (fun o => decide (o.Func = .function f)) = l at h1
      by_cases hp : p.1 ∈ K
      · rw [if_pos hp] at h1 ⊢
        obtain ⟨x, rfl⟩ := List.length_eq_one.1 h1
        rfl
      · rw [if_neg hp] at h1 ⊢
        rw [List.length_eq_zero.1 h1]
        rfl
  rw [hreplay, hlive]
  clear hreplay hlive hone hsub hlen hnames
  induction pubs with
  | nil => rfl
  | cons p ps ih =>
    rw [List.map_cons, List.flatMap_cons, ← ih]
    by_cases hp : p.1 ∈ K
    · rw [List.filter_cons_of_pos (by simpa using hp), if_pos hp]
      rfl
    · rw [List.filter_cons_of_neg (by simpa using hp), if_neg hp]
      rfl

/-- Witness of C40: three events are published for `OVVID` on a new bus, two of
them of the kinds `check` and `impression` of the subscription. -/
theorem replay_reproduces_live_witness :
    (subscribe (fun _ _ _ => .ok ())
      (runOps (fun _ _ _ => .ok ()) Bus.init
        (publishes "OVVID" [("check", "a", 1), ("other", "b", 2), ("impression", "c", 3)])).1
      ["check", "impression"] "OVVID" (.function 2) true).2.map (fun c => (c.uid, c.event)) =
      ((runOps (fun _ _ _ => .ok ()) Bus.init
        (Op.subscribe ["check", "impression"] "OVVID" (.function 1) true ::
          publishes "OVVID" [("check", "a", 1), ("other", "b", 2), ("impression", "c", 3)])).2.filter
        (fun c => decide (c.func = 1))).map (fun c => (c.uid, c.event)) :=
  replay_reproduces_live (fun _ _ _ => .ok ()) Bus.init "OVVID" ["check", "impression"]
    [("check", "a", 1), ("other", "b", 2), ("impression", "c", 3)] 1 2 true
    (by decide) rfl (by decide) (by decide) (by decide) (fun _ h => by simp [Bus.init] at h)
/-! ## The registry: lemmas -/

theorem deref_set_same (heap : List JSObject) (ref : ℕ) (o : JSObject) (h : ref < heap.length) :
    (heap.set ref o).getD ref [] = o := by
  simp [List.getD_eq_getElem?_getD, List.getElem?_set_self, h]

theorem deref_set_other (heap : List JSObject) (ref ref' : ℕ) (o : JSObject) (h : ref ≠ ref') :
    (heap.set ref o).getD ref' [] = heap.getD ref' [] := by
  simp [List.getD_eq_getElem?_getD, List.getElem?_set_ne h]

theorem hasOwnProperty_setProperty (o : JSObject) (key : String) (value : AssetRef) :
    (o.setProperty key value).hasOwnProperty key = true := by
  unfold JSObject.setProperty
  by_cases h : o.hasOwnProperty key = true
  · rw [if_pos h]
    unfold JSObject.hasOwnProperty at h ⊢
    rw [List.any_eq_true] at h ⊢
    obtain ⟨p, hp, hk⟩ := h
    refine ⟨(key, value), ?_, by simp⟩
    rw [List.mem_map]
    exact ⟨p, hp, by rw [if_pos (by simpa using hk)]⟩
  · rw [if_neg h]
    unfold JSObject.hasOwnProperty
    simp

theorem get_of_not_hasOwnProperty_append (o : JSObject) (key : String) (value : AssetRef)
    (h : o.hasOwnProperty key = false) : (o ++ [(key, value)]).get key = .asset value := by
  unfold JSObject.hasOwnProperty at h
  unfold JSObject.get
  have hfind : List.find? (fun p => decide (p.1 = key)) o = none := by
    rw [List.find?_eq_none]
    intro p hp
    have := List.any_eq_false.1 h p hp
    simpa using this
  rw [List.find?_append, hfind]
  simp

theorem get_setProperty_new (o : JSObject) (key : String) (value : AssetRef)
    (h : o.hasOwnProperty key = false) : (o.setProperty key value).get key = .asset value := by
  unfold JSObject.setProperty
  rw [if_neg (by rw [h]; decide)]
  exact get_of_not_hasOwnProperty_append o key value h

theorem get_setProperty_other (o : JSObject) (key key' : String) (value : AssetRef)
    (hk : key' ≠ key) (h : o.hasOwnProperty key = false) :
    (o.setProperty key value).get key' = o.get key' := by
  unfold JSObject.setProperty
  rw [if_neg (by rw [h]; decide)]
  unfold JSObject.get
  rw [List.find?_append]
  cases hf : List.find? (fun p => decide (p.1 = key')) o with
  | some p => rfl
  | none =>
    have hk' : ¬ key = key' := fun e => hk e.symm
    simp [hk']

theorem addAsset_of_hasOwnProperty (s : Registry) (a : AssetRef)
    (h : (s.deref s.assets).hasOwnProperty a.id = true) : addAsset s a = s := by
  unfold addAsset
  rw [if_neg (by rw [h]; decide)]

theorem addAsset_of_not_hasOwnProperty (s : Registry) (a : AssetRef)
    (h : (s.deref s.assets).hasOwnProperty a.id = false) :
    addAsset s a =
      { heap := s.heap.set s.assets ((s.deref s.assets).setProperty a.id a),
        assets := s.assets, asset := some a } := by
  unfold addAsset
  rw [if_pos (by rw [h]; rfl)]

theorem addAsset_assets (s : Registry) (a : AssetRef) :
    (addAsset s a).assets = s.assets ∧ (addAsset s a).heap.length = s.heap.length := by
  unfold addAsset
  split_ifs
  · exact ⟨rfl, List.length_set _ _ _⟩
  · exact ⟨rfl, rfl⟩

theorem hasOwnProperty_addAsset (s : Registry) (a : AssetRef) (hs : s.assets < s.heap.length) :
    ((addAsset s a).deref (addAsset s a).assets).hasOwnProperty a.id = true := by
  by_cases h : (s.deref s.assets).hasOwnProperty a.id = true
  · rw [addAsset_of_hasOwnProperty s a h]
    exact h
  · have h' : (s.deref s.assets).hasOwnProperty a.id = false := by simpa using h
    rw [addAsset_of_not_hasOwnProperty s a h']
    show ((s.heap.set s.assets _).getD s.assets []).hasOwnProperty a.id = true
    rw [deref_set_same _ _ _ hs]
    exact hasOwnProperty_setProperty _ _ _

theorem getAds_copy (o : JSObject) (rest : JSObject) :
    ∀ pre : JSObject, ((pre ++ rest).map Prod.fst).Nodup →
      (∀ p ∈ rest, o.hasOwnProperty p.1 = true) →
      rest.foldl (fun copy p => if o.hasOwnProperty p.1 then copy.setProperty p.1 p.2 else copy)
        pre = pre ++ rest := by
  induction rest with
  | nil => intro pre _ _; simp
  | cons x xs ih =>
    intro pre hnd hown
    rw [List.foldl_cons, if_pos (hown x (List.mem_cons_self _ _))]
    have hnew : pre.hasOwnProperty x.1 = false := by
      unfold JSObject.hasOwnProperty
      rw [List.any_eq_false]
      intro p hp
      simp only [decide_eq_true_eq]
      intro hpx
      rw [List.map_append, List.nodup_append] at hnd
      exact hnd.2.2 (List.mem_map_of_mem Prod.fst hp)
        (by rw [hpx]; exact List.mem_map_of_mem Prod.fst (List.mem_cons_self _ _))
    have hset : pre.setProperty x.1 x.2 = pre ++ [x] := by
      unfold JSObject.setProperty
      rw [if_neg (by rw [hnew]; decide)]
    rw [hset, ih (pre ++ [x]) (by simpa using hnd)
      (fun p hp => hown p (List.mem_cons_of_mem _ hp))]
    simp

theorem getAds_deref (s : Registry) (hs : s.wellFormed) :
    (getAds s).1.deref (getAds s).2 = s.deref s.assets := by
  have hcopy := getAds_copy (s.deref s.assets) (s.deref s.assets) [] (by simpa using hs.2)
    (by
      intro p hp
      unfold JSObject.hasOwnProperty
      rw [List.any_eq_true]
      exact ⟨p, hp, by simp⟩)
  unfold getAds Registry.deref
  simp only []
  rw [List.getD_eq_getElem?_getD, List.getElem?_append_right (le_refl _)]
  simp only [Nat.sub_self, List.getElem?_cons_zero, Option.getD_some]
  exact hcopy

theorem mutate_frame (ref : ℕ) (changes : List Mutation) :
    ∀ s : Registry, ref ≠ s.assets →
      (mutate s ref changes).assets = s.assets ∧
      (mutate s ref changes).asset = s.asset ∧
      (mutate s ref changes).heap.length = s.heap.length ∧
      (mutate s ref changes).deref s.assets = s.deref s.assets := by
  induction changes with
  | nil => intro s _; exact ⟨rfl, rfl, rfl, rfl⟩
  | cons c cs ih =>
    intro s hne
    unfold mutate at ih ⊢
    rw [List.foldl_cons]
    cases c with
    | assign key value =>
      obtain ⟨h1, h2, h3, h4⟩ := ih { s with heap := s.heap.set ref ((s.deref ref).setProperty key value) } hne
      refine ⟨h1, h2, ?_, ?_⟩
      · rw [h3]
        exact List.length_set _ _ _
      · have h4' := h4
        simp only [] at h4'
        rw [h4']
        exact deref_set_other _ _ _ _ hne
    | remove key =>
      obtain ⟨h1, h2, h3, h4⟩ := ih { s with heap := s.heap.set ref ((s.deref ref).deleteProperty key) } hne
      refine ⟨h1, h2, ?_, ?_⟩
      · rw [h3]
        exact List.length_set _ _ _
      · have h4' := h4
        simp only [] at h4'
        rw [h4']
        exact deref_set_other _ _ _ _ hne
/-! ## Claims on the registry and on disposal -/

/-- C31, as stated, fails in a state where the id is already registered: with
`c` registered under `OVVID`, `addAsset(a)` followed by `addAsset(b)` for two other
assets with that id leaves `c` registered, not `a`. -/
theorem addAsset_counterexample :
    getAssetById
      (addAsset (addAsset (addAsset Registry.init { id := "OVVID", tag := 0 })
        { id := "OVVID", tag := 1 }) { id := "OVVID", tag := 2 }) "OVVID" =
      .asset { id := "OVVID", tag := 0 } ∧
    (addAsset (addAsset (addAsset Registry.init { id := "OVVID", tag := 0 })
      { id := "OVVID", tag := 1 }) { id := "OVVID", tag := 2 }).asset =
      some { id := "OVVID", tag := 0 } := by
  constructor <;> decide

/-- C31 (amended): for two assets `a` and `b` with the same id, in every state the
second of the calls `addAsset(a)`, `addAsset(b)` changes nothing.  If the id is not
registered, `addAsset(a)` stores `a` under it, leaves the other ids as they were and
sets the property `asset` to `a`, and after both calls `getAssetById(id)` still
returns `a`.  If the id is already registered, `addAsset(a)` changes nothing
either. -/
theorem addAsset_first_wins (s : Registry) (a b : AssetRef) (hs : s.assets < s.heap.length)
    (hid : b.id = a.id) :
    addAsset (addAsset s a) b = addAsset s a ∧
    ((s.deref s.assets).hasOwnProperty a.id = false →
      getAssetById (addAsset s a) a.id = .asset a ∧
      (addAsset s a).asset = some a ∧
      (∀ id, id ≠ a.id → getAssetById (addAsset s a) id = getAssetById s id) ∧
      getAssetById (addAsset (addAsset s a) b) a.id = .asset a ∧
      (addAsset (addAsset s a) b).asset = some a) ∧
    ((s.deref s.assets).hasOwnProperty a.id = true → addAsset s a = s) := by
  have hsecond : addAsset (addAsset s a) b = addAsset s a := by
    apply addAsset_of_hasOwnProperty
    rw [hid]
    exact hasOwnProperty_addAsset s a hs
  have hfirst : (s.deref s.assets).hasOwnProperty a.id = false →
      getAssetById (addAsset s a) a.id = .asset a ∧ (addAsset s a).asset = some a ∧
        (∀ id, id ≠ a.id → getAssetById (addAsset s a) id = getAssetById s id) := by
    intro hnew
    rw [addAsset_of_not_hasOwnProperty s a hnew]
    refine ⟨?_, rfl, ?_⟩
    · show ((s.heap.set s.assets _).getD s.assets []).get a.id = _
      rw [deref_set_same _ _ _ hs]
      exact get_setProperty_new _ _ _ hnew
    · intro id hne
      show ((s.heap.set s.assets _).getD s.assets []).get id = _
      rw [deref_set_same _ _ _ hs]
      exact get_setProperty_other _ _ _ _ hne hnew
  refine ⟨hsecond, ?_, addAsset_of_hasOwnProperty s a⟩
  intro hnew
  obtain ⟨h1, h2, h3⟩ := hfirst hnew
  refine ⟨h1, h2, h3, ?_, ?_⟩
  · rw [hsecond]
    exact h1
  · rw [hsecond]
    exact h2

/-- Witness of C31 (amended): two assets with the id `OVVID` are added to a new
registry; the first one stays registered. -/
theorem addAsset_first_wins_witness :
    addAsset (addAsset Registry.init { id := "OVVID", tag := 1 }) { id := "OVVID", tag := 2 } =
      addAsset Registry.init { id := "OVVID", tag := 1 } ∧
    getAssetById
      (addAsset (addAsset Registry.init { id := "OVVID", tag := 1 }) { id := "OVVID", tag := 2 })
      "OVVID" = .asset { id := "OVVID", tag := 1 } :=
  ⟨(addAsset_first_wins Registry.init { id := "OVVID", tag := 1 } { id := "OVVID", tag := 2 }
      (by decide) rfl).1,
   ((addAsset_first_wins Registry.init { id := "OVVID", tag := 1 } { id := "OVVID", tag := 2 }
      (by decide) rfl).2.1 (by decide)).2.2.2.1⟩

/-- C33: in a well-formed state `getAds()` returns a reference to a newly allocated
object, distinct from `assets` and from every object of the heap before the call,
whose own properties are exactly those of `assets`; it does not change what
`getAssetById` returns; and after any assignments and deletions made through the
returned reference, `getAssetById` returns what it returned before for every id, and
a later `getAds()` returns another new object whose own properties are again
exactly the registered pairs. -/
theorem getAds_new_container (s : Registry) (hs : s.wellFormed) (changes : List Mutation) :
    (getAds s).2 = s.heap.length ∧
    (getAds s).2 ≠ s.assets ∧
    (getAds s).1.deref (getAds s).2 = s.deref s.assets ∧
    (∀ id, ((getAds s).1.deref (getAds s).2).get id = getAssetById s id) ∧
    (∀ id, getAssetById (getAds s).1 id = getAssetById s id) ∧
    (∀ id, getAssetById (mutate (getAds s).1 (getAds s).2 changes) id = getAssetById s id) ∧
    (getAds (mutate (getAds s).1 (getAds s).2 changes)).2 ≠ (getAds s).2 ∧
    (getAds (mutate (getAds s).1 (getAds s).2 changes)).1.deref
        (getAds (mutate (getAds s).1 (getAds s).2 changes)).2 = s.deref s.assets := by
  have hne : (getAds s).2 ≠ (getAds s).1.assets := fun e => absurd hs.1 (by
    have e' : s.heap.length = s.assets := e
    omega)
  have hsame : (getAds s).1.deref (getAds s).1.assets = s.deref s.assets := by
    show (s.heap ++ [_]).getD s.assets [] = s.heap.getD s.assets []
    rw [List.getD_eq_getElem?_getD, List.getD_eq_getElem?_getD, List.getElem?_append_left hs.1]
  obtain ⟨m1, -, m3, m4⟩ := mutate_frame (getAds s).2 changes (getAds s).1 hne
  have hm : (mutate (getAds s).1 (getAds s).2 changes).deref
      (mutate (getAds s).1 (getAds s).2 changes).assets = s.deref s.assets := by
    rw [m1, m4, hsame]
  have hwf : (mutate (getAds s).1 (getAds s).2 changes).wellFormed := by
    refine ⟨?_, ?_⟩
    · rw [m1, m3]
      show s.assets < (s.heap ++ [_]).length
      rw [List.length_append]
      exact Nat.lt_add_right _ hs.1
    · rw [hm]
      exact hs.2
  refine ⟨rfl, fun e => absurd hs.1 (by have e' : s.heap.length = s.assets := e; omega),
    getAds_deref s hs, ?_, ?_, ?_, ?_, ?_⟩
  · intro id
    rw [getAds_deref s hs]
    rfl
  · intro id
    show ((getAds s).1.deref (getAds s).1.assets).get id = _
    rw [hsame]
    rfl
  · intro id
    show ((mutate (getAds s).1 (getAds s).2 changes).deref
      (mutate (getAds s).1 (getAds s).2 changes).assets).get id = _
    rw [hm]
    rfl
  · show (mutate (getAds s).1 (getAds s).2 changes).heap.length ≠ s.heap.length
    rw [m3]
    show (s.heap ++ [_]).length ≠ s.heap.length
    rw [List.length_append]
    simp
  · rw [getAds_deref _ hwf, hm]

/-- Witness of C33: with two assets registered, the caller deletes one entry of
the returned object and adds another; the registry and a later `getAds()` are not
affected. -/
theorem getAds_new_container_witness :
    getAssetById
      (mutate
        (getAds (addAsset (addAsset Registry.init { id := "A", tag := 0 }) { id := "B", tag := 1 })).1
        (getAds (addAsset (addAsset Registry.init { id := "A", tag := 0 }) { id := "B", tag := 1 })).2
        [.remove "A", .assign "C" { id := "C", tag := 2 }]) "A" =
      getAssetById (addAsset (addAsset Registry.init { id := "A", tag := 0 }) { id := "B", tag := 1 })
        "A" :=
  (getAds_new_container
    (addAsset (addAsset Registry.init { id := "A", tag := 0 }) { id := "B", tag := 1 })
    ⟨by decide, by show List.Nodup _; decide⟩
    [.remove "A", .assign "C" { id := "C", tag := 2 }]).2.2.2.2.2.1 "A"

/-- C32: no asset was ever added, and `getAssetById("constructor")` returns the
member `constructor` inherited from `Object.prototype`, not `null`; for an id that
is not a member of `Object.prototype` it returns `undefined`. -/
theorem getAssetById_inherited_member :
    getAssetById Registry.init "constructor" = .inherited "constructor" ∧
    (Registry.init.deref Registry.init.assets).hasOwnProperty "constructor" = false ∧
    (getAds Registry.init).1.deref (getAds Registry.init).2 = [] ∧
    getAssetById Registry.init "OVVID" = .undefined ∧
    getAssetById (removeAsset (addAsset Registry.init { id := "toString", tag := 0 })
      { id := "toString", tag := 0 }) "toString" = .inherited "toString" := by
  refine ⟨?_, ?_, ?_, ?_, ?_⟩ <;> decide

/-- C34: on a page with the 14 beacon containers of the registered asset `OVVID`,
the first `dispose()` returns, removes the asset from the registry and the
containers 1 to 13 from the document, and leaves the container of the control
beacon (index 0) in the document; the second `dispose()` throws. -/
theorem dispose_twice_throws :
    ∃ p₁, dispose beaconPage { id := "OVVID", tag := 0 } = .ok p₁ ∧
      getAssetById beaconPage.ovv "OVVID" = .asset { id := "OVVID", tag := 0 } ∧
      getAssetById p₁.ovv "OVVID" = .undefined ∧
      p₁.attached = [0] ∧
      dispose p₁ { id := "OVVID", tag := 0 } =
        .error "TypeError: container.parentElement is null" := by
  exact ⟨_, rfl, rfl, rfl, rfl, rfl⟩

end OVV
